import Mathlib

/-! Migration entry points of `migrations/cmd`.

A shallow embedding of the Go package `migrations/cmd`: the enumeration code
tables (`localeCode.go`, `currencyCode.go`, `countryCode.go`), the reference
data seeder `insertInitialData` and the versioned entry points
`Up0001` .. `Down0004`, followed by the properties proved about them.
-/

namespace Migrations

/-! ## Enumeration code tables -/

/-- Go type LocaleCode: a string token (localeCode.go). -/
abbrev LocaleCode := String

def LocaleCodeEn : LocaleCode := "en"
def LocaleCodeRu : LocaleCode := "ru"
def LocaleCodeUk : LocaleCode := "uk"
def LocaleCodeFr : LocaleCode := "fr"
def LocaleCodeEs : LocaleCode := "es"
def LocaleCodeDe : LocaleCode := "de"
def LocaleCodeIt : LocaleCode := "it"
def LocaleCodePt : LocaleCode := "pt"
def LocaleCodeJa : LocaleCode := "ja"
def LocaleCodeKo : LocaleCode := "ko"
def LocaleCodeZhCn : LocaleCode := "zh_CN"
def LocaleCodeZhTw : LocaleCode := "zh_TW"
def LocaleCodePl : LocaleCode := "pl"
def LocaleCodeTr : LocaleCode := "tr"
def LocaleCodeNl : LocaleCode := "nl"
def LocaleCodeAr : LocaleCode := "ar"
def LocaleCodeHe : LocaleCode := "he"
def LocaleCodeHi : LocaleCode := "hi"
def LocaleCodeBn : LocaleCode := "bn"
def LocaleCodeVi : LocaleCode := "vi"
def LocaleCodeTh : LocaleCode := "th"
def LocaleCodeID : LocaleCode := "id"
def LocaleCodeMs : LocaleCode := "ms"
def LocaleCodeCs : LocaleCode := "cs"
def LocaleCodeSk : LocaleCode := "sk"
def LocaleCodeRo : LocaleCode := "ro"
def LocaleCodeHu : LocaleCode := "hu"
def LocaleCodeEl : LocaleCode := "el"
def LocaleCodeBg : LocaleCode := "bg"
def LocaleCodeSr : LocaleCode := "sr"
def LocaleCodeHr : LocaleCode := "hr"
def LocaleCodeSl : LocaleCode := "sl"
def LocaleCodeLt : LocaleCode := "lt"
def LocaleCodeLv : LocaleCode := "lv"
def LocaleCodeEt : LocaleCode := "et"
def LocaleCodeFi : LocaleCode := "fi"
def LocaleCodeSv : LocaleCode := "sv"
def LocaleCodeNo : LocaleCode := "no"
def LocaleCodeDa : LocaleCode := "da"
def LocaleCodeIs : LocaleCode := "is"
def LocaleCodeFil : LocaleCode := "fil"
def LocaleCodeSw : LocaleCode := "sw"
def LocaleCodeAz : LocaleCode := "az"
def LocaleCodeHy : LocaleCode := "hy"
def LocaleCodeKa : LocaleCode := "ka"
def LocaleCodeKk : LocaleCode := "kk"
def LocaleCodeUz : LocaleCode := "uz"
def LocaleCodeTk : LocaleCode := "tk"
def LocaleCodeKy : LocaleCode := "ky"
def LocaleCodeTg : LocaleCode := "tg"
def LocaleCodePs : LocaleCode := "ps"
def LocaleCodeFa : LocaleCode := "fa"
def LocaleCodeKu : LocaleCode := "ku"
def LocaleCodeMn : LocaleCode := "mn"
def LocaleCodeNe : LocaleCode := "ne"
def LocaleCodeSi : LocaleCode := "si"
def LocaleCodeTa : LocaleCode := "ta"
def LocaleCodeTe : LocaleCode := "te"
def LocaleCodeKn : LocaleCode := "kn"
def LocaleCodeMl : LocaleCode := "ml"
def LocaleCodeMr : LocaleCode := "mr"
def LocaleCodeGu : LocaleCode := "gu"
def LocaleCodePa : LocaleCode := "pa"
def LocaleCodeLo : LocaleCode := "lo"
def LocaleCodeMy : LocaleCode := "my"
def LocaleCodeKm : LocaleCode := "km"
def LocaleCodeEu : LocaleCode := "eu"
def LocaleCodeGl : LocaleCode := "gl"
def LocaleCodeCa : LocaleCode := "ca"
def LocaleCodeCy : LocaleCode := "cy"
def LocaleCodeGa : LocaleCode := "ga"
def LocaleCodeGd : LocaleCode := "gd"
def LocaleCodeHt : LocaleCode := "ht"
def LocaleCodeAf : LocaleCode := "af"
def LocaleCodeZu : LocaleCode := "zu"
def LocaleCodeXh : LocaleCode := "xh"
def LocaleCodeYo : LocaleCode := "yo"
def LocaleCodeIg : LocaleCode := "ig"
def LocaleCodeAm : LocaleCode := "am"
def LocaleCodeMg : LocaleCode := "mg"
def LocaleCodeMi : LocaleCode := "mi"
def LocaleCodeSm : LocaleCode := "sm"
def LocaleCodeTo : LocaleCode := "to"
def LocaleCodeEo : LocaleCode := "eo"
def LocaleCodeLa : LocaleCode := "la"

/-- The package-level list AllLocaleCode of localeCode.go, in source order. -/
def AllLocaleCode : List LocaleCode := [
  LocaleCodeEn,
  LocaleCodeRu,
  LocaleCodeUk,
  LocaleCodeFr,
  LocaleCodeEs,
  LocaleCodeDe,
  LocaleCodeIt,
  LocaleCodePt,
  LocaleCodeJa,
  LocaleCodeKo,
  LocaleCodeZhCn,
  LocaleCodeZhTw,
  LocaleCodePl,
  LocaleCodeTr,
  LocaleCodeNl,
  LocaleCodeAr,
  LocaleCodeHe,
  LocaleCodeHi,
  LocaleCodeBn,
  LocaleCodeVi,
  LocaleCodeTh,
  LocaleCodeID,
  LocaleCodeMs,
  LocaleCodeCs,
  LocaleCodeSk,
  LocaleCodeRo,
  LocaleCodeHu,
  LocaleCodeEl,
  LocaleCodeBg,
  LocaleCodeSr,
  LocaleCodeHr,
  LocaleCodeSl,
  LocaleCodeLt,
  LocaleCodeLv,
  LocaleCodeEt,
  LocaleCodeFi,
  LocaleCodeSv,
  LocaleCodeNo,
  LocaleCodeDa,
  LocaleCodeIs,
  LocaleCodeFil,
  LocaleCodeSw,
  LocaleCodeAz,
  LocaleCodeHy,
  LocaleCodeKa,
  LocaleCodeKk,
  LocaleCodeUz,
  LocaleCodeTk,
  LocaleCodeKy,
  LocaleCodeTg,
  LocaleCodePs,
  LocaleCodeFa,
  LocaleCodeKu,
  LocaleCodeMn,
  LocaleCodeNe,
  LocaleCodeSi,
  LocaleCodeTa,
  LocaleCodeTe,
  LocaleCodeKn,
  LocaleCodeMl,
  LocaleCodeMr,
  LocaleCodeGu,
  LocaleCodePa,
  LocaleCodeLo,
  LocaleCodeMy,
  LocaleCodeKm,
  LocaleCodeEu,
  LocaleCodeGl,
  LocaleCodeCa,
  LocaleCodeCy,
  LocaleCodeGa,
  LocaleCodeGd,
  LocaleCodeHt,
  LocaleCodeAf,
  LocaleCodeZu,
  LocaleCodeXh,
  LocaleCodeYo,
  LocaleCodeIg,
  LocaleCodeAm,
  LocaleCodeMg,
  LocaleCodeMi,
  LocaleCodeSm,
  LocaleCodeTo,
  LocaleCodeEo,
  LocaleCodeLa
]

/-- Go type CurrencyCode: a string token (currencyCode.go). -/
abbrev CurrencyCode := String

def CurrencyCodeAed : CurrencyCode := "AED"
def CurrencyCodeAfn : CurrencyCode := "AFN"
def CurrencyCodeAll : CurrencyCode := "ALL"
def CurrencyCodeAmd : CurrencyCode := "AMD"
def CurrencyCodeAng : CurrencyCode := "ANG"
def CurrencyCodeAoa : CurrencyCode := "AOA"
def CurrencyCodeArs : CurrencyCode := "ARS"
def CurrencyCodeAud : CurrencyCode := "AUD"
def CurrencyCodeAwg : CurrencyCode := "AWG"
def CurrencyCodeAzn : CurrencyCode := "AZN"
def CurrencyCodeBam : CurrencyCode := "BAM"
def CurrencyCodeBbd : CurrencyCode := "BBD"
def CurrencyCodeBdt : CurrencyCode := "BDT"
def CurrencyCodeBgn : CurrencyCode := "BGN"
def CurrencyCodeBhd : CurrencyCode := "BHD"
def CurrencyCodeBif : CurrencyCode := "BIF"
def CurrencyCodeBmd : CurrencyCode := "BMD"
def CurrencyCodeBnd : CurrencyCode := "BND"
def CurrencyCodeBob : CurrencyCode := "BOB"
def CurrencyCodeBrl : CurrencyCode := "BRL"
def CurrencyCodeBsd : CurrencyCode := "BSD"
def CurrencyCodeBtn : CurrencyCode := "BTN"
def CurrencyCodeBwp : CurrencyCode := "BWP"
def CurrencyCodeByn : CurrencyCode := "BYN"
def CurrencyCodeBzd : CurrencyCode := "BZD"
def CurrencyCodeCad : CurrencyCode := "CAD"
def CurrencyCodeCdf : CurrencyCode := "CDF"
def CurrencyCodeChf : CurrencyCode := "CHF"
def CurrencyCodeClp : CurrencyCode := "CLP"
def CurrencyCodeCny : CurrencyCode := "CNY"
def CurrencyCodeCop : CurrencyCode := "COP"
def CurrencyCodeCrc : CurrencyCode := "CRC"
def CurrencyCodeCup : CurrencyCode := "CUP"
def CurrencyCodeCve : CurrencyCode := "CVE"
def CurrencyCodeCzk : CurrencyCode := "CZK"
def CurrencyCodeDjf : CurrencyCode := "DJF"
def CurrencyCodeDkk : CurrencyCode := "DKK"
def CurrencyCodeDop : CurrencyCode := "DOP"
def CurrencyCodeDzd : CurrencyCode := "DZD"
def CurrencyCodeEgp : CurrencyCode := "EGP"
def CurrencyCodeErn : CurrencyCode := "ERN"
def CurrencyCodeEtb : CurrencyCode := "ETB"
def CurrencyCodeEur : CurrencyCode := "EUR"
def CurrencyCodeFjd : CurrencyCode := "FJD"
def CurrencyCodeFkp : CurrencyCode := "FKP"
def CurrencyCodeFok : CurrencyCode := "FOK"
def CurrencyCodeGbp : CurrencyCode := "GBP"
def CurrencyCodeGel : CurrencyCode := "GEL"
def CurrencyCodeGgp : CurrencyCode := "GGP"
def CurrencyCodeGhs : CurrencyCode := "GHS"
def CurrencyCodeGip : CurrencyCode := "GIP"
def CurrencyCodeGmd : CurrencyCode := "GMD"
def CurrencyCodeGnf : CurrencyCode := "GNF"
def CurrencyCodeGtq : CurrencyCode := "GTQ"
def CurrencyCodeGyd : CurrencyCode := "GYD"
def CurrencyCodeHkd : CurrencyCode := "HKD"
def CurrencyCodeHnl : CurrencyCode := "HNL"
def CurrencyCodeHrk : CurrencyCode := "HRK"
def CurrencyCodeHtg : CurrencyCode := "HTG"
def CurrencyCodeHuf : CurrencyCode := "HUF"
def CurrencyCodeIDR : CurrencyCode := "IDR"
def CurrencyCodeIls : CurrencyCode := "ILS"
def CurrencyCodeImp : CurrencyCode := "IMP"
def CurrencyCodeInr : CurrencyCode := "INR"
def CurrencyCodeIqd : CurrencyCode := "IQD"
def CurrencyCodeIrr : CurrencyCode := "IRR"
def CurrencyCodeIsk : CurrencyCode := "ISK"
def CurrencyCodeJep : CurrencyCode := "JEP"
def CurrencyCodeJmd : CurrencyCode := "JMD"
def CurrencyCodeJod : CurrencyCode := "JOD"
def CurrencyCodeJpy : CurrencyCode := "JPY"
def CurrencyCodeKes : CurrencyCode := "KES"
def CurrencyCodeKgs : CurrencyCode := "KGS"
def CurrencyCodeKhr : CurrencyCode := "KHR"
def CurrencyCodeKmf : CurrencyCode := "KMF"
def CurrencyCodeKpw : CurrencyCode := "KPW"
def CurrencyCodeKrw : CurrencyCode := "KRW"
def CurrencyCodeKwd : CurrencyCode := "KWD"
def CurrencyCodeKyd : CurrencyCode := "KYD"
def CurrencyCodeKzt : CurrencyCode := "KZT"
def CurrencyCodeLak : CurrencyCode := "LAK"
def CurrencyCodeLbp : CurrencyCode := "LBP"
def CurrencyCodeLkr : CurrencyCode := "LKR"
def CurrencyCodeLrd : CurrencyCode := "LRD"
def CurrencyCodeLyd : CurrencyCode := "LYD"
def CurrencyCodeMad : CurrencyCode := "MAD"
def CurrencyCodeMdl : CurrencyCode := "MDL"
def CurrencyCodeMga : CurrencyCode := "MGA"
def CurrencyCodeMkd : CurrencyCode := "MKD"
def CurrencyCodeMmk : CurrencyCode := "MMK"
def CurrencyCodeMnt : CurrencyCode := "MNT"
def CurrencyCodeMop : CurrencyCode := "MOP"
def CurrencyCodeMru : CurrencyCode := "MRU"
def CurrencyCodeMur : CurrencyCode := "MUR"
def CurrencyCodeMvr : CurrencyCode := "MVR"
def CurrencyCodeMwk : CurrencyCode := "MWK"
def CurrencyCodeMxn : CurrencyCode := "MXN"
def CurrencyCodeMyr : CurrencyCode := "MYR"
def CurrencyCodeMzn : CurrencyCode := "MZN"
def CurrencyCodeNad : CurrencyCode := "NAD"
def CurrencyCodeNgn : CurrencyCode := "NGN"
def CurrencyCodeNio : CurrencyCode := "NIO"
def CurrencyCodeNok : CurrencyCode := "NOK"
def CurrencyCodeNpr : CurrencyCode := "NPR"
def CurrencyCodeNzd : CurrencyCode := "NZD"
def CurrencyCodeOmr : CurrencyCode := "OMR"
def CurrencyCodePab : CurrencyCode := "PAB"
def CurrencyCodePen : CurrencyCode := "PEN"
def CurrencyCodePgk : CurrencyCode := "PGK"
def CurrencyCodePhp : CurrencyCode := "PHP"
def CurrencyCodePkr : CurrencyCode := "PKR"
def CurrencyCodePln : CurrencyCode := "PLN"
def CurrencyCodePyg : CurrencyCode := "PYG"
def CurrencyCodeQar : CurrencyCode := "QAR"
def CurrencyCodeRon : CurrencyCode := "RON"
def CurrencyCodeRsd : CurrencyCode := "RSD"
def CurrencyCodeRub : CurrencyCode := "RUB"
def CurrencyCodeRwf : CurrencyCode := "RWF"
def CurrencyCodeSar : CurrencyCode := "SAR"
def CurrencyCodeSbd : CurrencyCode := "SBD"
def CurrencyCodeScr : CurrencyCode := "SCR"
def CurrencyCodeSdg : CurrencyCode := "SDG"
def CurrencyCodeSek : CurrencyCode := "SEK"
def CurrencyCodeSgd : CurrencyCode := "SGD"
def CurrencyCodeShp : CurrencyCode := "SHP"
def CurrencyCodeSle : CurrencyCode := "SLE"
def CurrencyCodeSos : CurrencyCode := "SOS"
def CurrencyCodeSrd : CurrencyCode := "SRD"
def CurrencyCodeSsp : CurrencyCode := "SSP"
def CurrencyCodeStn : CurrencyCode := "STN"
def CurrencyCodeSvc : CurrencyCode := "SVC"
def CurrencyCodeSyp : CurrencyCode := "SYP"
def CurrencyCodeSzl : CurrencyCode := "SZL"
def CurrencyCodeThb : CurrencyCode := "THB"
def CurrencyCodeTjs : CurrencyCode := "TJS"
def CurrencyCodeTmt : CurrencyCode := "TMT"
def CurrencyCodeTnd : CurrencyCode := "TND"
def CurrencyCodeTop : CurrencyCode := "TOP"
def CurrencyCodeTry : CurrencyCode := "TRY"
def CurrencyCodeTtd : CurrencyCode := "TTD"
def CurrencyCodeTwd : CurrencyCode := "TWD"
def CurrencyCodeTzs : CurrencyCode := "TZS"
def CurrencyCodeUah : CurrencyCode := "UAH"
def CurrencyCodeUgx : CurrencyCode := "UGX"
def CurrencyCodeUsd : CurrencyCode := "USD"
def CurrencyCodeUyu : CurrencyCode := "UYU"
def CurrencyCodeUzs : CurrencyCode := "UZS"
def CurrencyCodeVes : CurrencyCode := "VES"
def CurrencyCodeVnd : CurrencyCode := "VND"
def CurrencyCodeVuv : CurrencyCode := "VUV"
def CurrencyCodeWst : CurrencyCode := "WST"
def CurrencyCodeXaf : CurrencyCode := "XAF"
def CurrencyCodeXcd : CurrencyCode := "XCD"
def CurrencyCodeXdr : CurrencyCode := "XDR"
def CurrencyCodeXof : CurrencyCode := "XOF"
def CurrencyCodeXpf : CurrencyCode := "XPF"
def CurrencyCodeYer : CurrencyCode := "YER"
def CurrencyCodeZar : CurrencyCode := "ZAR"
def CurrencyCodeZmw : CurrencyCode := "ZMW"
def CurrencyCodeZwl : CurrencyCode := "ZWL"

/-- The package-level list AllCurrencyCode of currencyCode.go, in source order. -/
def AllCurrencyCode : List CurrencyCode := [
  CurrencyCodeAed,
  CurrencyCodeAfn,
  CurrencyCodeAll,
  CurrencyCodeAmd,
  CurrencyCodeAng,
  CurrencyCodeAoa,
  CurrencyCodeArs,
  CurrencyCodeAud,
  CurrencyCodeAwg,
  CurrencyCodeAzn,
  CurrencyCodeBam,
  CurrencyCodeBbd,
  CurrencyCodeBdt,
  CurrencyCodeBgn,
  CurrencyCodeBhd,
  CurrencyCodeBif,
  CurrencyCodeBmd,
  CurrencyCodeBnd,
  CurrencyCodeBob,
  CurrencyCodeBrl,
  CurrencyCodeBsd,
  CurrencyCodeBtn,
  CurrencyCodeBwp,
  CurrencyCodeByn,
  CurrencyCodeBzd,
  CurrencyCodeCad,
  CurrencyCodeCdf,
  CurrencyCodeChf,
  CurrencyCodeClp,
  CurrencyCodeCny,
  CurrencyCodeCop,
  CurrencyCodeCrc,
  CurrencyCodeCup,
  CurrencyCodeCve,
  CurrencyCodeCzk,
  CurrencyCodeDjf,
  CurrencyCodeDkk,
  CurrencyCodeDop,
  CurrencyCodeDzd,
  CurrencyCodeEgp,
  CurrencyCodeErn,
  CurrencyCodeEtb,
  CurrencyCodeEur,
  CurrencyCodeFjd,
  CurrencyCodeFkp,
  CurrencyCodeFok,
  CurrencyCodeGbp,
  CurrencyCodeGel,
  CurrencyCodeGgp,
  CurrencyCodeGhs,
  CurrencyCodeGip,
  CurrencyCodeGmd,
  CurrencyCodeGnf,
  CurrencyCodeGtq,
  CurrencyCodeGyd,
  CurrencyCodeHkd,
  CurrencyCodeHnl,
  CurrencyCodeHrk,
  CurrencyCodeHtg,
  CurrencyCodeHuf,
  CurrencyCodeIDR,
  CurrencyCodeIls,
  CurrencyCodeImp,
  CurrencyCodeInr,
  CurrencyCodeIqd,
  CurrencyCodeIrr,
  CurrencyCodeIsk,
  CurrencyCodeJep,
  CurrencyCodeJmd,
  CurrencyCodeJod,
  CurrencyCodeJpy,
  CurrencyCodeKes,
  CurrencyCodeKgs,
  CurrencyCodeKhr,
  CurrencyCodeKmf,
  CurrencyCodeKpw,
  CurrencyCodeKrw,
  CurrencyCodeKwd,
  CurrencyCodeKyd,
  CurrencyCodeKzt,
  CurrencyCodeLak,
  CurrencyCodeLbp,
  CurrencyCodeLkr,
  CurrencyCodeLrd,
  CurrencyCodeLyd,
  CurrencyCodeMad,
  CurrencyCodeMdl,
  CurrencyCodeMga,
  CurrencyCodeMkd,
  CurrencyCodeMmk,
  CurrencyCodeMnt,
  CurrencyCodeMop,
  CurrencyCodeMru,
  CurrencyCodeMur,
  CurrencyCodeMvr,
  CurrencyCodeMwk,
  CurrencyCodeMxn,
  CurrencyCodeMyr,
  CurrencyCodeMzn,
  CurrencyCodeNad,
  CurrencyCodeNgn,
  CurrencyCodeNio,
  CurrencyCodeNok,
  CurrencyCodeNpr,
  CurrencyCodeNzd,
  CurrencyCodeOmr,
  CurrencyCodePab,
  CurrencyCodePen,
  CurrencyCodePgk,
  CurrencyCodePhp,
  CurrencyCodePkr,
  CurrencyCodePln,
  CurrencyCodePyg,
  CurrencyCodeQar,
  CurrencyCodeRon,
  CurrencyCodeRsd,
  CurrencyCodeRub,
  CurrencyCodeRwf,
  CurrencyCodeSar,
  CurrencyCodeSbd,
  CurrencyCodeScr,
  CurrencyCodeSdg,
  CurrencyCodeSek,
  CurrencyCodeSgd,
  CurrencyCodeShp,
  CurrencyCodeSle,
  CurrencyCodeSos,
  CurrencyCodeSrd,
  CurrencyCodeSsp,
  CurrencyCodeStn,
  CurrencyCodeSvc,
  CurrencyCodeSyp,
  CurrencyCodeSzl,
  CurrencyCodeThb,
  CurrencyCodeTjs,
  CurrencyCodeTmt,
  CurrencyCodeTnd,
  CurrencyCodeTop,
  CurrencyCodeTry,
  CurrencyCodeTtd,
  CurrencyCodeTwd,
  CurrencyCodeTzs,
  CurrencyCodeUah,
  CurrencyCodeUgx,
  CurrencyCodeUsd,
  CurrencyCodeUyu,
  CurrencyCodeUzs,
  CurrencyCodeVes,
  CurrencyCodeVnd,
  CurrencyCodeVuv,
  CurrencyCodeWst,
  CurrencyCodeXaf,
  CurrencyCodeXcd,
  CurrencyCodeXdr,
  CurrencyCodeXof,
  CurrencyCodeXpf,
  CurrencyCodeYer,
  CurrencyCodeZar,
  CurrencyCodeZmw,
  CurrencyCodeZwl
]

/-- Go type CountryCode: a string token (countryCode.go). -/
abbrev CountryCode := String

def CountryCodeUs : CountryCode := "US"
def CountryCodeCa : CountryCode := "CA"
def CountryCodeMx : CountryCode := "MX"
def CountryCodeGb : CountryCode := "GB"
def CountryCodeDe : CountryCode := "DE"
def CountryCodeFr : CountryCode := "FR"
def CountryCodeIt : CountryCode := "IT"
def CountryCodeEs : CountryCode := "ES"
def CountryCodeAu : CountryCode := "AU"
def CountryCodeNz : CountryCode := "NZ"
def CountryCodeJp : CountryCode := "JP"
def CountryCodeCn : CountryCode := "CN"
def CountryCodeKr : CountryCode := "KR"
def CountryCodeIn : CountryCode := "IN"
def CountryCodeBr : CountryCode := "BR"
def CountryCodeAr : CountryCode := "AR"
def CountryCodeZa : CountryCode := "ZA"
def CountryCodeRu : CountryCode := "RU"
def CountryCodeUa : CountryCode := "UA"
def CountryCodePl : CountryCode := "PL"
def CountryCodeNl : CountryCode := "NL"
def CountryCodeBe : CountryCode := "BE"
def CountryCodeSe : CountryCode := "SE"
def CountryCodeNo : CountryCode := "NO"
def CountryCodeDk : CountryCode := "DK"
def CountryCodeFi : CountryCode := "FI"
def CountryCodeCh : CountryCode := "CH"
def CountryCodeAt : CountryCode := "AT"
def CountryCodePt : CountryCode := "PT"
def CountryCodeIe : CountryCode := "IE"
def CountryCodeCz : CountryCode := "CZ"
def CountryCodeHu : CountryCode := "HU"
def CountryCodeSk : CountryCode := "SK"
def CountryCodeSi : CountryCode := "SI"
def CountryCodeHr : CountryCode := "HR"
def CountryCodeGr : CountryCode := "GR"
def CountryCodeTr : CountryCode := "TR"
def CountryCodeRo : CountryCode := "RO"
def CountryCodeBg : CountryCode := "BG"
def CountryCodeEe : CountryCode := "EE"
def CountryCodeLv : CountryCode := "LV"
def CountryCodeLt : CountryCode := "LT"
def CountryCodeIs : CountryCode := "IS"
def CountryCodeLu : CountryCode := "LU"
def CountryCodeLi : CountryCode := "LI"
def CountryCodeMt : CountryCode := "MT"
def CountryCodeCy : CountryCode := "CY"
def CountryCodeIl : CountryCode := "IL"
def CountryCodeSa : CountryCode := "SA"
def CountryCodeAe : CountryCode := "AE"
def CountryCodeQa : CountryCode := "QA"
def CountryCodeKw : CountryCode := "KW"
def CountryCodeOm : CountryCode := "OM"
def CountryCodeJo : CountryCode := "JO"
def CountryCodeEg : CountryCode := "EG"
def CountryCodeMa : CountryCode := "MA"
def CountryCodeTn : CountryCode := "TN"
def CountryCodeDz : CountryCode := "DZ"
def CountryCodeNg : CountryCode := "NG"
def CountryCodeKe : CountryCode := "KE"
def CountryCodeEt : CountryCode := "ET"
def CountryCodeGh : CountryCode := "GH"
def CountryCodeSn : CountryCode := "SN"
def CountryCodeCi : CountryCode := "CI"
def CountryCodeTz : CountryCode := "TZ"
def CountryCodeUg : CountryCode := "UG"
def CountryCodeCm : CountryCode := "CM"
def CountryCodeZm : CountryCode := "ZM"
def CountryCodeZw : CountryCode := "ZW"
def CountryCodeMz : CountryCode := "MZ"
def CountryCodeBw : CountryCode := "BW"
def CountryCodeNa : CountryCode := "NA"
def CountryCodeAo : CountryCode := "AO"
def CountryCodeCd : CountryCode := "CD"
def CountryCodeSd : CountryCode := "SD"
def CountryCodePk : CountryCode := "PK"
def CountryCodeBd : CountryCode := "BD"
def CountryCodeNp : CountryCode := "NP"
def CountryCodeTh : CountryCode := "TH"
def CountryCodeVn : CountryCode := "VN"
def CountryCodeMy : CountryCode := "MY"
def CountryCodeSg : CountryCode := "SG"
def CountryCodeID : CountryCode := "ID"
def CountryCodePh : CountryCode := "PH"
def CountryCodeMm : CountryCode := "MM"
def CountryCodeKh : CountryCode := "KH"
def CountryCodeLa : CountryCode := "LA"
def CountryCodeBn : CountryCode := "BN"
def CountryCodeKz : CountryCode := "KZ"
def CountryCodeUz : CountryCode := "UZ"
def CountryCodeTm : CountryCode := "TM"
def CountryCodeKg : CountryCode := "KG"
def CountryCodeTj : CountryCode := "TJ"
def CountryCodeGe : CountryCode := "GE"
def CountryCodeAm : CountryCode := "AM"
def CountryCodeAz : CountryCode := "AZ"
def CountryCodeBy : CountryCode := "BY"
def CountryCodeMd : CountryCode := "MD"
def CountryCodeRs : CountryCode := "RS"
def CountryCodeMe : CountryCode := "ME"
def CountryCodeMk : CountryCode := "MK"
def CountryCodeBa : CountryCode := "BA"
def CountryCodeAl : CountryCode := "AL"
def CountryCodeXk : CountryCode := "XK"
def CountryCodeGl : CountryCode := "GL"
def CountryCodePa : CountryCode := "PA"
def CountryCodeCr : CountryCode := "CR"
def CountryCodeSv : CountryCode := "SV"
def CountryCodeGt : CountryCode := "GT"
def CountryCodeHn : CountryCode := "HN"
def CountryCodeNi : CountryCode := "NI"
def CountryCodeJm : CountryCode := "JM"
def CountryCodeCu : CountryCode := "CU"
def CountryCodeDo : CountryCode := "DO"
def CountryCodeHt : CountryCode := "HT"
def CountryCodeTt : CountryCode := "TT"
def CountryCodeBb : CountryCode := "BB"
def CountryCodeBs : CountryCode := "BS"
def CountryCodePy : CountryCode := "PY"
def CountryCodeUy : CountryCode := "UY"
def CountryCodeCl : CountryCode := "CL"
def CountryCodePe : CountryCode := "PE"
def CountryCodeCo : CountryCode := "CO"
def CountryCodeVe : CountryCode := "VE"
def CountryCodeBo : CountryCode := "BO"
def CountryCodeEc : CountryCode := "EC"
def CountryCodeSr : CountryCode := "SR"
def CountryCodeGy : CountryCode := "GY"
def CountryCodeFj : CountryCode := "FJ"
def CountryCodePg : CountryCode := "PG"
def CountryCodeWs : CountryCode := "WS"
def CountryCodeTo : CountryCode := "TO"
def CountryCodeSb : CountryCode := "SB"
def CountryCodeVu : CountryCode := "VU"
def CountryCodeNc : CountryCode := "NC"
def CountryCodeMh : CountryCode := "MH"
def CountryCodeFm : CountryCode := "FM"
def CountryCodePw : CountryCode := "PW"
def CountryCodeMv : CountryCode := "MV"
def CountryCodeSc : CountryCode := "SC"
def CountryCodeMu : CountryCode := "MU"
def CountryCodeLk : CountryCode := "LK"
def CountryCodeBt : CountryCode := "BT"
def CountryCodeMn : CountryCode := "MN"
def CountryCodeKp : CountryCode := "KP"
def CountryCodeIq : CountryCode := "IQ"
def CountryCodeIr : CountryCode := "IR"
def CountryCodeAf : CountryCode := "AF"
def CountryCodeYe : CountryCode := "YE"
def CountryCodeSy : CountryCode := "SY"
def CountryCodeLb : CountryCode := "LB"
def CountryCodePs : CountryCode := "PS"
def CountryCodeBh : CountryCode := "BH"
def CountryCodeMw : CountryCode := "MW"
def CountryCodeRw : CountryCode := "RW"
def CountryCodeBi : CountryCode := "BI"
def CountryCodeSs : CountryCode := "SS"
def CountryCodeLs : CountryCode := "LS"
def CountryCodeSz : CountryCode := "SZ"
def CountryCodeMg : CountryCode := "MG"
def CountryCodeCf : CountryCode := "CF"
def CountryCodeCg : CountryCode := "CG"
def CountryCodeGa : CountryCode := "GA"
def CountryCodeGn : CountryCode := "GN"
def CountryCodeGw : CountryCode := "GW"
def CountryCodeGq : CountryCode := "GQ"
def CountryCodeSl : CountryCode := "SL"
def CountryCodeLr : CountryCode := "LR"
def CountryCodeBj : CountryCode := "BJ"
def CountryCodeTg : CountryCode := "TG"
def CountryCodeNe : CountryCode := "NE"
def CountryCodeMl : CountryCode := "ML"
def CountryCodeBf : CountryCode := "BF"
def CountryCodeTd : CountryCode := "TD"
def CountryCodeMr : CountryCode := "MR"
def CountryCodeGm : CountryCode := "GM"
def CountryCodeCv : CountryCode := "CV"
def CountryCodeEr : CountryCode := "ER"
def CountryCodeDj : CountryCode := "DJ"
def CountryCodeKm : CountryCode := "KM"
def CountryCodeAd : CountryCode := "AD"
def CountryCodeMc : CountryCode := "MC"
def CountryCodeSm : CountryCode := "SM"
def CountryCodeVa : CountryCode := "VA"
def CountryCodeTl : CountryCode := "TL"
def CountryCodeAg : CountryCode := "AG"
def CountryCodeKn : CountryCode := "KN"
def CountryCodeLc : CountryCode := "LC"
def CountryCodeVc : CountryCode := "VC"
def CountryCodeGd : CountryCode := "GD"
def CountryCodeDm : CountryCode := "DM"
def CountryCodeBz : CountryCode := "BZ"
def CountryCodeAw : CountryCode := "AW"
def CountryCodeCw : CountryCode := "CW"
def CountryCodeBm : CountryCode := "BM"
def CountryCodeFo : CountryCode := "FO"
def CountryCodeIm : CountryCode := "IM"
def CountryCodeJe : CountryCode := "JE"
def CountryCodeGg : CountryCode := "GG"
def CountryCodeAx : CountryCode := "AX"
def CountryCodeEh : CountryCode := "EH"
def CountryCodeVg : CountryCode := "VG"
def CountryCodeVi : CountryCode := "VI"

/-- The package-level list AllCountryCode of countryCode.go, in source order. -/
def AllCountryCode : List CountryCode := [
  CountryCodeUs,
  CountryCodeCa,
  CountryCodeMx,
  CountryCodeGb,
  CountryCodeDe,
  CountryCodeFr,
  CountryCodeIt,
  CountryCodeEs,
  CountryCodeAu,
  CountryCodeNz,
  CountryCodeJp,
  CountryCodeCn,
  CountryCodeKr,
  CountryCodeIn,
  CountryCodeBr,
  CountryCodeAr,
  CountryCodeZa,
  CountryCodeRu,
  CountryCodeUa,
  CountryCodePl,
  CountryCodeNl,
  CountryCodeBe,
  CountryCodeSe,
  CountryCodeNo,
  CountryCodeDk,
  CountryCodeFi,
  CountryCodeCh,
  CountryCodeAt,
  CountryCodePt,
  CountryCodeIe,
  CountryCodeCz,
  CountryCodeHu,
  CountryCodeSk,
  CountryCodeSi,
  CountryCodeHr,
  CountryCodeGr,
  CountryCodeTr,
  CountryCodeRo,
  CountryCodeBg,
  CountryCodeEe,
  CountryCodeLv,
  CountryCodeLt,
  CountryCodeIs,
  CountryCodeLu,
  CountryCodeLi,
  CountryCodeMt,
  CountryCodeCy,
  CountryCodeIl,
  CountryCodeSa,
  CountryCodeAe,
  CountryCodeQa,
  CountryCodeKw,
  CountryCodeOm,
  CountryCodeJo,
  CountryCodeEg,
  CountryCodeMa,
  CountryCodeTn,
  CountryCodeDz,
  CountryCodeNg,
  CountryCodeKe,
  CountryCodeEt,
  CountryCodeGh,
  CountryCodeSn,
  CountryCodeCi,
  CountryCodeTz,
  CountryCodeUg,
  CountryCodeCm,
  CountryCodeZm,
  CountryCodeZw,
  CountryCodeMz,
  CountryCodeBw,
  CountryCodeNa,
  CountryCodeAo,
  CountryCodeCd,
  CountryCodeSd,
  CountryCodePk,
  CountryCodeBd,
  CountryCodeNp,
  CountryCodeTh,
  CountryCodeVn,
  CountryCodeMy,
  CountryCodeSg,
  CountryCodeID,
  CountryCodePh,
  CountryCodeMm,
  CountryCodeKh,
  CountryCodeLa,
  CountryCodeBn,
  CountryCodeKz,
  CountryCodeUz,
  CountryCodeTm,
  CountryCodeKg,
  CountryCodeTj,
  CountryCodeGe,
  CountryCodeAm,
  CountryCodeAz,
  CountryCodeBy,
  CountryCodeMd,
  CountryCodeRs,
  CountryCodeMe,
  CountryCodeMk,
  CountryCodeBa,
  CountryCodeAl,
  CountryCodeXk,
  CountryCodeGl,
  CountryCodePa,
  CountryCodeCr,
  CountryCodeSv,
  CountryCodeGt,
  CountryCodeHn,
  CountryCodeNi,
  CountryCodeJm,
  CountryCodeCu,
  CountryCodeDo,
  CountryCodeHt,
  CountryCodeTt,
  CountryCodeBb,
  CountryCodeBs,
  CountryCodePy,
  CountryCodeUy,
  CountryCodeCl,
  CountryCodePe,
  CountryCodeCo,
  CountryCodeVe,
  CountryCodeBo,
  CountryCodeEc,
  CountryCodeSr,
  CountryCodeGy,
  CountryCodeFj,
  CountryCodePg,
  CountryCodeWs,
  CountryCodeTo,
  CountryCodeSb,
  CountryCodeVu,
  CountryCodeNc,
  CountryCodeMh,
  CountryCodeFm,
  CountryCodePw,
  CountryCodeMv,
  CountryCodeSc,
  CountryCodeMu,
  CountryCodeLk,
  CountryCodeBt,
  CountryCodeMn,
  CountryCodeKp,
  CountryCodeIq,
  CountryCodeIr,
  CountryCodeAf,
  CountryCodeYe,
  CountryCodeSy,
  CountryCodeLb,
  CountryCodePs,
  CountryCodeBh,
  CountryCodeMw,
  CountryCodeRw,
  CountryCodeBi,
  CountryCodeSs,
  CountryCodeLs,
  CountryCodeSz,
  CountryCodeMg,
  CountryCodeCf,
  CountryCodeCg,
  CountryCodeGa,
  CountryCodeGn,
  CountryCodeGw,
  CountryCodeGq,
  CountryCodeSl,
  CountryCodeLr,
  CountryCodeBj,
  CountryCodeTg,
  CountryCodeNe,
  CountryCodeMl,
  CountryCodeBf,
  CountryCodeTd,
  CountryCodeMr,
  CountryCodeGm,
  CountryCodeCv,
  CountryCodeEr,
  CountryCodeDj,
  CountryCodeKm,
  CountryCodeAd,
  CountryCodeMc,
  CountryCodeSm,
  CountryCodeVa,
  CountryCodeTl,
  CountryCodeAg,
  CountryCodeKn,
  CountryCodeLc,
  CountryCodeVc,
  CountryCodeGd,
  CountryCodeDm,
  CountryCodeBz,
  CountryCodeAw,
  CountryCodeCw,
  CountryCodeBm,
  CountryCodeFo,
  CountryCodeIm,
  CountryCodeJe,
  CountryCodeGg,
  CountryCodeAx,
  CountryCodeEh,
  CountryCodeVg,
  CountryCodeVi
]
/-! ## The transaction handle and the world around it

The database, its driver and the statement builder are collaborators outside
the package. They enter the model as parameters: every property below is
proved for all of them. -/

/-- A Go `error` value, kept as its message (what `err.Error()` returns). -/
abbrev Err := String

/-- One element of the variadic `args ...interface{}` of `Exec`, rendered as text. -/
abbrev Arg := String

/-- A statement as handed to `tx.Exec` / `tx.ExecContext`: query text and arguments. -/
structure Stmt where
  sql : String
  args : List Arg
  deriving DecidableEq, Repr

/-- The database behind the transaction. `respond hist s` is the driver's
answer when `s` is submitted after the statements `hist` (`none` is Go's
`nil` error). `otherPath s p` is the search path a successful statement
`s` leaves behind when it is not one of the two literal `SET search_path`
statements of the package and the path before it was `p`. -/
structure Database where
  respond : List Stmt → Stmt → Option Err
  otherPath : Stmt → String → String

/-- What a run can observe and change: the statements submitted on the
transaction (oldest first), the transaction's search path, and the lines
written by `log.Println`, `log.Printf` and `fmt.Println` in program order
(timestamps left out). -/
structure World where
  submitted : List Stmt
  searchPath : String
  output : List String
  deriving DecidableEq, Repr

/-- The literal `SET search_path TO platform;` used by every guarded entry point. -/
def setPlatformSQL : String := "SET search_path TO platform;"

/-- The literal `SET search_path TO public;` used by every guarded entry point. -/
def setPublicSQL : String := "SET search_path TO public;"

/-- Search path in effect after statement `s` succeeded with path `p` before it. -/
def pathAfter (db : Database) (s : Stmt) (p : String) : String :=
  if s.sql = setPlatformSQL then "platform"
  else if s.sql = setPublicSQL then "public"
  else db.otherPath s p

/-- Go `tx.Exec(query, args...)`: the statement is submitted, the driver
answers; the returned `sql.Result` is dropped by every caller. -/
def Exec (db : Database) (w : World) (query : String) (args : List Arg) :
    World × Option Err :=
  let s : Stmt := { sql := query, args := args }
  match db.respond w.submitted s with
  | some err => ({ w with submitted := w.submitted ++ [s] }, some err)
  | none =>
    ({ w with submitted := w.submitted ++ [s],
              searchPath := pathAfter db s w.searchPath }, none)

/-- Go `tx.ExecContext(ctx, query, args...)`. The context carries no
deadline set by this package; a cancellation shows up as an error answer. -/
def ExecContext (db : Database) (w : World) (query : String) (args : List Arg) :
    World × Option Err :=
  Exec db w query args

/-- Go `log.Println` / `log.Printf` / `fmt.Println`: one line of output. -/
def Println (w : World) (line : String) : World :=
  { w with output := w.output ++ [line] }

/-! ## Embedded SQL files -/

/-- Contents of the files named by the `//go:embed` directives of
`0001_init.go` and `0003_product_features_v2.go`, one field per Go variable.
The files are not part of the sources at hand; their text is a parameter. -/
structure Embedded where
  platform : String
  rollback : String
  customers : String
  groups : String
  translations : String
  discovery : String
  reviews : String
  triggers : String
  settings : String
  files : String
  fileLinks : String
  products : String
  categories : String
  productSnapshots : String
  services : String
  apps : String
  addresses : String
  emails : String
  orderBoards : String
  listingFilters : String
  security : String
  searchLangConfig : String
  searchV1 : String
  searchKeyword : String
  suggestions : String
  searchSynonyms : String
  searchLevenshtein : String
  searchStopwords : String
  searchMetrics : String
  searchAll : String
  featureFlags : String
  content : String
  tagsAndLabels : String
  features : String
  catalogFilters : String
  slots : String
  checkoutV2 : String
  checkoutV2Idempotency : String
  checkoutV2Orders : String
  checkoutV2OrdersPii : String
  featuresV2 : String
  rollback0003 : String

/-- The local slice `keys` of `Up0001`, in source order. -/
def keys : List String := [
  "platform",
  "settings",
  "tagsAndLabels",
  "addresses",
  "customers",
  "files",
  "categories",
  "products",
  "features",
  "catalogFilters",
  "listingFilters",
  "content",
  "groups",
  "services",
  "apps",
  "slots",
  "productSnapshots",
  "emails",
  "fileLinks",
  "translations",
  "search",
  "discovery",
  "reviews",
  "security",
  "featureFlags",
  "triggers",
  "searchLangConfig",
  "searchKeyword",
  "searchV1",
  "suggestions",
  "searchSynonyms",
  "searchLevenshtein",
  "searchStopwords",
  "searchMetrics",
  "searchAll",
  "checkoutV2",
  "checkoutV2Idempotency",
  "checkoutV2OrdersPii",
  "checkoutV2Orders",
  "orderBoards"
]

/-- The local map `migrations` of `Up0001`, as its literal lists it. -/
def migrations (e : Embedded) : List (String × String) := [
  ("platform", e.platform),
  ("settings", e.settings),
  ("customers", e.customers),
  ("files", e.files),
  ("products", e.products),
  ("categories", e.categories),
  ("catalogFilters", e.catalogFilters),
  ("listingFilters", e.listingFilters),
  ("content", e.content),
  ("groups", e.groups),
  ("services", e.services),
  ("apps", e.apps),
  ("productSnapshots", e.productSnapshots),
  ("addresses", e.addresses),
  ("emails", e.emails),
  ("orderBoards", e.orderBoards),
  ("fileLinks", e.fileLinks),
  ("translations", e.translations),
  ("discovery", e.discovery),
  ("reviews", e.reviews),
  ("security", e.security),
  ("triggers", e.triggers),
  ("searchLangConfig", e.searchLangConfig),
  ("searchV1", e.searchV1),
  ("searchKeyword", e.searchKeyword),
  ("suggestions", e.suggestions),
  ("searchSynonyms", e.searchSynonyms),
  ("searchLevenshtein", e.searchLevenshtein),
  ("searchStopwords", e.searchStopwords),
  ("searchMetrics", e.searchMetrics),
  ("searchAll", e.searchAll),
  ("featureFlags", e.featureFlags),
  ("tagsAndLabels", e.tagsAndLabels),
  ("features", e.features),
  ("slots", e.slots),
  ("checkoutV2", e.checkoutV2),
  ("checkoutV2Idempotency", e.checkoutV2Idempotency),
  ("checkoutV2Orders", e.checkoutV2Orders),
  ("checkoutV2OrdersPii", e.checkoutV2OrdersPii)
]
/-- Go map index `m[key]`: the stored value, or the zero value `""` of
`string` when the key is absent. -/
def mapIndex (m : List (String × String)) (key : String) : String :=
  (m.lookup key).getD ""

/-! ## Reference data seeder (`insertInitialData`) -/

/-- A `goqu.Record` with the two keys the seeder writes. -/
structure Record where
  code : String
  is_active : Bool
  deriving DecidableEq, Repr

/-- The three results of `goqu`'s `ToSQL()`: statement text, arguments, error. -/
structure Built where
  sql : String
  args : List Arg
  err : Option Err
  deriving DecidableEq, Repr

/-- The statement builder
`goqu.Dialect("postgres").Insert(table).Rows(rows).ToSQL()`, a library
outside the package: a parameter of the model. -/
abbrev Builder := String → List Record → Built

/-- The local `localeRecords` of `insertInitialData`: `fp.Map` of the
record-building callback over the locale codes (`fp.Map` keeps order and
yields one result per element). -/
def localeRecords (codes : List LocaleCode) : List Record :=
  codes.map (fun l => { code := l, is_active := true })

/-- The local `currencyRecords` of `insertInitialData`. -/
def currencyRecords (codes : List CurrencyCode) : List Record :=
  codes.map (fun c => { code := c, is_active := true })

/-- Body of `insertInitialData`, with the two package-level code lists it
reads passed in. Both `ToSQL` calls assign the same variable `args`, so the
second call's arguments are the ones in scope at both `ExecContext` calls;
the third result of each call is discarded (`_`). -/
def insertInitialDataOn (build : Builder) (locales : List LocaleCode)
    (currencies : List CurrencyCode) (db : Database) (w : World) :
    World × Option Err :=
  let b1 := build "locale_codes" (localeRecords locales)
  let insertLocaleCodes := b1.sql
  let b2 := build "currency_codes" (currencyRecords currencies)
  let insertCurrencyCodes := b2.sql
  let args := b2.args
  match ExecContext db w insertLocaleCodes args with
  | (w, some err) => (Println w ("Error inserting locale codes: " ++ err), some err)
  | (w, none) =>
  match ExecContext db w insertCurrencyCodes args with
  | (w, some err) => (Println w ("Error inserting currency codes: " ++ err), some err)
  | (w, none) => (w, none)

/-- Go `insertInitialData(ctx, tx)`. -/
def insertInitialData (build : Builder) (db : Database) (w : World) :
    World × Option Err :=
  insertInitialDataOn build AllLocaleCode AllCurrencyCode db w

/-! ## Version 0001 -/

/-- The `for _, key := range keys` loop of `Up0001`: execute `migrations[key]`
for each key in order; on the first error log the key and return the error. -/
def runKeys (db : Database) (m : List (String × String)) :
    List String → World → World × Option Err
  | [], w => (w, none)
  | key :: rest, w =>
    match Exec db w (mapIndex m key) [] with
    | (w, some err) => (Println w ("scheme migration failed: " ++ key), some err)
    | (w, none) => runKeys db m rest w

/-- Go `Up0001(ctx, tx)`. -/
def Up0001 (build : Builder) (e : Embedded) (db : Database) (w : World) :
    World × Option Err :=
  let w := Println w "Starting migration"
  match Exec db w "CREATE SCHEMA IF NOT EXISTS platform;" [] with
  | (w, some err) => (Println w "Error creating schema platform", some err)
  | (w, none) =>
  match Exec db w "CREATE SCHEMA fn;" [] with
  | (w, some err) => (Println w "Error creating schema fn", some err)
  | (w, none) =>
  match Exec db w "SET search_path TO platform;" [] with
  | (w, some err) => (Println w "Error setting search path", some err)
  | (w, none) =>
  match runKeys db (migrations e) keys w with
  | (w, some err) => (w, some err)
  | (w, none) =>
  match insertInitialData build db w with
  | (w, some err) => (Println w ("Error inserting initial data: " ++ err), some err)
  | (w, none) =>
  match Exec db w "SET search_path TO public;" [] with
  | (w, some err) => (Println w "Error restoring search path", some err)
  | (w, none) => (Println w "Migration finished", none)

/-- Go `Down0001(ctx, tx)`: one `ExecContext` of the embedded rollback file. -/
def Down0001 (e : Embedded) (db : Database) (w : World) : World × Option Err :=
  match ExecContext db w e.rollback [] with
  | (w, err) => (w, err)

/-! ## Version 0002 -/

/-- Go `Up0002(ctx, tx)`. -/
def Up0002 (db : Database) (w : World) : World × Option Err :=
  let w := Println w "Starting migration 0002: add parent_line_item_id to checkout_line_items"
  match Exec db w "SET search_path TO platform;" [] with
  | (w, some err) => (Println w "Error setting search path", some err)
  | (w, none) =>
  let alterSQL := "\n\t\tALTER TABLE platform.checkout_line_items\n\t\tADD COLUMN parent_line_item_id uuid NULL;\n\t"
  match ExecContext db w alterSQL [] with
  | (w, some err) => (Println w ("Error adding parent_line_item_id column: " ++ err), some err)
  | (w, none) =>
  let fkSQL := "\n\t\tALTER TABLE platform.checkout_line_items\n\t\tADD CONSTRAINT fk_cli_parent\n\t\tFOREIGN KEY (parent_line_item_id)\n\t\tREFERENCES platform.checkout_line_items (id)\n\t\tON DELETE CASCADE;\n\t"
  match ExecContext db w fkSQL [] with
  | (w, some err) => (Println w ("Error adding FK constraint: " ++ err), some err)
  | (w, none) =>
  let indexSQL := "\n\t\tCREATE INDEX IF NOT EXISTS idx_cli_parent\n\t\tON platform.checkout_line_items (checkout_id, parent_line_item_id);\n\t"
  match ExecContext db w indexSQL [] with
  | (w, some err) => (Println w ("Error adding index: " ++ err), some err)
  | (w, none) =>
  match Exec db w "SET search_path TO public;" [] with
  | (w, some err) => (Println w "Error restoring search path", some err)
  | (w, none) => (Println w "Migration 0002 finished", none)

/-- Go `Down0002(ctx, tx)`. -/
def Down0002 (db : Database) (w : World) : World × Option Err :=
  let w := Println w "Rolling back migration 0002"
  match Exec db w "SET search_path TO platform;" [] with
  | (w, some err) => (Println w "Error setting search path", some err)
  | (w, none) =>
  match ExecContext db w "DROP INDEX IF EXISTS platform.idx_cli_parent;" [] with
  | (w, some err) => (Println w ("Error dropping index: " ++ err), some err)
  | (w, none) =>
  match ExecContext db w "ALTER TABLE platform.checkout_line_items DROP CONSTRAINT IF EXISTS fk_cli_parent;" [] with
  | (w, some err) => (Println w ("Error dropping FK constraint: " ++ err), some err)
  | (w, none) =>
  match ExecContext db w "ALTER TABLE platform.checkout_line_items DROP COLUMN IF EXISTS parent_line_item_id;" [] with
  | (w, some err) => (Println w ("Error dropping parent_line_item_id column: " ++ err), some err)
  | (w, none) =>
  match Exec db w "SET search_path TO public;" [] with
  | (w, some err) => (Println w "Error restoring search path", some err)
  | (w, none) => (Println w "Migration 0002 rollback finished", none)

/-! ## Version 0003 -/

/-- Go `Up0003(ctx, tx)`. -/
def Up0003 (e : Embedded) (db : Database) (w : World) : World × Option Err :=
  let w := Println w "Starting migration 0003: add product features v2 tables"
  match Exec db w "SET search_path TO platform;" [] with
  | (w, some err) => (Println w "Error setting search path", some err)
  | (w, none) =>
  match ExecContext db w e.featuresV2 [] with
  | (w, some err) => (Println w ("Error executing features v2 migration: " ++ err), some err)
  | (w, none) =>
  match Exec db w "SET search_path TO public;" [] with
  | (w, some err) => (Println w "Error restoring search path", some err)
  | (w, none) => (Println w "Migration 0003 finished", none)

/-- Go `Down0003(ctx, tx)`. -/
def Down0003 (e : Embedded) (db : Database) (w : World) : World × Option Err :=
  let w := Println w "Rolling back migration 0003"
  match Exec db w "SET search_path TO platform;" [] with
  | (w, some err) => (Println w "Error setting search path", some err)
  | (w, none) =>
  match ExecContext db w e.rollback0003 [] with
  | (w, some err) => (Println w ("Error executing rollback: " ++ err), some err)
  | (w, none) =>
  match Exec db w "SET search_path TO public;" [] with
  | (w, some err) => (Println w "Error restoring search path", some err)
  | (w, none) => (Println w "Migration 0003 rollback finished", none)

/-! ## Version 0004 -/

/-- Go `Up0004(ctx, tx)`. -/
def Up0004 (db : Database) (w : World) : World × Option Err :=
  let w := Println w "Starting migration 0004: add price config columns to checkout_line_items"
  match Exec db w "SET search_path TO platform;" [] with
  | (w, some err) => (Println w "Error setting search path", some err)
  | (w, none) =>
  let priceTypeSQL := "\n\t\tALTER TABLE platform.checkout_line_items\n\t\tADD COLUMN price_type VARCHAR(20) CHECK (price_type IN (\n\t\t\t\x27FREE\x27, \x27BASE\x27,\n\t\t\t\x27DISCOUNT_AMOUNT\x27, \x27DISCOUNT_PERCENT\x27,\n\t\t\t\x27MARKUP_AMOUNT\x27, \x27MARKUP_PERCENT\x27,\n\t\t\t\x27OVERRIDE\x27\n\t\t));\n\t"
  match ExecContext db w priceTypeSQL [] with
  | (w, some err) => (Println w ("Error adding price_type column: " ++ err), some err)
  | (w, none) =>
  let priceAmountSQL := "\n\t\tALTER TABLE platform.checkout_line_items\n\t\tADD COLUMN price_amount BIGINT CHECK (price_amount IS NULL OR price_amount >= 0);\n\t"
  match ExecContext db w priceAmountSQL [] with
  | (w, some err) => (Println w ("Error adding price_amount column: " ++ err), some err)
  | (w, none) =>
  let pricePercentSQL := "\n\t\tALTER TABLE platform.checkout_line_items\n\t\tADD COLUMN price_percent NUMERIC(5,2) CHECK (price_percent IS NULL OR price_percent >= 0);\n\t"
  match ExecContext db w pricePercentSQL [] with
  | (w, some err) => (Println w ("Error adding price_percent column: " ++ err), some err)
  | (w, none) =>
  let originalPriceSQL := "\n\t\tALTER TABLE platform.checkout_line_items\n\t\tADD COLUMN unit_original_price BIGINT CHECK (unit_original_price IS NULL OR unit_original_price >= 0);\n\t"
  match ExecContext db w originalPriceSQL [] with
  | (w, some err) => (Println w ("Error adding unit_original_price column: " ++ err), some err)
  | (w, none) =>
  let backfillSQL := "\n\t\tUPDATE platform.checkout_line_items\n\t\tSET unit_original_price = unit_price\n\t\tWHERE unit_original_price IS NULL AND unit_price IS NOT NULL;\n\t"
  match ExecContext db w backfillSQL [] with
  | (w, some err) => (Println w ("Error backfilling unit_original_price: " ++ err), some err)
  | (w, none) =>
  let commentSQL := "\n\t\tCOMMENT ON COLUMN platform.checkout_line_items.price_type IS\n\t\t\x27Price calculation:\n\t\t FREE = 0,\n\t\t BASE = unit_original_price,\n\t\t DISCOUNT_AMOUNT = unit_original_price - price_amount,\n\t\t DISCOUNT_PERCENT = unit_original_price * (100 - price_percent) / 100,\n\t\t MARKUP_AMOUNT = unit_original_price + price_amount,\n\t\t MARKUP_PERCENT = unit_original_price * (100 + price_percent) / 100,\n\t\t OVERRIDE = price_amount\x27;\n\t"
  match ExecContext db w commentSQL [] with
  | (w, some err) => (Println w ("Error adding comment: " ++ err), some err)
  | (w, none) =>
  match Exec db w "SET search_path TO public;" [] with
  | (w, some err) => (Println w "Error restoring search path", some err)
  | (w, none) => (Println w "Migration 0004 finished", none)

/-- Go `Down0004(ctx, tx)`. -/
def Down0004 (db : Database) (w : World) : World × Option Err :=
  let w := Println w "Rolling back migration 0004"
  match Exec db w "SET search_path TO platform;" [] with
  | (w, some err) => (Println w "Error setting search path", some err)
  | (w, none) =>
  match ExecContext db w "ALTER TABLE platform.checkout_line_items DROP COLUMN IF EXISTS unit_original_price;" [] with
  | (w, some err) => (Println w ("Error dropping unit_original_price column: " ++ err), some err)
  | (w, none) =>
  match ExecContext db w "ALTER TABLE platform.checkout_line_items DROP COLUMN IF EXISTS price_percent;" [] with
  | (w, some err) => (Println w ("Error dropping price_percent column: " ++ err), some err)
  | (w, none) =>
  match ExecContext db w "ALTER TABLE platform.checkout_line_items DROP COLUMN IF EXISTS price_amount;" [] with
  | (w, some err) => (Println w ("Error dropping price_amount column: " ++ err), some err)
  | (w, none) =>
  match ExecContext db w "ALTER TABLE platform.checkout_line_items DROP COLUMN IF EXISTS price_type;" [] with
  | (w, some err) => (Println w ("Error dropping price_type column: " ++ err), some err)
  | (w, none) =>
  match Exec db w "SET search_path TO public;" [] with
  | (w, some err) => (Println w "Error restoring search path", some err)
  | (w, none) => (Println w "Migration 0004 rollback finished", none)

/-! ## Entry points as a family, and their written statement lists -/

/-- The eight entry points registered with `goose.AddMigrationContext`. -/
inductive EntryPoint where
  | up0001 | down0001 | up0002 | down0002 | up0003 | down0003 | up0004 | down0004
  deriving DecidableEq, Repr

/-- Running an entry point. -/
def EntryPoint.run (build : Builder) (e : Embedded) :
    EntryPoint → Database → World → World × Option Err
  | .up0001 => Up0001 build e
  | .down0001 => Down0001 e
  | .up0002 => Up0002
  | .down0002 => Down0002
  | .up0003 => Up0003 e
  | .down0003 => Down0003 e
  | .up0004 => Up0004
  | .down0004 => Down0004

/-- A statement without arguments. -/
def plain (sql : String) : Stmt := { sql := sql, args := [] }

/-- The statement `Up0001` executes for one key of its key list. -/
def fragmentOf (e : Embedded) (key : String) : Stmt :=
  plain (mapIndex (migrations e) key)

/-- The two insert statements of `insertInitialDataOn`, as it passes them to
`ExecContext`: locale text first, currency text second, each with the
arguments left in `args` by the second `ToSQL` call. -/
def seedStmts (build : Builder) (locales : List LocaleCode)
    (currencies : List CurrencyCode) : List Stmt :=
  [ { sql := (build "locale_codes" (localeRecords locales)).sql,
      args := (build "currency_codes" (currencyRecords currencies)).args },
    { sql := (build "currency_codes" (currencyRecords currencies)).sql,
      args := (build "currency_codes" (currencyRecords currencies)).args } ]

/-- The builder works in interpolated mode: the values are written into the
statement text and `ToSQL` returns no arguments. This is the mode of a
`goqu` dataset on which `Prepared(true)` was not called, as in the chain
`goqu.Dialect("postgres").Insert(table).Rows(rows).ToSQL()` of
`insertInitialData`. -/
def Interpolated (build : Builder) : Prop :=
  ∀ table rows, (build table rows).args = []

/-- Statements an entry point executes before it switches the search path. -/
def EntryPoint.preamble : EntryPoint → List Stmt
  | .up0001 => [plain "CREATE SCHEMA IF NOT EXISTS platform;", plain "CREATE SCHEMA fn;"]
  | _ => []

/-- The fragment (DDL/DML) statements of an entry point, in the order the
source text executes them. -/
def EntryPoint.fragments (build : Builder) (e : Embedded) : EntryPoint → List Stmt
  | .up0001 => keys.map (fragmentOf e) ++ seedStmts build AllLocaleCode AllCurrencyCode
  | .down0001 => [plain e.rollback]
  | .up0002 =>
    [ plain "\n\t\tALTER TABLE platform.checkout_line_items\n\t\tADD COLUMN parent_line_item_id uuid NULL;\n\t",
      plain "\n\t\tALTER TABLE platform.checkout_line_items\n\t\tADD CONSTRAINT fk_cli_parent\n\t\tFOREIGN KEY (parent_line_item_id)\n\t\tREFERENCES platform.checkout_line_items (id)\n\t\tON DELETE CASCADE;\n\t",
      plain "\n\t\tCREATE INDEX IF NOT EXISTS idx_cli_parent\n\t\tON platform.checkout_line_items (checkout_id, parent_line_item_id);\n\t" ]
  | .down0002 =>
    [ plain "DROP INDEX IF EXISTS platform.idx_cli_parent;",
      plain "ALTER TABLE platform.checkout_line_items DROP CONSTRAINT IF EXISTS fk_cli_parent;",
      plain "ALTER TABLE platform.checkout_line_items DROP COLUMN IF EXISTS parent_line_item_id;" ]
  | .up0003 => [plain e.featuresV2]
  | .down0003 => [plain e.rollback0003]
  | .up0004 =>
    [ plain "\n\t\tALTER TABLE platform.checkout_line_items\n\t\tADD COLUMN price_type VARCHAR(20) CHECK (price_type IN (\n\t\t\t\x27FREE\x27, \x27BASE\x27,\n\t\t\t\x27DISCOUNT_AMOUNT\x27, \x27DISCOUNT_PERCENT\x27,\n\t\t\t\x27MARKUP_AMOUNT\x27, \x27MARKUP_PERCENT\x27,\n\t\t\t\x27OVERRIDE\x27\n\t\t));\n\t",
      plain "\n\t\tALTER TABLE platform.checkout_line_items\n\t\tADD COLUMN price_amount BIGINT CHECK (price_amount IS NULL OR price_amount >= 0);\n\t",
      plain "\n\t\tALTER TABLE platform.checkout_line_items\n\t\tADD COLUMN price_percent NUMERIC(5,2) CHECK (price_percent IS NULL OR price_percent >= 0);\n\t",
      plain "\n\t\tALTER TABLE platform.checkout_line_items\n\t\tADD COLUMN unit_original_price BIGINT CHECK (unit_original_price IS NULL OR unit_original_price >= 0);\n\t",
      plain "\n\t\tUPDATE platform.checkout_line_items\n\t\tSET unit_original_price = unit_price\n\t\tWHERE unit_original_price IS NULL AND unit_price IS NOT NULL;\n\t",
      plain "\n\t\tCOMMENT ON COLUMN platform.checkout_line_items.price_type IS\n\t\t\x27Price calculation:\n\t\t FREE = 0,\n\t\t BASE = unit_original_price,\n\t\t DISCOUNT_AMOUNT = unit_original_price - price_amount,\n\t\t DISCOUNT_PERCENT = unit_original_price * (100 - price_percent) / 100,\n\t\t MARKUP_AMOUNT = unit_original_price + price_amount,\n\t\t MARKUP_PERCENT = unit_original_price * (100 + price_percent) / 100,\n\t\t OVERRIDE = price_amount\x27;\n\t" ]
  | .down0004 =>
    [ plain "ALTER TABLE platform.checkout_line_items DROP COLUMN IF EXISTS unit_original_price;",
      plain "ALTER TABLE platform.checkout_line_items DROP COLUMN IF EXISTS price_percent;",
      plain "ALTER TABLE platform.checkout_line_items DROP COLUMN IF EXISTS price_amount;",
      plain "ALTER TABLE platform.checkout_line_items DROP COLUMN IF EXISTS price_type;" ]

/-- Whether the entry point's source text brackets its fragments with the
two `SET search_path` statements: all of them except `Down0001`. -/
def EntryPoint.guarded : EntryPoint → Bool
  | .down0001 => false
  | _ => true

/-- Every statement an entry point can submit, in the order of its source
text: preamble, `SET search_path TO platform;`, fragments,
`SET search_path TO public;` (the two `SET` statements only where the
source has them). -/
def EntryPoint.written (build : Builder) (e : Embedded) (ep : EntryPoint) : List Stmt :=
  if ep.guarded then
    ep.preamble ++ [plain setPlatformSQL] ++ ep.fragments build e ++ [plain setPublicSQL]
  else
    ep.fragments build e

/-- Reference executor: submit the statements in order and stop at the
first one the database rejects. It writes no output. -/
def submitAll (db : Database) : List Stmt → World → World × Option Err
  | [], w => (w, none)
  | s :: rest, w =>
    match Exec db w s.sql s.args with
    | (w, some err) => (w, some err)
    | (w, none) => submitAll db rest w

/-- The part of a result the properties speak about: submitted statements,
search path and returned error (the output lines are left out). -/
def core (r : World × Option Err) : List Stmt × String × Option Err :=
  (r.1.submitted, r.1.searchPath, r.2)

/-- Two worlds that agree on the transaction: same submitted statements,
same search path (the output lines may differ). -/
def SameTx (w v : World) : Prop :=
  w.submitted = v.submitted ∧ w.searchPath = v.searchPath

/-- The database's answer to the statement at position `j` of `ss` when the
statements of `ss` before it have been submitted, in order, after `hist`;
`none` also when `ss` has no position `j`. -/
def answerAt (db : Database) (hist ss : List Stmt) (j : Nat) : Option Err :=
  match ss[j]? with
  | none => none
  | some s => db.respond (hist ++ ss.take j) s

/-- Position `k` of `ss` is the first statement the database rejects, with
error `err`, when `ss` is submitted in order after `hist`. -/
def FirstFailure (db : Database) (hist ss : List Stmt) (k : Nat) (err : Err) : Prop :=
  k < ss.length ∧ (∀ j, j < k → answerAt db hist ss j = none) ∧
    answerAt db hist ss k = some err

/-- Every statement of `ss` succeeds when `ss` is submitted in order after `hist`. -/
def AllSucceed (db : Database) (hist ss : List Stmt) : Prop :=
  ∀ j, j < ss.length → answerAt db hist ss j = none

instance (db : Database) (hist ss : List Stmt) (k : Nat) (err : Err) :
    Decidable (FirstFailure db hist ss k err) := by
  unfold FirstFailure; infer_instance

instance (db : Database) (hist ss : List Stmt) : Decidable (AllSucceed db hist ss) := by
  unfold AllSucceed; infer_instance

/-! ## Sample collaborators, used to evaluate the entry points -/

/-- A database on which every statement succeeds and no fragment touches
the search path. -/
def dbOk : Database :=
  { respond := fun _ _ => none, otherPath := fun _ p => p }

/-- A database that rejects exactly the statements with text `bad`, with
error `msg`. -/
def dbFailOn (bad : String) (msg : Err) : Database :=
  { respond := fun _ s => if s.sql = bad then some msg else none,
    otherPath := fun _ p => p }

/-- A database that rejects exactly the statement submitted when `n`
statements have been submitted before it, with error `msg`. -/
def dbFailAt (n : Nat) (msg : Err) : Database :=
  { respond := fun hist _ => if hist.length = n then some msg else none,
    otherPath := fun _ p => p }

/-- A fresh transaction on a session with search path `p`. -/
def freshTx (p : String) : World :=
  { submitted := [], searchPath := p, output := [] }

/-- Sample file contents: each embedded file holds a one-line comment
naming its variable, the two rollback files a `DROP` statement. -/
def sampleFiles : Embedded :=
  { platform := "-- platform", rollback := "DROP SCHEMA platform CASCADE;",
    customers := "-- customers", groups := "-- groups",
    translations := "-- translations", discovery := "-- discovery",
    reviews := "-- reviews", triggers := "-- triggers", settings := "-- settings",
    files := "-- files", fileLinks := "-- fileLinks", products := "-- products",
    categories := "-- categories", productSnapshots := "-- productSnapshots",
    services := "-- services", apps := "-- apps", addresses := "-- addresses",
    emails := "-- emails", orderBoards := "-- orderBoards",
    listingFilters := "-- listingFilters", security := "-- security",
    searchLangConfig := "-- searchLangConfig", searchV1 := "-- searchV1",
    searchKeyword := "-- searchKeyword", suggestions := "-- suggestions",
    searchSynonyms := "-- searchSynonyms", searchLevenshtein := "-- searchLevenshtein",
    searchStopwords := "-- searchStopwords", searchMetrics := "-- searchMetrics",
    searchAll := "-- searchAll", featureFlags := "-- featureFlags",
    content := "-- content", tagsAndLabels := "-- tagsAndLabels",
    features := "-- features", catalogFilters := "-- catalogFilters",
    slots := "-- slots", checkoutV2 := "-- checkoutV2",
    checkoutV2Idempotency := "-- checkoutV2Idempotency",
    checkoutV2Orders := "-- checkoutV2Orders",
    checkoutV2OrdersPii := "-- checkoutV2OrdersPii",
    featuresV2 := "CREATE TABLE product_features_v2 (id uuid);",
    rollback0003 := "DROP TABLE product_features_v2;" }

/-- A sample statement builder: the text names the table and the number of
rows, without arguments and without error. -/
def sampleBuild : Builder := fun table rows =>
  { sql := "INSERT INTO " ++ table ++ " -- " ++ toString rows.length ++ " rows",
    args := [], err := none }

/-- A database with unique keys on the seeded tables: a statement that
repeats one already submitted is rejected as a duplicate key, every other
statement succeeds. -/
def dbUnique : Database :=
  { respond := fun hist s =>
      if s ∈ hist then some "pq: duplicate key value violates unique constraint" else none,
    otherPath := fun _ p => p }

/-- A statement builder whose every call reports an error next to an empty
statement text. -/
def failingBuild : Builder := fun _ _ =>
  { sql := "", args := [], err := some "goqu: rows with different value length" }

/-- The sample files, except that the file of `featuresV2` consists of the
statement `SET search_path TO public;`. -/
def filesWithRestoreText : Embedded :=
  { sampleFiles with featuresV2 := "SET search_path TO public;" }

/-! ## Reading the SQL of versions 0002 and 0004

The statements of `Up0002`, `Down0002`, `Up0004` and `Down0004` are literal
SQL. Their structural effect on `platform.checkout_line_items` is read off
the statement text; SQL expressions (`CHECK`, `WHERE`) are evaluated with
SQL's three-valued logic. -/

/-- Characters that end a word of a statement: blanks, brackets, comma,
semicolon and the dot of a qualified name. -/
def separators : List Char := " \n\t(),;.".toList

/-- Split a character list into words; `cur` holds the current word, reversed. -/
def wordsAux : List Char → List Char → List String
  | [], cur => if cur = [] then [] else [String.mk cur.reverse]
  | c :: cs, cur =>
    if c ∈ separators then
      (if cur = [] then wordsAux cs [] else String.mk cur.reverse :: wordsAux cs [])
    else wordsAux cs (c :: cur)

/-- The words of a statement. -/
def sqlWords (sql : String) : List String := wordsAux sql.toList []

/-- A structural object of the table `platform.checkout_line_items`. -/
inductive SchemaObject where
  | column (name : String)
  | constraint (name : String)
  | index (name : String)
  deriving DecidableEq, Repr

/-- The structural change a statement asks for. -/
inductive SchemaOp where
  | create (o : SchemaObject)
  | createIfNotExists (o : SchemaObject)
  | dropIfExists (o : SchemaObject)
  | noChange
  deriving DecidableEq, Repr

/-- The structural change of one statement, read off its words: `ADD COLUMN`,
`ADD CONSTRAINT`, `CREATE INDEX IF NOT EXISTS`, `DROP INDEX IF EXISTS`,
`DROP CONSTRAINT IF EXISTS`, `DROP COLUMN IF EXISTS` on
`platform.checkout_line_items`; every other statement (`SET`, `UPDATE`,
`COMMENT ON`) changes no structure. A column's inline `CHECK` is part of the
column. The index is created under an unqualified name while the search path
is `platform` and dropped as `platform.<name>`. -/
def schemaOpOf (sql : String) : SchemaOp :=
  match sqlWords sql with
  | "ALTER" :: "TABLE" :: "platform" :: "checkout_line_items" :: "ADD" :: "COLUMN" :: c :: _ =>
    .create (.column c)
  | "ALTER" :: "TABLE" :: "platform" :: "checkout_line_items" :: "ADD" :: "CONSTRAINT" ::
      n :: _ =>
    .create (.constraint n)
  | "CREATE" :: "INDEX" :: "IF" :: "NOT" :: "EXISTS" :: n :: "ON" :: "platform" ::
      "checkout_line_items" :: _ =>
    .createIfNotExists (.index n)
  | "DROP" :: "INDEX" :: "IF" :: "EXISTS" :: "platform" :: n :: _ =>
    .dropIfExists (.index n)
  | "ALTER" :: "TABLE" :: "platform" :: "checkout_line_items" :: "DROP" :: "CONSTRAINT" ::
      "IF" :: "EXISTS" :: n :: _ =>
    .dropIfExists (.constraint n)
  | "ALTER" :: "TABLE" :: "platform" :: "checkout_line_items" :: "DROP" :: "COLUMN" ::
      "IF" :: "EXISTS" :: c :: _ =>
    .dropIfExists (.column c)
  | _ => .noChange

/-- The objects a statement list creates, in statement order. -/
def createdBy (ss : List Stmt) : List SchemaObject :=
  ss.filterMap (fun s =>
    match schemaOpOf s.sql with
    | .create o => some o
    | .createIfNotExists o => some o
    | _ => none)

/-- The objects a statement list drops, in statement order. -/
def droppedBy (ss : List Stmt) : List SchemaObject :=
  ss.filterMap (fun s =>
    match schemaOpOf s.sql with
    | .dropIfExists o => some o
    | _ => none)

/-- The schema of `checkout_line_items` as the set of its columns,
constraints and indexes. -/
abbrev Schema := Finset SchemaObject

/-- Effect of one structural change: a plain `ADD` fails (`none`) when the
object exists; the `IF NOT EXISTS` and `IF EXISTS` forms never fail. -/
def applyOp (schema : Schema) : SchemaOp → Option Schema
  | .create o => if o ∈ schema then none else some (insert o schema)
  | .createIfNotExists o => some (insert o schema)
  | .dropIfExists o => some (schema.erase o)
  | .noChange => some schema

/-- Effect of a list of structural changes applied in order; `none` when one fails. -/
def applyOps : Schema → List SchemaOp → Option Schema
  | schema, [] => some schema
  | schema, op :: rest =>
    match applyOp schema op with
    | none => none
    | some next => applyOps next rest

/-- Effect of a statement list executed in order; `none` when a statement fails. -/
def applyStmts (schema : Schema) (ss : List Stmt) : Option Schema :=
  applyOps schema (ss.map (fun s => schemaOpOf s.sql))

/-- A term of an SQL expression: a column or a literal. -/
inductive SqlTerm (α : Type) where
  | col (name : String)
  | lit (v : α)

/-- The predicates used by the `CHECK` and `WHERE` clauses of version 0004. -/
inductive SqlPred (α : Type) where
  | isNull (t : SqlTerm α)
  | isNotNull (t : SqlTerm α)
  | ge (a b : SqlTerm α)
  | and (p q : SqlPred α)
  | or (p q : SqlPred α)

/-- A row: the value of each column, `none` for SQL `NULL`. -/
abbrev Row (α : Type) := String → Option α

/-- Value of a term in a row. -/
def SqlTerm.eval {α : Type} (row : Row α) : SqlTerm α → Option α
  | .col name => row name
  | .lit v => some v

/-- Truth value of a predicate in a row; `none` is SQL's unknown. -/
def SqlPred.eval {α : Type} [LinearOrder α] (row : Row α) : SqlPred α → Option Bool
  | .isNull t => some (t.eval row).isNone
  | .isNotNull t => some (t.eval row).isSome
  | .ge a b =>
    match a.eval row, b.eval row with
    | some x, some y => some (decide (y ≤ x))
    | _, _ => none
  | .and p q =>
    match p.eval row, q.eval row with
    | some false, _ => some false
    | _, some false => some false
    | some true, some true => some true
    | _, _ => none
  | .or p q =>
    match p.eval row, q.eval row with
    | some true, _ => some true
    | _, some true => some true
    | some false, some false => some false
    | _, _ => none

/-- A `CHECK` constraint accepts a row unless its predicate is false. -/
def checkAccepts {α : Type} [LinearOrder α] (p : SqlPred α) (row : Row α) : Bool :=
  p.eval row != some false

/-- The predicate `<column> IS NULL OR <column> >= 0`. -/
def nonNegativeCheck {α : Type} [Zero α] (column : String) : SqlPred α :=
  .or (.isNull (.col column)) (.ge (.col column) (.lit 0))

/-- The `CHECK` clause of an `ADD COLUMN` statement, read off its words
after the word `CHECK`: the form `a IS NULL OR b >= 0` is understood, any
other clause (or none) gives `none`. -/
def checkOf {α : Type} [Zero α] (sql : String) : Option (SqlPred α) :=
  match (sqlWords sql).dropWhile (fun word => word != "CHECK") with
  | ["CHECK", a, "IS", "NULL", "OR", b, ">=", "0"] =>
    some (.or (.isNull (.col a)) (.ge (.col b) (.lit 0)))
  | _ => none

/-- A row with column `c` set to `v`. -/
def Row.set {α : Type} (row : Row α) (c : String) (v : Option α) : Row α :=
  fun k => if k = c then v else row k

/-- An `UPDATE ... SET column = source WHERE condition` statement. -/
structure UpdateStmt (α : Type) where
  column : String
  source : SqlTerm α
  condition : SqlPred α

/-- An `UPDATE` of `platform.checkout_line_items`, read off the words of the
statement: the form `SET c = src WHERE a IS NULL AND b IS NOT NULL` is
understood, anything else gives `none`. -/
def updateOf {α : Type} (sql : String) : Option (UpdateStmt α) :=
  match sqlWords sql with
  | ["UPDATE", "platform", "checkout_line_items", "SET", c, "=", src, "WHERE",
      a, "IS", "NULL", "AND", b, "IS", "NOT", "NULL"] =>
    some { column := c, source := .col src,
           condition := .and (.isNull (.col a)) (.isNotNull (.col b)) }
  | _ => none

/-- Running an `UPDATE`: a row is rewritten when the condition is true for
it (not when it is false or unknown); the other rows are left alone. -/
def UpdateStmt.run {α : Type} [LinearOrder α] (u : UpdateStmt α) (rows : List (Row α)) :
    List (Row α) :=
  rows.map (fun row =>
    if u.condition.eval row = some true then row.set u.column (u.source.eval row) else row)

/-- The columns a statement list adds with a `CHECK` clause, each with its
clause, in statement order (clauses `checkOf` does not understand are left
out). -/
def columnChecksOf {α : Type} [Zero α] (ss : List Stmt) : List (String × SqlPred α) :=
  ss.filterMap (fun s =>
    match schemaOpOf s.sql, checkOf s.sql with
    | .create (.column c), some p => some (c, p)
    | _, _ => none)

/-- Running an `UPDATE` on a table that carries `CHECK` constraints: every
rewritten row must be accepted by every constraint; if one is not, the
statement fails (`none`) and no row is changed. -/
def UpdateStmt.runChecked {α : Type} [LinearOrder α] (u : UpdateStmt α)
    (checks : List (SqlPred α)) (rows : List (Row α)) : Option (List (Row α)) :=
  if rows.all (fun row =>
      u.condition.eval row != some true ||
        checks.all (fun p => checkAccepts p (row.set u.column (u.source.eval row)))) then
    some (u.run rows)
  else none

/-- The first `UPDATE` of a statement list, with the `CHECK` clauses that the
statements before it have attached (`checks` holds those seen so far). -/
def findUpdate {α : Type} [Zero α] (checks : List (SqlPred α)) :
    List Stmt → Option (List (SqlPred α) × UpdateStmt α)
  | [] => none
  | s :: rest =>
    match updateOf s.sql with
    | some u => some (checks, u)
    | none =>
      match checkOf s.sql with
      | some p => findUpdate (checks ++ [p]) rest
      | none => findUpdate checks rest

/-- The backfill of a statement list on the rows the table holds when its
`UPDATE` is executed: the `UPDATE` is run under the `CHECK` clauses attached
before it; a list without an `UPDATE` leaves the rows alone. -/
def backfillOf {α : Type} [LinearOrder α] [Zero α] (ss : List Stmt) (rows : List (Row α)) :
    Option (List (Row α)) :=
  match findUpdate [] ss with
  | some (checks, u) => u.runChecked checks rows
  | none => some rows

/-- A row with `unit_price = 500` and every other column `NULL`. -/
def rowUnitPrice500 : Row Int := fun c => if c = "unit_price" then some 500 else none

/-- A row with `unit_price = 500` and `unit_original_price = 450`. -/
def rowAlreadyFilled : Row Int := fun c =>
  if c = "unit_price" then some 500
  else if c = "unit_original_price" then some 450 else none

/-- A row with `unit_price = -5` and every other column `NULL`. -/
def rowNegativePrice : Row Int := fun c => if c = "unit_price" then some (-5) else none

/-! ## The connection string of `main` -/

/-- The value of `DSN` in `main` when `sqlx.Connect` is called; `getenv` is
`os.Getenv` (the empty string for an unset variable), `fmt.Sprintf` with
`%s` verbs is concatenation. -/
def mainDSN (getenv : String → String) : String :=
  let DB_HOST := getenv "PLATFORM_DB_HOST"
  let DB_NAME := getenv "PLATFORM_DB_NAME"
  let DB_USER := getenv "PLATFORM_DB_USER"
  let DB_PASSWORD := getenv "PLATFORM_DB_PASSWORD"
  let DB_SSL := getenv "PLATFORM_DB_SSL"
  let DB_PORT := getenv "PLATFORM_DB_PORT"
  let DSN := "host=" ++ DB_HOST ++ " dbname=" ++ DB_NAME ++ " user=" ++ DB_USER ++
    " password=" ++ DB_PASSWORD ++ " sslmode=" ++ DB_SSL
  if DB_PORT ≠ "" then DSN ++ " port=" ++ DB_PORT else DSN

/-- A sample environment: the six variables set, with port `5433`. -/
def sampleEnv : String → String := fun name =>
  if name = "PLATFORM_DB_HOST" then "db.internal"
  else if name = "PLATFORM_DB_NAME" then "shop"
  else if name = "PLATFORM_DB_USER" then "migrator"
  else if name = "PLATFORM_DB_PASSWORD" then "secret"
  else if name = "PLATFORM_DB_SSL" then "disable"
  else if name = "PLATFORM_DB_PORT" then "5433"
  else ""

/-- The sample environment with `PLATFORM_DB_PORT` unset. -/
def sampleEnvNoPort : String → String := fun name =>
  if name = "PLATFORM_DB_PORT" then "" else sampleEnv name

/-! ## The program entry `main` -/

/-- What `main` does to the outside world, in program order. -/
inductive MainEvent where
  /-- The call `sqlx.Connect(driver, dsn)`. -/
  | connect (driver dsn : String)
  /-- The call `db.PingContext(ctx)`, with the timeout of `ctx` in seconds. -/
  | ping (timeoutSeconds : Nat)
  /-- The call `goose.UpContext(context.Background(), db.DB, dir)`. -/
  | gooseUp (dir : String)
  /-- One line written by `fmt.Println`. -/
  | println (line : String)
  deriving DecidableEq, Repr

/-- How `main` ends: an unrecovered `panic` with its message, or `os.Exit`. -/
inductive Termination where
  | panic (msg : String)
  | exit (code : Nat)
  deriving DecidableEq, Repr

/-- The collaborators of `main`: the process environment, the database
driver and the migration runner. `none` is Go's `nil` error. -/
structure MainEnv where
  getenv : String → String
  connect : String → String → Option Err
  ping : Nat → Option Err
  up : String → Option Err

/-- Go `main()`. `fmt.Sprintf` with `%s` verbs is concatenation,
`fmt.Println` puts one blank between its operands, `panic(err)` carries
`err.Error()`. -/
def main (env : MainEnv) : List MainEvent × Termination :=
  let DSN := mainDSN env.getenv
  match env.connect "postgres" DSN with
  | some err =>
    ([.connect "postgres" DSN], .panic ("connection error: " ++ DSN ++ "\n\n" ++ err))
  | none =>
  match env.ping 30 with
  | some err => ([.connect "postgres" DSN, .ping 30], .panic err)
  | none =>
  match env.up "/app/sql" with
  | some err =>
    ([.connect "postgres" DSN, .ping 30, .gooseUp "/app/sql",
      .println ("Migration failed: " ++ " " ++ err)], .panic err)
  | none =>
    ([.connect "postgres" DSN, .ping 30, .gooseUp "/app/sql",
      .println "Successfully migrated database"], .exit 0)

/-- Exit status of the process: the argument of `os.Exit`, and 2 for an
unrecovered panic (the Go runtime's status for it). -/
def exitStatus : Termination → Nat
  | .panic _ => 2
  | .exit code => code

/-- A sample run environment: `sampleEnv` variables and the given answers
of the driver and the migration runner. -/
def sampleMain (connect ping up : Option Err) : MainEnv :=
  { getenv := sampleEnv, connect := fun _ _ => connect, ping := fun _ => ping,
    up := fun _ => up }

/-- The sample environment with another password. -/
def sampleEnvOtherPassword : String → String := fun name =>
  if name = "PLATFORM_DB_PASSWORD" then "hunter2" else sampleEnv name

/-! ## Declared constants of the code tables -/

/-- The constants of type `LocaleCode` declared in the `const` block of `localeCode.go`:
Go identifier and value, in declaration order. -/
def declaredLocaleCode : List (String × LocaleCode) := [
  ("LocaleCodeEn", LocaleCodeEn),
  ("LocaleCodeRu", LocaleCodeRu),
  ("LocaleCodeUk", LocaleCodeUk),
  ("LocaleCodeFr", LocaleCodeFr),
  ("LocaleCodeEs", LocaleCodeEs),
  ("LocaleCodeDe", LocaleCodeDe),
  ("LocaleCodeIt", LocaleCodeIt),
  ("LocaleCodePt", LocaleCodePt),
  ("LocaleCodeJa", LocaleCodeJa),
  ("LocaleCodeKo", LocaleCodeKo),
  ("LocaleCodeZhCn", LocaleCodeZhCn),
  ("LocaleCodeZhTw", LocaleCodeZhTw),
  ("LocaleCodePl", LocaleCodePl),
  ("LocaleCodeTr", LocaleCodeTr),
  ("LocaleCodeNl", LocaleCodeNl),
  ("LocaleCodeAr", LocaleCodeAr),
  ("LocaleCodeHe", LocaleCodeHe),
  ("LocaleCodeHi", LocaleCodeHi),
  ("LocaleCodeBn", LocaleCodeBn),
  ("LocaleCodeVi", LocaleCodeVi),
  ("LocaleCodeTh", LocaleCodeTh),
  ("LocaleCodeID", LocaleCodeID),
  ("LocaleCodeMs", LocaleCodeMs),
  ("LocaleCodeCs", LocaleCodeCs),
  ("LocaleCodeSk", LocaleCodeSk),
  ("LocaleCodeRo", LocaleCodeRo),
  ("LocaleCodeHu", LocaleCodeHu),
  ("LocaleCodeEl", LocaleCodeEl),
  ("LocaleCodeBg", LocaleCodeBg),
  ("LocaleCodeSr", LocaleCodeSr),
  ("LocaleCodeHr", LocaleCodeHr),
  ("LocaleCodeSl", LocaleCodeSl),
  ("LocaleCodeLt", LocaleCodeLt),
  ("LocaleCodeLv", LocaleCodeLv),
  ("LocaleCodeEt", LocaleCodeEt),
  ("LocaleCodeFi", LocaleCodeFi),
  ("LocaleCodeSv", LocaleCodeSv),
  ("LocaleCodeNo", LocaleCodeNo),
  ("LocaleCodeDa", LocaleCodeDa),
  ("LocaleCodeIs", LocaleCodeIs),
  ("LocaleCodeFil", LocaleCodeFil),
  ("LocaleCodeSw", LocaleCodeSw),
  ("LocaleCodeAz", LocaleCodeAz),
  ("LocaleCodeHy", LocaleCodeHy),
  ("LocaleCodeKa", LocaleCodeKa),
  ("LocaleCodeKk", LocaleCodeKk),
  ("LocaleCodeUz", LocaleCodeUz),
  ("LocaleCodeTk", LocaleCodeTk),
  ("LocaleCodeKy", LocaleCodeKy),
  ("LocaleCodeTg", LocaleCodeTg),
  ("LocaleCodePs", LocaleCodePs),
  ("LocaleCodeFa", LocaleCodeFa),
  ("LocaleCodeKu", LocaleCodeKu),
  ("LocaleCodeMn", LocaleCodeMn),
  ("LocaleCodeNe", LocaleCodeNe),
  ("LocaleCodeSi", LocaleCodeSi),
  ("LocaleCodeTa", LocaleCodeTa),
  ("LocaleCodeTe", LocaleCodeTe),
  ("LocaleCodeKn", LocaleCodeKn),
  ("LocaleCodeMl", LocaleCodeMl),
  ("LocaleCodeMr", LocaleCodeMr),
  ("LocaleCodeGu", LocaleCodeGu),
  ("LocaleCodePa", LocaleCodePa),
  ("LocaleCodeLo", LocaleCodeLo),
  ("LocaleCodeMy", LocaleCodeMy),
  ("LocaleCodeKm", LocaleCodeKm),
  ("LocaleCodeEu", LocaleCodeEu),
  ("LocaleCodeGl", LocaleCodeGl),
  ("LocaleCodeCa", LocaleCodeCa),
  ("LocaleCodeCy", LocaleCodeCy),
  ("LocaleCodeGa", LocaleCodeGa),
  ("LocaleCodeGd", LocaleCodeGd),
  ("LocaleCodeHt", LocaleCodeHt),
  ("LocaleCodeAf", LocaleCodeAf),
  ("LocaleCodeZu", LocaleCodeZu),
  ("LocaleCodeXh", LocaleCodeXh),
  ("LocaleCodeYo", LocaleCodeYo),
  ("LocaleCodeIg", LocaleCodeIg),
  ("LocaleCodeAm", LocaleCodeAm),
  ("LocaleCodeMg", LocaleCodeMg),
  ("LocaleCodeMi", LocaleCodeMi),
  ("LocaleCodeSm", LocaleCodeSm),
  ("LocaleCodeTo", LocaleCodeTo),
  ("LocaleCodeEo", LocaleCodeEo),
  ("LocaleCodeLa", LocaleCodeLa)
]

/-- The constants of type `CurrencyCode` declared in the `const` block of `currencyCode.go`:
Go identifier and value, in declaration order. -/
def declaredCurrencyCode : List (String × CurrencyCode) := [
  ("CurrencyCodeAed", CurrencyCodeAed),
  ("CurrencyCodeAfn", CurrencyCodeAfn),
  ("CurrencyCodeAll", CurrencyCodeAll),
  ("CurrencyCodeAmd", CurrencyCodeAmd),
  ("CurrencyCodeAng", CurrencyCodeAng),
  ("CurrencyCodeAoa", CurrencyCodeAoa),
  ("CurrencyCodeArs", CurrencyCodeArs),
  ("CurrencyCodeAud", CurrencyCodeAud),
  ("CurrencyCodeAwg", CurrencyCodeAwg),
  ("CurrencyCodeAzn", CurrencyCodeAzn),
  ("CurrencyCodeBam", CurrencyCodeBam),
  ("CurrencyCodeBbd", CurrencyCodeBbd),
  ("CurrencyCodeBdt", CurrencyCodeBdt),
  ("CurrencyCodeBgn", CurrencyCodeBgn),
  ("CurrencyCodeBhd", CurrencyCodeBhd),
  ("CurrencyCodeBif", CurrencyCodeBif),
  ("CurrencyCodeBmd", CurrencyCodeBmd),
  ("CurrencyCodeBnd", CurrencyCodeBnd),
  ("CurrencyCodeBob", CurrencyCodeBob),
  ("CurrencyCodeBrl", CurrencyCodeBrl),
  ("CurrencyCodeBsd", CurrencyCodeBsd),
  ("CurrencyCodeBtn", CurrencyCodeBtn),
  ("CurrencyCodeBwp", CurrencyCodeBwp),
  ("CurrencyCodeByn", CurrencyCodeByn),
  ("CurrencyCodeBzd", CurrencyCodeBzd),
  ("CurrencyCodeCad", CurrencyCodeCad),
  ("CurrencyCodeCdf", CurrencyCodeCdf),
  ("CurrencyCodeChf", CurrencyCodeChf),
  ("CurrencyCodeClp", CurrencyCodeClp),
  ("CurrencyCodeCny", CurrencyCodeCny),
  ("CurrencyCodeCop", CurrencyCodeCop),
  ("CurrencyCodeCrc", CurrencyCodeCrc),
  ("CurrencyCodeCup", CurrencyCodeCup),
  ("CurrencyCodeCve", CurrencyCodeCve),
  ("CurrencyCodeCzk", CurrencyCodeCzk),
  ("CurrencyCodeDjf", CurrencyCodeDjf),
  ("CurrencyCodeDkk", CurrencyCodeDkk),
  ("CurrencyCodeDop", CurrencyCodeDop),
  ("CurrencyCodeDzd", CurrencyCodeDzd),
  ("CurrencyCodeEgp", CurrencyCodeEgp),
  ("CurrencyCodeErn", CurrencyCodeErn),
  ("CurrencyCodeEtb", CurrencyCodeEtb),
  ("CurrencyCodeEur", CurrencyCodeEur),
  ("CurrencyCodeFjd", CurrencyCodeFjd),
  ("CurrencyCodeFkp", CurrencyCodeFkp),
  ("CurrencyCodeFok", CurrencyCodeFok),
  ("CurrencyCodeGbp", CurrencyCodeGbp),
  ("CurrencyCodeGel", CurrencyCodeGel),
  ("CurrencyCodeGgp", CurrencyCodeGgp),
  ("CurrencyCodeGhs", CurrencyCodeGhs),
  ("CurrencyCodeGip", CurrencyCodeGip),
  ("CurrencyCodeGmd", CurrencyCodeGmd),
  ("CurrencyCodeGnf", CurrencyCodeGnf),
  ("CurrencyCodeGtq", CurrencyCodeGtq),
  ("CurrencyCodeGyd", CurrencyCodeGyd),
  ("CurrencyCodeHkd", CurrencyCodeHkd),
  ("CurrencyCodeHnl", CurrencyCodeHnl),
  ("CurrencyCodeHrk", CurrencyCodeHrk),
  ("CurrencyCodeHtg", CurrencyCodeHtg),
  ("CurrencyCodeHuf", CurrencyCodeHuf),
  ("CurrencyCodeIDR", CurrencyCodeIDR),
  ("CurrencyCodeIls", CurrencyCodeIls),
  ("CurrencyCodeImp", CurrencyCodeImp),
  ("CurrencyCodeInr", CurrencyCodeInr),
  ("CurrencyCodeIqd", CurrencyCodeIqd),
  ("CurrencyCodeIrr", CurrencyCodeIrr),
  ("CurrencyCodeIsk", CurrencyCodeIsk),
  ("CurrencyCodeJep", CurrencyCodeJep),
  ("CurrencyCodeJmd", CurrencyCodeJmd),
  ("CurrencyCodeJod", CurrencyCodeJod),
  ("CurrencyCodeJpy", CurrencyCodeJpy),
  ("CurrencyCodeKes", CurrencyCodeKes),
  ("CurrencyCodeKgs", CurrencyCodeKgs),
  ("CurrencyCodeKhr", CurrencyCodeKhr),
  ("CurrencyCodeKmf", CurrencyCodeKmf),
  ("CurrencyCodeKpw", CurrencyCodeKpw),
  ("CurrencyCodeKrw", CurrencyCodeKrw),
  ("CurrencyCodeKwd", CurrencyCodeKwd),
  ("CurrencyCodeKyd", CurrencyCodeKyd),
  ("CurrencyCodeKzt", CurrencyCodeKzt),
  ("CurrencyCodeLak", CurrencyCodeLak),
  ("CurrencyCodeLbp", CurrencyCodeLbp),
  ("CurrencyCodeLkr", CurrencyCodeLkr),
  ("CurrencyCodeLrd", CurrencyCodeLrd),
  ("CurrencyCodeLyd", CurrencyCodeLyd),
  ("CurrencyCodeMad", CurrencyCodeMad),
  ("CurrencyCodeMdl", CurrencyCodeMdl),
  ("CurrencyCodeMga", CurrencyCodeMga),
  ("CurrencyCodeMkd", CurrencyCodeMkd),
  ("CurrencyCodeMmk", CurrencyCodeMmk),
  ("CurrencyCodeMnt", CurrencyCodeMnt),
  ("CurrencyCodeMop", CurrencyCodeMop),
  ("CurrencyCodeMru", CurrencyCodeMru),
  ("CurrencyCodeMur", CurrencyCodeMur),
  ("CurrencyCodeMvr", CurrencyCodeMvr),
  ("CurrencyCodeMwk", CurrencyCodeMwk),
  ("CurrencyCodeMxn", CurrencyCodeMxn),
  ("CurrencyCodeMyr", CurrencyCodeMyr),
  ("CurrencyCodeMzn", CurrencyCodeMzn),
  ("CurrencyCodeNad", CurrencyCodeNad),
  ("CurrencyCodeNgn", CurrencyCodeNgn),
  ("CurrencyCodeNio", CurrencyCodeNio),
  ("CurrencyCodeNok", CurrencyCodeNok),
  ("CurrencyCodeNpr", CurrencyCodeNpr),
  ("CurrencyCodeNzd", CurrencyCodeNzd),
  ("CurrencyCodeOmr", CurrencyCodeOmr),
  ("CurrencyCodePab", CurrencyCodePab),
  ("CurrencyCodePen", CurrencyCodePen),
  ("CurrencyCodePgk", CurrencyCodePgk),
  ("CurrencyCodePhp", CurrencyCodePhp),
  ("CurrencyCodePkr", CurrencyCodePkr),
  ("CurrencyCodePln", CurrencyCodePln),
  ("CurrencyCodePyg", CurrencyCodePyg),
  ("CurrencyCodeQar", CurrencyCodeQar),
  ("CurrencyCodeRon", CurrencyCodeRon),
  ("CurrencyCodeRsd", CurrencyCodeRsd),
  ("CurrencyCodeRub", CurrencyCodeRub),
  ("CurrencyCodeRwf", CurrencyCodeRwf),
  ("CurrencyCodeSar", CurrencyCodeSar),
  ("CurrencyCodeSbd", CurrencyCodeSbd),
  ("CurrencyCodeScr", CurrencyCodeScr),
  ("CurrencyCodeSdg", CurrencyCodeSdg),
  ("CurrencyCodeSek", CurrencyCodeSek),
  ("CurrencyCodeSgd", CurrencyCodeSgd),
  ("CurrencyCodeShp", CurrencyCodeShp),
  ("CurrencyCodeSle", CurrencyCodeSle),
  ("CurrencyCodeSos", CurrencyCodeSos),
  ("CurrencyCodeSrd", CurrencyCodeSrd),
  ("CurrencyCodeSsp", CurrencyCodeSsp),
  ("CurrencyCodeStn", CurrencyCodeStn),
  ("CurrencyCodeSvc", CurrencyCodeSvc),
  ("CurrencyCodeSyp", CurrencyCodeSyp),
  ("CurrencyCodeSzl", CurrencyCodeSzl),
  ("CurrencyCodeThb", CurrencyCodeThb),
  ("CurrencyCodeTjs", CurrencyCodeTjs),
  ("CurrencyCodeTmt", CurrencyCodeTmt),
  ("CurrencyCodeTnd", CurrencyCodeTnd),
  ("CurrencyCodeTop", CurrencyCodeTop),
  ("CurrencyCodeTry", CurrencyCodeTry),
  ("CurrencyCodeTtd", CurrencyCodeTtd),
  ("CurrencyCodeTwd", CurrencyCodeTwd),
  ("CurrencyCodeTzs", CurrencyCodeTzs),
  ("CurrencyCodeUah", CurrencyCodeUah),
  ("CurrencyCodeUgx", CurrencyCodeUgx),
  ("CurrencyCodeUsd", CurrencyCodeUsd),
  ("CurrencyCodeUyu", CurrencyCodeUyu),
  ("CurrencyCodeUzs", CurrencyCodeUzs),
  ("CurrencyCodeVes", CurrencyCodeVes),
  ("CurrencyCodeVnd", CurrencyCodeVnd),
  ("CurrencyCodeVuv", CurrencyCodeVuv),
  ("CurrencyCodeWst", CurrencyCodeWst),
  ("CurrencyCodeXaf", CurrencyCodeXaf),
  ("CurrencyCodeXcd", CurrencyCodeXcd),
  ("CurrencyCodeXdr", CurrencyCodeXdr),
  ("CurrencyCodeXof", CurrencyCodeXof),
  ("CurrencyCodeXpf", CurrencyCodeXpf),
  ("CurrencyCodeYer", CurrencyCodeYer),
  ("CurrencyCodeZar", CurrencyCodeZar),
  ("CurrencyCodeZmw", CurrencyCodeZmw),
  ("CurrencyCodeZwl", CurrencyCodeZwl)
]

/-- The constants of type `CountryCode` declared in the `const` block of `countryCode.go`:
Go identifier and value, in declaration order. -/
def declaredCountryCode : List (String × CountryCode) := [
  ("CountryCodeUs", CountryCodeUs),
  ("CountryCodeCa", CountryCodeCa),
  ("CountryCodeMx", CountryCodeMx),
  ("CountryCodeGb", CountryCodeGb),
  ("CountryCodeDe", CountryCodeDe),
  ("CountryCodeFr", CountryCodeFr),
  ("CountryCodeIt", CountryCodeIt),
  ("CountryCodeEs", CountryCodeEs),
  ("CountryCodeAu", CountryCodeAu),
  ("CountryCodeNz", CountryCodeNz),
  ("CountryCodeJp", CountryCodeJp),
  ("CountryCodeCn", CountryCodeCn),
  ("CountryCodeKr", CountryCodeKr),
  ("CountryCodeIn", CountryCodeIn),
  ("CountryCodeBr", CountryCodeBr),
  ("CountryCodeAr", CountryCodeAr),
  ("CountryCodeZa", CountryCodeZa),
  ("CountryCodeRu", CountryCodeRu),
  ("CountryCodeUa", CountryCodeUa),
  ("CountryCodePl", CountryCodePl),
  ("CountryCodeNl", CountryCodeNl),
  ("CountryCodeBe", CountryCodeBe),
  ("CountryCodeSe", CountryCodeSe),
  ("CountryCodeNo", CountryCodeNo),
  ("CountryCodeDk", CountryCodeDk),
  ("CountryCodeFi", CountryCodeFi),
  ("CountryCodeCh", CountryCodeCh),
  ("CountryCodeAt", CountryCodeAt),
  ("CountryCodePt", CountryCodePt),
  ("CountryCodeIe", CountryCodeIe),
  ("CountryCodeCz", CountryCodeCz),
  ("CountryCodeHu", CountryCodeHu),
  ("CountryCodeSk", CountryCodeSk),
  ("CountryCodeSi", CountryCodeSi),
  ("CountryCodeHr", CountryCodeHr),
  ("CountryCodeGr", CountryCodeGr),
  ("CountryCodeTr", CountryCodeTr),
  ("CountryCodeRo", CountryCodeRo),
  ("CountryCodeBg", CountryCodeBg),
  ("CountryCodeEe", CountryCodeEe),
  ("CountryCodeLv", CountryCodeLv),
  ("CountryCodeLt", CountryCodeLt),
  ("CountryCodeIs", CountryCodeIs),
  ("CountryCodeLu", CountryCodeLu),
  ("CountryCodeLi", CountryCodeLi),
  ("CountryCodeMt", CountryCodeMt),
  ("CountryCodeCy", CountryCodeCy),
  ("CountryCodeIl", CountryCodeIl),
  ("CountryCodeSa", CountryCodeSa),
  ("CountryCodeAe", CountryCodeAe),
  ("CountryCodeQa", CountryCodeQa),
  ("CountryCodeKw", CountryCodeKw),
  ("CountryCodeOm", CountryCodeOm),
  ("CountryCodeJo", CountryCodeJo),
  ("CountryCodeEg", CountryCodeEg),
  ("CountryCodeMa", CountryCodeMa),
  ("CountryCodeTn", CountryCodeTn),
  ("CountryCodeDz", CountryCodeDz),
  ("CountryCodeNg", CountryCodeNg),
  ("CountryCodeKe", CountryCodeKe),
  ("CountryCodeEt", CountryCodeEt),
  ("CountryCodeGh", CountryCodeGh),
  ("CountryCodeSn", CountryCodeSn),
  ("CountryCodeCi", CountryCodeCi),
  ("CountryCodeTz", CountryCodeTz),
  ("CountryCodeUg", CountryCodeUg),
  ("CountryCodeCm", CountryCodeCm),
  ("CountryCodeZm", CountryCodeZm),
  ("CountryCodeZw", CountryCodeZw),
  ("CountryCodeMz", CountryCodeMz),
  ("CountryCodeBw", CountryCodeBw),
  ("CountryCodeNa", CountryCodeNa),
  ("CountryCodeAo", CountryCodeAo),
  ("CountryCodeCd", CountryCodeCd),
  ("CountryCodeSd", CountryCodeSd),
  ("CountryCodePk", CountryCodePk),
  ("CountryCodeBd", CountryCodeBd),
  ("CountryCodeNp", CountryCodeNp),
  ("CountryCodeTh", CountryCodeTh),
  ("CountryCodeVn", CountryCodeVn),
  ("CountryCodeMy", CountryCodeMy),
  ("CountryCodeSg", CountryCodeSg),
  ("CountryCodeID", CountryCodeID),
  ("CountryCodePh", CountryCodePh),
  ("CountryCodeMm", CountryCodeMm),
  ("CountryCodeKh", CountryCodeKh),
  ("CountryCodeLa", CountryCodeLa),
  ("CountryCodeBn", CountryCodeBn),
  ("CountryCodeKz", CountryCodeKz),
  ("CountryCodeUz", CountryCodeUz),
  ("CountryCodeTm", CountryCodeTm),
  ("CountryCodeKg", CountryCodeKg),
  ("CountryCodeTj", CountryCodeTj),
  ("CountryCodeGe", CountryCodeGe),
  ("CountryCodeAm", CountryCodeAm),
  ("CountryCodeAz", CountryCodeAz),
  ("CountryCodeBy", CountryCodeBy),
  ("CountryCodeMd", CountryCodeMd),
  ("CountryCodeRs", CountryCodeRs),
  ("CountryCodeMe", CountryCodeMe),
  ("CountryCodeMk", CountryCodeMk),
  ("CountryCodeBa", CountryCodeBa),
  ("CountryCodeAl", CountryCodeAl),
  ("CountryCodeXk", CountryCodeXk),
  ("CountryCodeGl", CountryCodeGl),
  ("CountryCodePa", CountryCodePa),
  ("CountryCodeCr", CountryCodeCr),
  ("CountryCodeSv", CountryCodeSv),
  ("CountryCodeGt", CountryCodeGt),
  ("CountryCodeHn", CountryCodeHn),
  ("CountryCodeNi", CountryCodeNi),
  ("CountryCodeJm", CountryCodeJm),
  ("CountryCodeCu", CountryCodeCu),
  ("CountryCodeDo", CountryCodeDo),
  ("CountryCodeHt", CountryCodeHt),
  ("CountryCodeTt", CountryCodeTt),
  ("CountryCodeBb", CountryCodeBb),
  ("CountryCodeBs", CountryCodeBs),
  ("CountryCodePy", CountryCodePy),
  ("CountryCodeUy", CountryCodeUy),
  ("CountryCodeCl", CountryCodeCl),
  ("CountryCodePe", CountryCodePe),
  ("CountryCodeCo", CountryCodeCo),
  ("CountryCodeVe", CountryCodeVe),
  ("CountryCodeBo", CountryCodeBo),
  ("CountryCodeEc", CountryCodeEc),
  ("CountryCodeSr", CountryCodeSr),
  ("CountryCodeGy", CountryCodeGy),
  ("CountryCodeFj", CountryCodeFj),
  ("CountryCodePg", CountryCodePg),
  ("CountryCodeWs", CountryCodeWs),
  ("CountryCodeTo", CountryCodeTo),
  ("CountryCodeSb", CountryCodeSb),
  ("CountryCodeVu", CountryCodeVu),
  ("CountryCodeNc", CountryCodeNc),
  ("CountryCodeMh", CountryCodeMh),
  ("CountryCodeFm", CountryCodeFm),
  ("CountryCodePw", CountryCodePw),
  ("CountryCodeMv", CountryCodeMv),
  ("CountryCodeSc", CountryCodeSc),
  ("CountryCodeMu", CountryCodeMu),
  ("CountryCodeLk", CountryCodeLk),
  ("CountryCodeBt", CountryCodeBt),
  ("CountryCodeMn", CountryCodeMn),
  ("CountryCodeKp", CountryCodeKp),
  ("CountryCodeIq", CountryCodeIq),
  ("CountryCodeIr", CountryCodeIr),
  ("CountryCodeAf", CountryCodeAf),
  ("CountryCodeYe", CountryCodeYe),
  ("CountryCodeSy", CountryCodeSy),
  ("CountryCodeLb", CountryCodeLb),
  ("CountryCodePs", CountryCodePs),
  ("CountryCodeBh", CountryCodeBh),
  ("CountryCodeMw", CountryCodeMw),
  ("CountryCodeRw", CountryCodeRw),
  ("CountryCodeBi", CountryCodeBi),
  ("CountryCodeSs", CountryCodeSs),
  ("CountryCodeLs", CountryCodeLs),
  ("CountryCodeSz", CountryCodeSz),
  ("CountryCodeMg", CountryCodeMg),
  ("CountryCodeCf", CountryCodeCf),
  ("CountryCodeCg", CountryCodeCg),
  ("CountryCodeGa", CountryCodeGa),
  ("CountryCodeGn", CountryCodeGn),
  ("CountryCodeGw", CountryCodeGw),
  ("CountryCodeGq", CountryCodeGq),
  ("CountryCodeSl", CountryCodeSl),
  ("CountryCodeLr", CountryCodeLr),
  ("CountryCodeBj", CountryCodeBj),
  ("CountryCodeTg", CountryCodeTg),
  ("CountryCodeNe", CountryCodeNe),
  ("CountryCodeMl", CountryCodeMl),
  ("CountryCodeBf", CountryCodeBf),
  ("CountryCodeTd", CountryCodeTd),
  ("CountryCodeMr", CountryCodeMr),
  ("CountryCodeGm", CountryCodeGm),
  ("CountryCodeCv", CountryCodeCv),
  ("CountryCodeEr", CountryCodeEr),
  ("CountryCodeDj", CountryCodeDj),
  ("CountryCodeKm", CountryCodeKm),
  ("CountryCodeAd", CountryCodeAd),
  ("CountryCodeMc", CountryCodeMc),
  ("CountryCodeSm", CountryCodeSm),
  ("CountryCodeVa", CountryCodeVa),
  ("CountryCodeTl", CountryCodeTl),
  ("CountryCodeAg", CountryCodeAg),
  ("CountryCodeKn", CountryCodeKn),
  ("CountryCodeLc", CountryCodeLc),
  ("CountryCodeVc", CountryCodeVc),
  ("CountryCodeGd", CountryCodeGd),
  ("CountryCodeDm", CountryCodeDm),
  ("CountryCodeBz", CountryCodeBz),
  ("CountryCodeAw", CountryCodeAw),
  ("CountryCodeCw", CountryCodeCw),
  ("CountryCodeBm", CountryCodeBm),
  ("CountryCodeFo", CountryCodeFo),
  ("CountryCodeIm", CountryCodeIm),
  ("CountryCodeJe", CountryCodeJe),
  ("CountryCodeGg", CountryCodeGg),
  ("CountryCodeAx", CountryCodeAx),
  ("CountryCodeEh", CountryCodeEh),
  ("CountryCodeVg", CountryCodeVg),
  ("CountryCodeVi", CountryCodeVi)
]

/-! ## Lemmas: entry points against the reference executor -/

theorem core_eq_iff (r s : World × Option Err) :
    core r = core s ↔ SameTx r.1 s.1 ∧ r.2 = s.2 := by
  simp [core, SameTx, Prod.ext_iff, and_assoc]

/-- One guarded step of an entry point against one step of the reference executor. -/
theorem step_core (db : Database) (w v : World) (s : Stmt) (rest : List Stmt)
    (msg : Err → String) (k : World → World × Option Err) (h : SameTx w v)
    (hk : ∀ w1 v1, SameTx w1 v1 → core (k w1) = core (submitAll db rest v1)) :
    core (match Exec db w s.sql s.args with
          | (w1, some err) => (Println w1 (msg err), some err)
          | (w1, none) => k w1) = core (submitAll db (s :: rest) v) := by
  obtain ⟨h1, h2⟩ := h
  simp only [submitAll, Exec, h1, h2]
  cases hr : db.respond v.submitted { sql := s.sql, args := s.args } with
  | some err => simp [core, Println]
  | none =>
    simp only []
    exact hk _ _ ⟨rfl, rfl⟩

theorem Up0002_core (build : Builder) (e : Embedded) (db : Database) (w : World) :
    core (Up0002 db w) = core (submitAll db (EntryPoint.written build e .up0002) w) := by
  simp only [Up0002, ExecContext, EntryPoint.written, EntryPoint.guarded, EntryPoint.preamble,
    EntryPoint.fragments, if_true, List.nil_append, List.cons_append, List.singleton_append,
    setPlatformSQL, setPublicSQL]
  refine step_core db _ w (plain _) _ _ _ ⟨rfl, rfl⟩ ?_
  intro w1 v1 h
  refine step_core db _ _ (plain _) _ _ _ h ?_
  intro w1 v1 h
  refine step_core db _ _ (plain _) _ _ _ h ?_
  intro w1 v1 h
  refine step_core db _ _ (plain _) _ _ _ h ?_
  intro w1 v1 h
  refine step_core db _ _ (plain _) _ _ _ h ?_
  intro w1 v1 h
  exact (core_eq_iff _ _).2 ⟨h, rfl⟩

theorem Down0002_core (build : Builder) (e : Embedded) (db : Database) (w : World) :
    core (Down0002 db w) = core (submitAll db (EntryPoint.written build e .down0002) w) := by
  simp only [Down0002, ExecContext, EntryPoint.written, EntryPoint.guarded, EntryPoint.preamble,
    EntryPoint.fragments, if_true, List.nil_append, List.cons_append, List.singleton_append,
    setPlatformSQL, setPublicSQL]
  refine step_core db _ w (plain _) _ _ _ ⟨rfl, rfl⟩ ?_
  intro w1 v1 h
  refine step_core db _ _ (plain _) _ _ _ h ?_
  intro w1 v1 h
  refine step_core db _ _ (plain _) _ _ _ h ?_
  intro w1 v1 h
  refine step_core db _ _ (plain _) _ _ _ h ?_
  intro w1 v1 h
  refine step_core db _ _ (plain _) _ _ _ h ?_
  intro w1 v1 h
  exact (core_eq_iff _ _).2 ⟨h, rfl⟩

theorem Up0003_core (build : Builder) (e : Embedded) (db : Database) (w : World) :
    core (Up0003 e db w) = core (submitAll db (EntryPoint.written build e .up0003) w) := by
  simp only [Up0003, ExecContext, EntryPoint.written, EntryPoint.guarded, EntryPoint.preamble,
    EntryPoint.fragments, if_true, List.nil_append, List.cons_append, List.singleton_append,
    setPlatformSQL, setPublicSQL]
  refine step_core db _ w (plain _) _ _ _ ⟨rfl, rfl⟩ ?_
  intro w1 v1 h
  refine step_core db _ _ (plain _) _ _ _ h ?_
  intro w1 v1 h
  refine step_core db _ _ (plain _) _ _ _ h ?_
  intro w1 v1 h
  exact (core_eq_iff _ _).2 ⟨h, rfl⟩

theorem Down0003_core (build : Builder) (e : Embedded) (db : Database) (w : World) :
    core (Down0003 e db w) = core (submitAll db (EntryPoint.written build e .down0003) w) := by
  simp only [Down0003, ExecContext, EntryPoint.written, EntryPoint.guarded, EntryPoint.preamble,
    EntryPoint.fragments, if_true, List.nil_append, List.cons_append, List.singleton_append,
    setPlatformSQL, setPublicSQL]
  refine step_core db _ w (plain _) _ _ _ ⟨rfl, rfl⟩ ?_
  intro w1 v1 h
  refine step_core db _ _ (plain _) _ _ _ h ?_
  intro w1 v1 h
  refine step_core db _ _ (plain _) _ _ _ h ?_
  intro w1 v1 h
  exact (core_eq_iff _ _).2 ⟨h, rfl⟩

theorem Up0004_core (build : Builder) (e : Embedded) (db : Database) (w : World) :
    core (Up0004 db w) = core (submitAll db (EntryPoint.written build e .up0004) w) := by
  simp only [Up0004, ExecContext, EntryPoint.written, EntryPoint.guarded, EntryPoint.preamble,
    EntryPoint.fragments, if_true, List.nil_append, List.cons_append, List.singleton_append,
    setPlatformSQL, setPublicSQL]
  refine step_core db _ w (plain _) _ _ _ ⟨rfl, rfl⟩ ?_
  intro w1 v1 h
  refine step_core db _ _ (plain _) _ _ _ h ?_
  intro w1 v1 h
  refine step_core db _ _ (plain _) _ _ _ h ?_
  intro w1 v1 h
  refine step_core db _ _ (plain _) _ _ _ h ?_
  intro w1 v1 h
  refine step_core db _ _ (plain _) _ _ _ h ?_
  intro w1 v1 h
  refine step_core db _ _ (plain _) _ _ _ h ?_
  intro w1 v1 h
  refine step_core db _ _ (plain _) _ _ _ h ?_
  intro w1 v1 h
  refine step_core db _ _ (plain _) _ _ _ h ?_
  intro w1 v1 h
  exact (core_eq_iff _ _).2 ⟨h, rfl⟩

theorem Down0004_core (build : Builder) (e : Embedded) (db : Database) (w : World) :
    core (Down0004 db w) = core (submitAll db (EntryPoint.written build e .down0004) w) := by
  simp only [Down0004, ExecContext, EntryPoint.written, EntryPoint.guarded, EntryPoint.preamble,
    EntryPoint.fragments, if_true, List.nil_append, List.cons_append, List.singleton_append,
    setPlatformSQL, setPublicSQL]
  refine step_core db _ w (plain _) _ _ _ ⟨rfl, rfl⟩ ?_
  intro w1 v1 h
  refine step_core db _ _ (plain _) _ _ _ h ?_
  intro w1 v1 h
  refine step_core db _ _ (plain _) _ _ _ h ?_
  intro w1 v1 h
  refine step_core db _ _ (plain _) _ _ _ h ?_
  intro w1 v1 h
  refine step_core db _ _ (plain _) _ _ _ h ?_
  intro w1 v1 h
  refine step_core db _ _ (plain _) _ _ _ h ?_
  intro w1 v1 h
  exact (core_eq_iff _ _).2 ⟨h, rfl⟩


theorem submitAll_append (db : Database) (a b : List Stmt) (w : World) :
    submitAll db (a ++ b) w =
      match submitAll db a w with
      | (w1, some err) => (w1, some err)
      | (w1, none) => submitAll db b w1 := by
  induction a generalizing w with
  | nil => simp [submitAll]
  | cons s a ih =>
    simp only [List.cons_append, submitAll]
    rcases hx : Exec db w s.sql s.args with ⟨w1, _ | err⟩
    · simp only []
      exact ih w1
    · simp

/-- A block of an entry point that behaves as the reference executor on `a`,
followed by a continuation that behaves as it on `rest`. -/
theorem block_core (db : Database) (r : World × Option Err) (v : World)
    (a rest : List Stmt) (fail : World → Err → World)
    (k : World → World × Option Err)
    (hfail : ∀ w1 err, SameTx (fail w1 err) w1)
    (hk : ∀ w1 v1, SameTx w1 v1 → core (k w1) = core (submitAll db rest v1)) :
    core r = core (submitAll db a v) →
    core (match r with
          | (w1, some err) => (fail w1 err, some err)
          | (w1, none) => k w1) = core (submitAll db (a ++ rest) v) := by
  intro hr
  rw [submitAll_append]
  rcases r with ⟨w1, _ | err⟩ <;> rcases hs : submitAll db a v with ⟨v1, _ | err2⟩ <;>
    rw [hs] at hr <;> have hr2 := (core_eq_iff _ _).1 hr
  · exact hk _ _ hr2.1
  · exact absurd hr2.2 (by simp)
  · exact absurd hr2.2 (by simp)
  · simp only []
    refine (core_eq_iff _ _).2 ⟨?_, hr2.2⟩
    exact ⟨(hfail w1 err).1.trans hr2.1.1, (hfail w1 err).2.trans hr2.1.2⟩

theorem runKeys_core (db : Database) (m : List (String × String)) (ks : List String)
    (w v : World) (h : SameTx w v) :
    core (runKeys db m ks w) =
      core (submitAll db (ks.map (fun key => plain (mapIndex m key))) v) := by
  induction ks generalizing w v with
  | nil => exact (core_eq_iff _ _).2 ⟨h, rfl⟩
  | cons key rest ih =>
    simp only [runKeys, List.map_cons]
    exact step_core db w v (plain _) _ _ _ h (fun w1 v1 h1 => ih w1 v1 h1)

theorem insertInitialDataOn_core (build : Builder) (ls : List LocaleCode)
    (cs : List CurrencyCode) (db : Database) (w v : World) (h : SameTx w v) :
    core (insertInitialDataOn build ls cs db w) =
      core (submitAll db (seedStmts build ls cs) v) := by
  simp only [insertInitialDataOn, ExecContext, seedStmts]
  refine step_core db w v ⟨_, _⟩ _ _ _ h ?_
  intro w1 v1 h1
  refine step_core db w1 v1 ⟨_, _⟩ _ _ _ h1 ?_
  intro w2 v2 h2
  exact (core_eq_iff _ _).2 ⟨h2, rfl⟩

theorem Up0001_core (build : Builder) (e : Embedded) (db : Database) (w : World) :
    core (Up0001 build e db w) =
      core (submitAll db (EntryPoint.written build e .up0001) w) := by
  simp only [Up0001, insertInitialData, EntryPoint.written, EntryPoint.guarded,
    EntryPoint.preamble, EntryPoint.fragments, if_true, List.nil_append, List.cons_append,
    List.singleton_append, List.append_assoc, setPlatformSQL, setPublicSQL]
  refine step_core db _ w (plain _) _ _ _ ⟨rfl, rfl⟩ ?_
  intro w1 v1 h1
  refine step_core db _ _ (plain _) _ _ _ h1 ?_
  intro w2 v2 h2
  refine step_core db _ _ (plain _) _ _ _ h2 ?_
  intro w3 v3 h3
  refine block_core db _ v3 _ _ (fun w1 _ => w1) _ (fun _ _ => ⟨rfl, rfl⟩) ?_
    (runKeys_core db _ _ w3 v3 h3)
  intro w4 v4 h4
  refine block_core db _ v4 _ _ (fun w1 err => Println w1 _) _ (fun _ _ => ⟨rfl, rfl⟩) ?_
    (insertInitialDataOn_core build _ _ db w4 v4 h4)
  intro w5 v5 h5
  refine step_core db _ _ (plain _) _ _ _ h5 ?_
  intro w6 v6 h6
  exact (core_eq_iff _ _).2 ⟨h6, rfl⟩

theorem Down0001_core (build : Builder) (e : Embedded) (db : Database) (w : World) :
    core (Down0001 e db w) =
      core (submitAll db (EntryPoint.written build e .down0001) w) := by
  simp only [Down0001, ExecContext, EntryPoint.written, EntryPoint.guarded,
    EntryPoint.fragments, submitAll, plain]
  rcases hx : Exec db w e.rollback [] with ⟨w1, _ | err⟩ <;> simp [core]

/-- Every entry point agrees with the reference executor run on its written
statement list, up to the output lines. -/
theorem run_core (build : Builder) (e : Embedded) (ep : EntryPoint) (db : Database)
    (w : World) :
    core (ep.run build e db w) = core (submitAll db (ep.written build e) w) := by
  cases ep
  · exact Up0001_core build e db w
  · exact Down0001_core build e db w
  · exact Up0002_core build e db w
  · exact Down0002_core build e db w
  · exact Up0003_core build e db w
  · exact Down0003_core build e db w
  · exact Up0004_core build e db w
  · exact Down0004_core build e db w


theorem answerAt_zero (db : Database) (hist : List Stmt) (s : Stmt) (ss : List Stmt) :
    answerAt db hist (s :: ss) 0 = db.respond hist s := by
  simp [answerAt]

theorem answerAt_succ (db : Database) (hist : List Stmt) (s : Stmt) (ss : List Stmt)
    (j : Nat) :
    answerAt db hist (s :: ss) (j + 1) = answerAt db (hist ++ [s]) ss j := by
  simp [answerAt, List.append_assoc]

theorem Exec_submitted (db : Database) (w : World) (q : String) (a : List Arg) :
    (Exec db w q a).1.submitted = w.submitted ++ [⟨q, a⟩] := by
  simp only [Exec]
  split <;> simp_all

theorem Exec_result (db : Database) (w : World) (q : String) (a : List Arg) :
    (Exec db w q a).2 = db.respond w.submitted ⟨q, a⟩ := by
  simp only [Exec]
  split <;> simp_all

/-- The reference executor stops at the first rejected statement. -/
theorem submitAll_firstFailure (db : Database) (ss : List Stmt) (w : World) (k : Nat)
    (err : Err) (h : FirstFailure db w.submitted ss k err) :
    (submitAll db ss w).1.submitted = w.submitted ++ ss.take (k + 1) ∧
      (submitAll db ss w).2 = some err := by
  induction ss generalizing w k with
  | nil => exact absurd h.1 (by simp)
  | cons s rest ih =>
    obtain ⟨hk, hbefore, hat⟩ := h
    have hsub := Exec_submitted db w s.sql s.args
    have hres := Exec_result db w s.sql s.args
    simp only [submitAll]
    cases k with
    | zero =>
      rw [answerAt_zero] at hat
      rcases hx : Exec db w s.sql s.args with ⟨w1, _ | e1⟩
      · rw [hx] at hres; simp [hat] at hres
      · rw [hx] at hres hsub
        simp only [] at hres hsub ⊢
        rw [hat] at hres
        exact ⟨by simpa using hsub, hres⟩
    | succ k =>
      have h0 := hbefore 0 (Nat.succ_pos k)
      rw [answerAt_zero] at h0
      rcases hx : Exec db w s.sql s.args with ⟨w1, _ | e1⟩
      · rw [hx] at hsub
        simp only [] at hsub ⊢
        have := ih w1 k ⟨by simpa using hk, fun j hj => by
          have := hbefore (j + 1) (by omega)
          rwa [answerAt_succ, ← hsub] at this, by rwa [answerAt_succ, ← hsub] at hat⟩
        rw [this.1, hsub]
        exact ⟨by simp, this.2⟩
      · rw [hx] at hres; simp [h0] at hres

/-- The reference executor returns no error exactly when every statement succeeds. -/
theorem submitAll_none_iff (db : Database) (ss : List Stmt) (w : World) :
    (submitAll db ss w).2 = none ↔ AllSucceed db w.submitted ss := by
  induction ss generalizing w with
  | nil => simp [submitAll, AllSucceed]
  | cons s rest ih =>
    have hsub := Exec_submitted db w s.sql s.args
    have hres := Exec_result db w s.sql s.args
    simp only [submitAll]
    rcases hx : Exec db w s.sql s.args with ⟨w1, _ | e1⟩
    · rw [hx] at hsub hres
      simp only [] at hsub hres ⊢
      rw [ih w1, hsub]
      constructor
      · intro h j hj
        cases j with
        | zero => rw [answerAt_zero]; exact hres.symm
        | succ j => rw [answerAt_succ]; exact h j (by simpa using hj)
      · intro h j hj
        have := h (j + 1) (by simpa using hj)
        rwa [answerAt_succ] at this
    · rw [hx] at hres
      simp only [] at hres ⊢
      constructor
      · intro h; exact absurd h (by simp)
      · intro h
        have := h 0 (by simp)
        rw [answerAt_zero, ← hres] at this
        exact absurd this (by simp)

/-- On success the reference executor has submitted the whole list. -/
theorem submitAll_submitted_of_none (db : Database) (ss : List Stmt) (w : World)
    (h : (submitAll db ss w).2 = none) :
    (submitAll db ss w).1.submitted = w.submitted ++ ss := by
  induction ss generalizing w with
  | nil => simp [submitAll]
  | cons s rest ih =>
    have hsub := Exec_submitted db w s.sql s.args
    simp only [submitAll] at h ⊢
    rcases hx : Exec db w s.sql s.args with ⟨w1, _ | e1⟩
    · rw [hx] at hsub h
      simp only [] at hsub h ⊢
      rw [ih w1 h, hsub]
      simp
    · rw [hx] at h
      exact absurd h (by simp)

/-- Whatever happens, the reference executor has submitted a prefix of the list. -/
theorem submitAll_prefix (db : Database) (ss : List Stmt) (w : World) :
    ∃ n, n ≤ ss.length ∧ (submitAll db ss w).1.submitted = w.submitted ++ ss.take n := by
  induction ss generalizing w with
  | nil => exact ⟨0, by simp, by simp [submitAll]⟩
  | cons s rest ih =>
    have hsub := Exec_submitted db w s.sql s.args
    simp only [submitAll]
    rcases hx : Exec db w s.sql s.args with ⟨w1, _ | e1⟩
    · rw [hx] at hsub
      obtain ⟨n, hn, hsn⟩ := ih w1
      refine ⟨n + 1, by simpa using hn, ?_⟩
      simp only [] at hsub ⊢
      rw [hsn, hsub]
      simp
    · rw [hx] at hsub
      exact ⟨1, by simp, by simpa using hsub⟩

/-- A successful run whose last statement is `SET search_path TO public;`
ends with search path `public`. -/
theorem submitAll_restores (db : Database) (init : List Stmt) (w : World)
    (h : (submitAll db (init ++ [plain setPublicSQL]) w).2 = none) :
    (submitAll db (init ++ [plain setPublicSQL]) w).1.searchPath = "public" := by
  rw [submitAll_append] at h ⊢
  rcases hx : submitAll db init w with ⟨w1, _ | e1⟩
  · rw [hx] at h
    simp only [submitAll, Exec, plain] at h ⊢
    cases hr : db.respond w1.submitted ⟨setPublicSQL, []⟩ with
    | none => simp [pathAfter, setPublicSQL, setPlatformSQL]
    | some e => rw [hr] at h; exact absurd h (by simp)
  · rw [hx] at h
    exact absurd h (by simp)


/-! ## Properties of the entry points -/

theorem run_submitted (build : Builder) (e : Embedded) (ep : EntryPoint) (db : Database)
    (w : World) :
    (ep.run build e db w).1.submitted = (submitAll db (ep.written build e) w).1.submitted :=
  congrArg (fun c => c.1) (run_core build e ep db w)

theorem run_searchPath (build : Builder) (e : Embedded) (ep : EntryPoint) (db : Database)
    (w : World) :
    (ep.run build e db w).1.searchPath = (submitAll db (ep.written build e) w).1.searchPath :=
  congrArg (fun c => c.2.1) (run_core build e ep db w)

theorem run_result (build : Builder) (e : Embedded) (ep : EntryPoint) (db : Database)
    (w : World) :
    (ep.run build e db w).2 = (submitAll db (ep.written build e) w).2 :=
  congrArg (fun c => c.2.2) (run_core build e ep db w)

theorem written_guarded (build : Builder) (e : Embedded) (ep : EntryPoint)
    (hg : ep.guarded = true) :
    ep.written build e =
      ep.preamble ++ [plain setPlatformSQL] ++ ep.fragments build e ++ [plain setPublicSQL] := by
  simp [EntryPoint.written, hg]

/-- C10: for each of Up0002, Up0003, Up0004, Down0002, Down0003 and Down0004
(and the two entry points of version 0001 as well): if the k-th statement of
its source text is the first to fail, the statements before k were submitted
in written order, nothing after k is submitted, nothing is submitted twice,
and the function returns exactly the error of statement k; and it returns
nil exactly when every statement succeeded. -/
theorem entry_point_stops_at_first_failure (build : Builder) (e : Embedded)
    (ep : EntryPoint) (db : Database) (w : World) :
    (∀ k err, FirstFailure db w.submitted (ep.written build e) k err →
      (ep.run build e db w).1.submitted = w.submitted ++ (ep.written build e).take (k + 1) ∧
      (ep.run build e db w).2 = some err) ∧
    ((ep.run build e db w).2 = none ↔ AllSucceed db w.submitted (ep.written build e)) := by
  refine ⟨fun k err h => ?_, ?_⟩
  · rw [run_submitted, run_result]
    exact submitAll_firstFailure db _ w k err h
  · rw [run_result]
    exact submitAll_none_iff db _ w

/-- Witness of C10: `Up0004` on a database that rejects its fourth statement. -/
theorem entry_point_stops_at_first_failure_witness :
    (EntryPoint.run sampleBuild sampleFiles .up0004 (dbFailAt 3 "boom")
        (freshTx "public")).1.submitted =
      (freshTx "public").submitted ++
        (EntryPoint.written sampleBuild sampleFiles .up0004).take (3 + 1) ∧
    (EntryPoint.run sampleBuild sampleFiles .up0004 (dbFailAt 3 "boom")
        (freshTx "public")).2 = some "boom" :=
  (entry_point_stops_at_first_failure sampleBuild sampleFiles .up0004 (dbFailAt 3 "boom")
    (freshTx "public")).1 3 "boom" (by decide)


theorem written_up0001 (build : Builder) (e : Embedded) :
    EntryPoint.written build e .up0001 =
      [plain "CREATE SCHEMA IF NOT EXISTS platform;", plain "CREATE SCHEMA fn;",
        plain setPlatformSQL] ++
      (keys.map (fragmentOf e) ++
        (seedStmts build AllLocaleCode AllCurrencyCode ++ [plain setPublicSQL])) := by
  simp [EntryPoint.written, EntryPoint.guarded, EntryPoint.preamble, EntryPoint.fragments]

theorem take_fragments (e : Embedded) (rest : List Stmt) (i : Nat) (hi : i < keys.length) :
    (keys.map (fragmentOf e) ++ rest).take (i + 1) = (keys.take (i + 1)).map (fragmentOf e) := by
  rw [List.take_append_of_le_length (by simpa using hi), List.map_take]

/-- C1: `Up0001` stops on the first failing fragment. If the fragment at
position `i` of the key list is the first statement to fail, then the
statements submitted are the two schema statements, the search-path switch
and the fragments of positions 0..i in declared order, each once; no later
fragment, no seed insert and no second attempt follows, and the returned
error is not nil. -/
theorem up0001_stops_on_first_failing_fragment (build : Builder) (e : Embedded)
    (db : Database) (w : World) (i : Nat) (err : Err) (hi : i < keys.length)
    (h : FirstFailure db w.submitted (EntryPoint.written build e .up0001) (i + 3) err) :
    (Up0001 build e db w).1.submitted =
      w.submitted ++
        ([plain "CREATE SCHEMA IF NOT EXISTS platform;", plain "CREATE SCHEMA fn;",
          plain setPlatformSQL] ++
        (keys.take (i + 1)).map (fragmentOf e)) ∧
    (Up0001 build e db w).2 ≠ none := by
  have hs := submitAll_firstFailure db _ w (i + 3) err h
  have h1 := run_submitted build e .up0001 db w
  have h2 := run_result build e .up0001 db w
  simp only [EntryPoint.run] at h1 h2
  rw [h1, h2, hs.1, hs.2]
  refine ⟨?_, by simp⟩
  rw [written_up0001, ← take_fragments e _ i hi]
  rfl

/-- Witness of C1: the fragment of key `settings` (position 1) is rejected. -/
theorem up0001_stops_on_first_failing_fragment_witness :
    (Up0001 sampleBuild sampleFiles (dbFailAt 4 "boom") (freshTx "public")).1.submitted =
      (freshTx "public").submitted ++
        ([plain "CREATE SCHEMA IF NOT EXISTS platform;", plain "CREATE SCHEMA fn;",
          plain setPlatformSQL] ++
        (keys.take (1 + 1)).map (fragmentOf sampleFiles)) ∧
    (Up0001 sampleBuild sampleFiles (dbFailAt 4 "boom") (freshTx "public")).2 ≠ none :=
  up0001_stops_on_first_failing_fragment sampleBuild sampleFiles (dbFailAt 4 "boom")
    (freshTx "public") 1 "boom" (by decide) (by decide)

/-- C4: on a run of `Up0001` in which every statement succeeds, the
statements submitted are exactly: create schema platform, create schema fn,
`SET search_path TO platform;`, the body `migrations[key]` of each key of
the key list in declared order (one statement per key), the locale_codes
insert, the currency_codes insert, and last `SET search_path TO public;`;
and `Up0001` returns nil. -/
theorem up0001_success_sequence (build : Builder) (e : Embedded) (db : Database)
    (w : World) (h : AllSucceed db w.submitted (EntryPoint.written build e .up0001)) :
    (Up0001 build e db w).1.submitted =
      w.submitted ++
        ([plain "CREATE SCHEMA IF NOT EXISTS platform;", plain "CREATE SCHEMA fn;",
          plain "SET search_path TO platform;"] ++
        keys.map (fun key => plain (mapIndex (migrations e) key)) ++
        [ { sql := (build "locale_codes" (localeRecords AllLocaleCode)).sql,
            args := (build "currency_codes" (currencyRecords AllCurrencyCode)).args },
          { sql := (build "currency_codes" (currencyRecords AllCurrencyCode)).sql,
            args := (build "currency_codes" (currencyRecords AllCurrencyCode)).args },
          plain "SET search_path TO public;" ]) ∧
    (Up0001 build e db w).2 = none := by
  have hn := (submitAll_none_iff db _ w).2 h
  have h1 := run_submitted build e .up0001 db w
  have h2 := run_result build e .up0001 db w
  simp only [EntryPoint.run] at h1 h2
  rw [h1, h2, submitAll_submitted_of_none db _ w hn]
  refine ⟨?_, hn⟩
  rw [written_up0001]
  simp [seedStmts, setPlatformSQL, setPublicSQL, fragmentOf]

/-- Witness of C4: `Up0001` on a database that accepts every statement. -/
theorem up0001_success_sequence_witness :
    AllSucceed dbOk (freshTx "public").submitted
        (EntryPoint.written sampleBuild sampleFiles .up0001) ∧
      (Up0001 sampleBuild sampleFiles dbOk (freshTx "public")).2 = none :=
  ⟨by decide,
    (up0001_success_sequence sampleBuild sampleFiles dbOk (freshTx "public")
      (by decide)).2⟩


/-- C5: the seeder builds one row per code. For every code list, the record
list built from it has the same length, and its i-th record is
`{code: the i-th code, is_active: true}` (no record beyond the last code);
for the two lists `insertInitialData` reads, that is 85 and 160 records. -/
theorem seeder_one_record_per_code (codes : List String) :
    (localeRecords codes).length = codes.length ∧
    (currencyRecords codes).length = codes.length ∧
    (∀ i : Nat, (localeRecords codes)[i]? =
      codes[i]?.map (fun c => ({ code := c, is_active := true } : Record))) ∧
    (∀ i : Nat, (currencyRecords codes)[i]? =
      codes[i]?.map (fun c => ({ code := c, is_active := true } : Record))) ∧
    (localeRecords AllLocaleCode).length = 85 ∧
    (currencyRecords AllCurrencyCode).length = 160 := by
  refine ⟨by simp [localeRecords], by simp [currencyRecords], fun i => ?_, fun i => ?_,
    by simp [localeRecords, AllLocaleCode], by simp [currencyRecords, AllCurrencyCode]⟩
  · simp [localeRecords, List.getElem?_map]
  · simp [currencyRecords, List.getElem?_map]

theorem preamble_has_no_set (ep : EntryPoint) :
    ep.preamble.count (plain setPlatformSQL) = 0 ∧
      ep.preamble.count (plain setPublicSQL) = 0 := by
  cases ep <;> decide

/-- C7, as stated, fails: when the embedded file of `featuresV2` consists of
the statement `SET search_path TO public;`, an all-success run of `Up0003`
submits that statement twice, once as its fragment and once as the restore. -/
theorem embedded_restore_text_is_submitted_twice :
    (Up0003 filesWithRestoreText dbOk (freshTx "public")).2 = none ∧
    (Up0003 filesWithRestoreText dbOk (freshTx "public")).1.submitted =
      [plain setPlatformSQL, plain setPublicSQL, plain setPublicSQL] ∧
    (Up0003 filesWithRestoreText dbOk (freshTx "public")).1.submitted.count
      (plain setPublicSQL) = 2 := by
  decide

/-- C7, amended: on an all-success run of every entry point whose source
brackets its fragments (all but `Down0001`), the statements submitted are
the preamble (the two `CREATE SCHEMA` statements of `Up0001`, nothing
otherwise), then `SET search_path TO platform;`, then the fragment
statements, then `SET search_path TO public;` as the last one. Each of the
two `SET` statements is submitted once by the entry point itself and once
more for every fragment whose text is that very statement; for `Up0002`,
`Up0004`, `Down0002` and `Down0004`, whose fragments are literals, that is
exactly once. -/
theorem guard_brackets_fragments (build : Builder) (e : Embedded) (ep : EntryPoint)
    (db : Database) (w : World) (hg : ep.guarded = true)
    (h : AllSucceed db w.submitted (ep.written build e)) :
    (ep.run build e db w).1.submitted =
      w.submitted ++ (ep.preamble ++ [plain setPlatformSQL] ++ ep.fragments build e ++
        [plain setPublicSQL]) ∧
    (ep.preamble ++ [plain setPlatformSQL] ++ ep.fragments build e ++
      [plain setPublicSQL]).count (plain setPlatformSQL) =
        1 + (ep.fragments build e).count (plain setPlatformSQL) ∧
    (ep.preamble ++ [plain setPlatformSQL] ++ ep.fragments build e ++
      [plain setPublicSQL]).count (plain setPublicSQL) =
        1 + (ep.fragments build e).count (plain setPublicSQL) ∧
    (ep = .up0002 ∨ ep = .up0004 ∨ ep = .down0002 ∨ ep = .down0004 →
      (ep.preamble ++ [plain setPlatformSQL] ++ ep.fragments build e ++
        [plain setPublicSQL]).count (plain setPlatformSQL) = 1 ∧
      (ep.preamble ++ [plain setPlatformSQL] ++ ep.fragments build e ++
        [plain setPublicSQL]).count (plain setPublicSQL) = 1) := by
  have hn := (submitAll_none_iff db _ w).2 h
  have hP := preamble_has_no_set ep
  have hne : plain setPlatformSQL ≠ plain setPublicSQL := by decide
  have hA : (ep.preamble ++ [plain setPlatformSQL] ++ ep.fragments build e ++
      [plain setPublicSQL]).count (plain setPlatformSQL) =
        1 + (ep.fragments build e).count (plain setPlatformSQL) := by
    simp [List.count_append, hP.1, List.count_cons, hne.symm]
    omega
  have hB : (ep.preamble ++ [plain setPlatformSQL] ++ ep.fragments build e ++
      [plain setPublicSQL]).count (plain setPublicSQL) =
        1 + (ep.fragments build e).count (plain setPublicSQL) := by
    simp [List.count_append, hP.2, List.count_cons, hne]
    omega
  refine ⟨?_, hA, hB, fun hep => ?_⟩
  · rw [run_submitted, submitAll_submitted_of_none db _ w hn, written_guarded build e ep hg]
  · have hF : (ep.fragments build e).count (plain setPlatformSQL) = 0 ∧
        (ep.fragments build e).count (plain setPublicSQL) = 0 := by
      rcases hep with h1 | h1 | h1 | h1 <;> subst h1 <;> exact ⟨rfl, rfl⟩
    rw [hA, hB, hF.1, hF.2]
    exact ⟨rfl, rfl⟩

/-- Witness of C7 amended: `Up0002` on a database that accepts every statement. -/
theorem guard_brackets_fragments_witness :
    (EntryPoint.run sampleBuild sampleFiles .up0002 dbOk (freshTx "public")).1.submitted =
      (freshTx "public").submitted ++
        (EntryPoint.preamble .up0002 ++ [plain setPlatformSQL] ++
          EntryPoint.fragments sampleBuild sampleFiles .up0002 ++ [plain setPublicSQL]) ∧
    (EntryPoint.preamble .up0002 ++ [plain setPlatformSQL] ++
        EntryPoint.fragments sampleBuild sampleFiles .up0002 ++
        [plain setPublicSQL]).count (plain setPlatformSQL) = 1 ∧
    (EntryPoint.preamble .up0002 ++ [plain setPlatformSQL] ++
        EntryPoint.fragments sampleBuild sampleFiles .up0002 ++
        [plain setPublicSQL]).count (plain setPublicSQL) = 1 :=
  have h := guard_brackets_fragments sampleBuild sampleFiles .up0002 dbOk (freshTx "public")
    (by decide) (by decide)
  ⟨h.1, h.2.2.2 (Or.inl rfl)⟩


/-- C8, as stated, fails: called with the session default search path
`"$user", public`, `Up0002` succeeds and leaves the search path `public`,
not the value in effect at the call. -/
theorem up0002_does_not_restore_previous_path :
    (Up0002 dbOk (freshTx "\"$user\", public")).2 = none ∧
    (Up0002 dbOk (freshTx "\"$user\", public")).1.searchPath = "public" ∧
    (Up0002 dbOk (freshTx "\"$user\", public")).1.searchPath ≠
      (freshTx "\"$user\", public").searchPath := by
  decide

/-- C8, amended: after any entry point other than `Down0001` returns
successfully, the search path of the transaction is `public`, whatever it
was at the call and whatever the fragments did to it. -/
theorem success_leaves_public_path (build : Builder) (e : Embedded) (ep : EntryPoint)
    (db : Database) (w : World) (hg : ep.guarded = true)
    (h : (ep.run build e db w).2 = none) :
    (ep.run build e db w).1.searchPath = "public" := by
  rw [run_result, written_guarded build e ep hg] at h
  rw [run_searchPath, written_guarded build e ep hg]
  exact submitAll_restores db _ w h

/-- Witness of C8 amended: `Down0003` called with search path `platform`. -/
theorem success_leaves_public_path_witness :
    (EntryPoint.run sampleBuild sampleFiles .down0003 dbOk (freshTx "platform")).2 = none ∧
    (EntryPoint.run sampleBuild sampleFiles .down0003 dbOk
      (freshTx "platform")).1.searchPath = "public" :=
  ⟨by decide,
    success_leaves_public_path sampleBuild sampleFiles .down0003 dbOk (freshTx "platform")
      (by decide) (by decide)⟩

/-- C2, as stated, fails: when the `ALTER TABLE` statement of `Up0002` (its
second statement) is rejected, `Up0002` returns the error having submitted
two statements, neither of them `SET search_path TO public;`, and the
search path is still `platform`. -/
theorem up0002_failure_skips_restore :
    (Up0002 (dbFailAt 1 "boom") (freshTx "public")).2 = some "boom" ∧
    (Up0002 (dbFailAt 1 "boom") (freshTx "public")).1.submitted.length = 2 ∧
    plain setPublicSQL ∉ (Up0002 (dbFailAt 1 "boom") (freshTx "public")).1.submitted ∧
    (Up0002 (dbFailAt 1 "boom") (freshTx "public")).1.searchPath = "platform" := by
  decide

/-- C2, amended: the restore statement is issued on the success path only.
For every entry point other than `Down0001`, if the fragment at position `m`
(a statement after the switch to `platform`) is the first statement to fail,
the entry point returns that error at once: what it submitted is the
preamble, the switch and the fragments of positions 0..m, with no
`SET search_path TO public;` after them. -/
theorem failure_after_switch_returns_without_restore (build : Builder) (e : Embedded)
    (ep : EntryPoint) (db : Database) (w : World) (m : Nat) (err : Err)
    (hg : ep.guarded = true) (hm : m < (ep.fragments build e).length)
    (h : FirstFailure db w.submitted (ep.written build e) (ep.preamble.length + 1 + m) err) :
    (ep.run build e db w).2 = some err ∧
    (ep.run build e db w).1.submitted =
      w.submitted ++ (ep.preamble ++ [plain setPlatformSQL] ++
        (ep.fragments build e).take (m + 1)) := by
  have hs := submitAll_firstFailure db _ w _ err h
  rw [run_result, run_submitted, hs.1, hs.2]
  refine ⟨rfl, ?_⟩
  congr 1
  rw [written_guarded build e ep hg]
  have hlen : (ep.preamble ++ [plain setPlatformSQL]).length = ep.preamble.length + 1 := by
    simp
  rw [List.append_assoc (ep.preamble ++ [plain setPlatformSQL]),
    List.take_append_eq_append_take, hlen,
    List.take_of_length_le (by rw [hlen]; omega),
    show ep.preamble.length + 1 + m + 1 - (ep.preamble.length + 1) = m + 1 by omega,
    List.take_append_of_le_length (by omega)]

/-- Witness of C2 amended: the foreign-key statement of `Up0002` (fragment 1) fails. -/
theorem failure_after_switch_returns_without_restore_witness :
    (EntryPoint.run sampleBuild sampleFiles .up0002 (dbFailAt 2 "boom")
      (freshTx "public")).2 = some "boom" ∧
    (EntryPoint.run sampleBuild sampleFiles .up0002 (dbFailAt 2 "boom")
      (freshTx "public")).1.submitted =
      (freshTx "public").submitted ++ (EntryPoint.preamble .up0002 ++ [plain setPlatformSQL] ++
        (EntryPoint.fragments sampleBuild sampleFiles .up0002).take (1 + 1)) :=
  failure_after_switch_returns_without_restore sampleBuild sampleFiles .up0002
    (dbFailAt 2 "boom") (freshTx "public") 1 "boom" (by decide) (by decide) (by decide)


theorem submitAll_cons_first (db : Database) (s : Stmt) (ss : List Stmt) (w : World) :
    ∃ rest, (submitAll db (s :: ss) w).1.submitted = w.submitted ++ s :: rest := by
  have hsub := Exec_submitted db w s.sql s.args
  simp only [submitAll]
  rcases hx : Exec db w s.sql s.args with ⟨w1, _ | e1⟩
  · rw [hx] at hsub
    obtain ⟨n, _, hn⟩ := submitAll_prefix db ss w1
    refine ⟨ss.take n, ?_⟩
    simp only [] at hsub ⊢
    rw [hn, hsub]
    simp
  · rw [hx] at hsub
    exact ⟨[], by simpa using hsub⟩

/-- C9, as stated, fails for `Down0001`: on a database that accepts every
statement it submits its rollback file and nothing else, so neither
`SET search_path` statement is issued. -/
theorem down0001_has_no_guard :
    (Down0001 sampleFiles dbOk (freshTx "public")).2 = none ∧
    (Down0001 sampleFiles dbOk (freshTx "public")).1.submitted =
      [plain "DROP SCHEMA platform CASCADE;"] ∧
    plain setPlatformSQL ∉ (Down0001 sampleFiles dbOk (freshTx "public")).1.submitted ∧
    plain setPublicSQL ∉ (Down0001 sampleFiles dbOk (freshTx "public")).1.submitted := by
  decide

/-- C9, amended: `Down0002`, `Down0003` and `Down0004` invoke the namespace
guard: the first statement each submits is `SET search_path TO platform;`,
and a successful run submits the switch, the reverse fragments and
`SET search_path TO public;` in that order and ends with search path
`public`. `Down0001` submits its rollback file as its only statement. -/
theorem down_entry_points_guard (build : Builder) (e : Embedded) (db : Database)
    (w : World) :
    (∀ ep, ep = EntryPoint.down0002 ∨ ep = EntryPoint.down0003 ∨ ep = EntryPoint.down0004 →
      (∃ rest, (ep.run build e db w).1.submitted =
        w.submitted ++ plain setPlatformSQL :: rest) ∧
      ((ep.run build e db w).2 = none →
        (ep.run build e db w).1.submitted =
          w.submitted ++ ([plain setPlatformSQL] ++ ep.fragments build e ++
            [plain setPublicSQL]) ∧
        (ep.run build e db w).1.searchPath = "public")) ∧
    (Down0001 e db w).1.submitted = w.submitted ++ [plain e.rollback] := by
  refine ⟨fun ep hep => ?_, ?_⟩
  · have hg : ep.guarded = true := by
      rcases hep with h | h | h <;> subst h <;> rfl
    have hp : ep.preamble = [] := by
      rcases hep with h | h | h <;> subst h <;> rfl
    have hw : ep.written build e =
        plain setPlatformSQL :: (ep.fragments build e ++ [plain setPublicSQL]) := by
      rw [written_guarded build e ep hg, hp]
      rfl
    refine ⟨?_, fun hnone => ⟨?_, ?_⟩⟩
    · rw [run_submitted, hw]
      exact submitAll_cons_first db _ _ w
    · rw [run_result] at hnone
      rw [run_submitted, submitAll_submitted_of_none db _ w hnone, hw]
      rfl
    · rw [run_result, written_guarded build e ep hg] at hnone
      rw [run_searchPath, written_guarded build e ep hg]
      exact submitAll_restores db _ w hnone
  · have h := run_submitted build e .down0001 db w
    simp only [EntryPoint.run] at h
    rw [h]
    obtain ⟨rest, hrest⟩ := submitAll_cons_first db (plain e.rollback) [] w
    obtain ⟨n, hn, hpre⟩ := submitAll_prefix db [plain e.rollback] w
    have hw : EntryPoint.written build e .down0001 = [plain e.rollback] := rfl
    rw [hw]
    rw [hpre] at hrest ⊢
    have hn1 : n = 0 ∨ n = 1 := by
      simp at hn
      omega
    rcases hn1 with h0 | h1
    · subst h0
      simp at hrest
    · subst h1
      rfl

/-- Witness of C9 amended: `Down0004` on a database that accepts every statement. -/
theorem down_entry_points_guard_witness :
    (EntryPoint.run sampleBuild sampleFiles .down0004 dbOk (freshTx "platform")).2 = none ∧
    (EntryPoint.run sampleBuild sampleFiles .down0004 dbOk
      (freshTx "platform")).1.searchPath = "public" :=
  ⟨by decide,
    (((down_entry_points_guard sampleBuild sampleFiles dbOk (freshTx "platform")).1
      .down0004 (Or.inr (Or.inr rfl))).2 (by decide)).2⟩


theorem Exec_ok (db : Database) (w : World) (q : String) (a : List Arg)
    (h : db.respond w.submitted ⟨q, a⟩ = none) :
    Exec db w q a =
      ({ w with submitted := w.submitted ++ [⟨q, a⟩],
                searchPath := pathAfter db ⟨q, a⟩ w.searchPath }, none) := by
  simp only [Exec, h]

theorem Exec_fail (db : Database) (w : World) (q : String) (a : List Arg) (err : Err)
    (h : db.respond w.submitted ⟨q, a⟩ = some err) :
    Exec db w q a = ({ w with submitted := w.submitted ++ [⟨q, a⟩] }, some err) := by
  simp only [Exec, h]

theorem firstFailure_cons (db : Database) (hist : List Stmt) (s : Stmt) (ss : List Stmt)
    (k : Nat) (err : Err) (h : FirstFailure db hist (s :: ss) (k + 1) err) :
    db.respond hist s = none ∧ FirstFailure db (hist ++ [s]) ss k err := by
  obtain ⟨hk, hb, ha⟩ := h
  refine ⟨?_, by simpa using hk, fun j hj => ?_, ?_⟩
  · have := hb 0 (Nat.succ_pos k)
    rwa [answerAt_zero] at this
  · have := hb (j + 1) (by omega)
    rwa [answerAt_succ] at this
  · rwa [answerAt_succ] at ha

theorem answerAt_append_left (db : Database) (hist a b : List Stmt) (j : Nat)
    (hj : j < a.length) : answerAt db hist (a ++ b) j = answerAt db hist a j := by
  simp only [answerAt, List.getElem?_append_left hj,
    List.take_append_of_le_length (Nat.le_of_lt hj)]

theorem firstFailure_append_left (db : Database) (hist a b : List Stmt) (k : Nat) (err : Err)
    (hk : k < a.length) (h : FirstFailure db hist (a ++ b) k err) :
    FirstFailure db hist a k err := by
  obtain ⟨_, hb, ha⟩ := h
  refine ⟨hk, fun j hj => ?_, ?_⟩
  · rw [← answerAt_append_left db hist a b j (by omega)]
    exact hb j hj
  · rwa [← answerAt_append_left db hist a b k hk]

/-- The key loop, when the statement of position `i` is the first to fail:
the database error comes back unchanged and one line naming the key is logged. -/
theorem runKeys_failure (db : Database) (m : List (String × String)) (ks : List String)
    (w : World) (i : Nat) (err : Err) (key : String) (hkey : ks[i]? = some key)
    (h : FirstFailure db w.submitted (ks.map (fun k => plain (mapIndex m k))) i err) :
    (runKeys db m ks w).2 = some err ∧
    (runKeys db m ks w).1.output = w.output ++ ["scheme migration failed: " ++ key] := by
  induction ks generalizing w i with
  | nil => simp at hkey
  | cons k0 rest ih =>
    cases i with
    | zero =>
      have ha := h.2.2
      simp only [List.map_cons, answerAt_zero] at ha
      simp only [List.getElem?_cons_zero, Option.some.injEq] at hkey
      subst hkey
      simp [runKeys, Exec_fail db w _ [] err ha, Println]
    | succ i =>
      simp only [List.map_cons] at h
      obtain ⟨h0, hrest⟩ := firstFailure_cons db _ _ _ i err h
      simp only [List.getElem?_cons_succ] at hkey
      simp only [runKeys, Exec_ok db w _ [] h0]
      exact ih _ i hkey hrest

/-- C3, as stated, fails: when the fragment of key `settings` is rejected
with the database error `boom`, `Up0001` returns `boom` itself; the key
`settings` is no part of the returned error. -/
theorem up0001_error_lacks_fragment_name :
    (mapIndex (migrations sampleFiles) "settings" = "-- settings") ∧
    (Up0001 sampleBuild sampleFiles (dbFailOn "-- settings" "boom")
      (freshTx "public")).2 = some "boom" ∧
    ¬ ("settings".toList <:+: "boom".toList) := by
  decide

/-- C3, amended: when the fragment at position `i` of the key list is the
first statement to fail, `Up0001` returns the database error of that
statement itself, unchanged and unwrapped; the failing key is reported
only as the log line `scheme migration failed: <key>`. -/
theorem up0001_returns_database_error (build : Builder) (e : Embedded) (db : Database)
    (w : World) (i : Nat) (err : Err) (key : String) (hkey : keys[i]? = some key)
    (h : FirstFailure db w.submitted (EntryPoint.written build e .up0001) (i + 3) err) :
    (Up0001 build e db w).2 = some err ∧
    (Up0001 build e db w).1.output =
      w.output ++ ["Starting migration", "scheme migration failed: " ++ key] := by
  have hi : i < keys.length := by
    rcases Nat.lt_or_ge i keys.length with hlt | hge
    · exact hlt
    · rw [List.getElem?_eq_none hge] at hkey
      exact absurd hkey (by simp)
  rw [written_up0001] at h
  obtain ⟨h1, h⟩ := firstFailure_cons db _ _ _ _ err h
  obtain ⟨h2, h⟩ := firstFailure_cons db _ _ _ _ err h
  obtain ⟨h3, h⟩ := firstFailure_cons db _ _ _ _ err h
  have hf := firstFailure_append_left db _ (keys.map (fragmentOf e))
    (seedStmts build AllLocaleCode AllCurrencyCode ++ [plain setPublicSQL]) i err
    (by simpa using hi) h
  simp only [Up0001]
  rw [Exec_ok db (Println w "Starting migration") _ [] h1]
  simp only []
  rw [Exec_ok db _ _ [] h2]
  simp only []
  rw [Exec_ok db _ _ [] h3]
  simp only []
  have hr := runKeys_failure db (migrations e) keys
    { submitted := w.submitted ++ [plain "CREATE SCHEMA IF NOT EXISTS platform;"] ++
        [plain "CREATE SCHEMA fn;"] ++ [plain setPlatformSQL],
      searchPath := pathAfter db (plain setPlatformSQL)
        (pathAfter db (plain "CREATE SCHEMA fn;")
          (pathAfter db (plain "CREATE SCHEMA IF NOT EXISTS platform;") w.searchPath)),
      output := w.output ++ ["Starting migration"] } i err key hkey hf
  rcases hR : runKeys db (migrations e) keys _ with ⟨w4, _ | e4⟩
  · have e1 := congrArg Prod.snd hR
    exact absurd (hr.1.symm.trans e1) (by simp)
  · have e1 := congrArg Prod.snd hR
    have e2 := congrArg (fun r => r.1.output) hR
    simp only [] at e1 e2 ⊢
    exact ⟨e1.symm.trans hr.1, e2.symm.trans (hr.2.trans (by simp))⟩

/-- Witness of C3 amended: the fragment of key `settings` (position 1) is rejected. -/
theorem up0001_returns_database_error_witness :
    (Up0001 sampleBuild sampleFiles (dbFailAt 4 "boom") (freshTx "public")).2 = some "boom" ∧
    (Up0001 sampleBuild sampleFiles (dbFailAt 4 "boom") (freshTx "public")).1.output =
      (freshTx "public").output ++
        ["Starting migration", "scheme migration failed: " ++ "settings"] :=
  up0001_returns_database_error sampleBuild sampleFiles (dbFailAt 4 "boom")
    (freshTx "public") 1 "boom" "settings" (by decide) (by decide)


/-! ## Properties of the reference data seeder -/

theorem insertInitialDataOn_run (build : Builder) (ls : List LocaleCode)
    (cs : List CurrencyCode) (db : Database) (w : World) :
    core (insertInitialDataOn build ls cs db w) =
      core (submitAll db (seedStmts build ls cs) w) :=
  insertInitialDataOn_core build ls cs db w w ⟨rfl, rfl⟩

theorem insertInitialDataOn_submitted (build : Builder) (ls : List LocaleCode)
    (cs : List CurrencyCode) (db : Database) (w : World) :
    (insertInitialDataOn build ls cs db w).1.submitted =
      (submitAll db (seedStmts build ls cs) w).1.submitted :=
  congrArg (fun c => c.1) (insertInitialDataOn_run build ls cs db w)

theorem insertInitialDataOn_result (build : Builder) (ls : List LocaleCode)
    (cs : List CurrencyCode) (db : Database) (w : World) :
    (insertInitialDataOn build ls cs db w).2 =
      (submitAll db (seedStmts build ls cs) w).2 :=
  congrArg (fun c => c.2.2) (insertInitialDataOn_run build ls cs db w)

/-- C11: seed insertion errors abort the version like fragment errors. If
the locale_codes insert is rejected, `insertInitialData` returns that error
having submitted that one statement only (the currency_codes insert is not
attempted); and whenever `insertInitialData`, called on the transaction as
`Up0001` has left it after its schema statements, switch and fragments
(any world `w4` with those submitted statements and that search path),
returns an error, `Up0001` returns that same error, so it does not report
success. -/
theorem seed_errors_abort_version (build : Builder) (e : Embedded) (db : Database)
    (w : World) :
    (∀ err,
      db.respond w.submitted
        { sql := (build "locale_codes" (localeRecords AllLocaleCode)).sql,
          args := (build "currency_codes" (currencyRecords AllCurrencyCode)).args } = some err →
      (insertInitialData build db w).2 = some err ∧
      (insertInitialData build db w).1.submitted =
        w.submitted ++
          [ { sql := (build "locale_codes" (localeRecords AllLocaleCode)).sql,
              args := (build "currency_codes" (currencyRecords AllCurrencyCode)).args } ]) ∧
    (∀ err w4,
      (submitAll db
        ([plain "CREATE SCHEMA IF NOT EXISTS platform;", plain "CREATE SCHEMA fn;",
          plain setPlatformSQL] ++ keys.map (fragmentOf e)) w).2 = none →
      SameTx w4
        (submitAll db
          ([plain "CREATE SCHEMA IF NOT EXISTS platform;", plain "CREATE SCHEMA fn;",
            plain setPlatformSQL] ++ keys.map (fragmentOf e)) w).1 →
      (insertInitialData build db w4).2 = some err →
      (Up0001 build e db w).2 = some err) := by
  refine ⟨fun err h => ?_, fun err w4 hA hsame hS => ?_⟩
  · have hff : FirstFailure db w.submitted (seedStmts build AllLocaleCode AllCurrencyCode)
        0 err := by
      refine ⟨by simp [seedStmts], fun j hj => absurd hj (Nat.not_lt_zero j), ?_⟩
      simpa [seedStmts, answerAt] using h
    have hs := submitAll_firstFailure db _ w 0 err hff
    unfold insertInitialData
    rw [insertInitialDataOn_result, insertInitialDataOn_submitted, hs.1, hs.2]
    exact ⟨rfl, rfl⟩
  · have h2 := run_result build e .up0001 db w
    simp only [EntryPoint.run] at h2
    rw [h2, written_up0001, ← List.append_assoc, submitAll_append]
    unfold insertInitialData at hS
    rw [show (insertInitialDataOn build AllLocaleCode AllCurrencyCode db w4).2 = _ from
      congrArg (fun c => c.2.2)
        (insertInitialDataOn_core build AllLocaleCode AllCurrencyCode db w4 _ hsame)] at hS
    rcases hx : submitAll db
        ([plain "CREATE SCHEMA IF NOT EXISTS platform;", plain "CREATE SCHEMA fn;",
          plain setPlatformSQL] ++ keys.map (fragmentOf e)) w with ⟨w1, _ | e1⟩
    · rw [hx] at hS
      simp only [] at hS ⊢
      rw [submitAll_append]
      rcases hy : submitAll db (seedStmts build AllLocaleCode AllCurrencyCode) w1
        with ⟨w2, _ | e2⟩
      · rw [hy] at hS
        exact absurd hS (by simp [core])
      · rw [hy] at hS
        simpa [core] using hS
    · rw [hx] at hA
      exact absurd hA (by simp)

/-- Witness of C11: the locale_codes insert is rejected on a fresh transaction. -/
theorem seed_errors_abort_version_witness :
    (insertInitialData sampleBuild (dbFailAt 0 "boom") (freshTx "platform")).2 = some "boom" ∧
    (insertInitialData sampleBuild (dbFailAt 0 "boom") (freshTx "platform")).1.submitted =
      (freshTx "platform").submitted ++
        [ { sql := (sampleBuild "locale_codes" (localeRecords AllLocaleCode)).sql,
            args := (sampleBuild "currency_codes" (currencyRecords AllCurrencyCode)).args } ] :=
  (seed_errors_abort_version sampleBuild sampleFiles (dbFailAt 0 "boom")
    (freshTx "platform")).1 "boom" rfl


/-- C12: the seeder inserts each domain in a single batch statement. On
success `insertInitialData` has submitted exactly two statements: the insert
the builder produced for table `locale_codes` from all locale records, then
the insert it produced for `currency_codes` from all currency records. The
count is two for every pair of code lists, whatever their lengths. -/
theorem seeder_two_batch_statements (build : Builder) (ls : List LocaleCode)
    (cs : List CurrencyCode) (db : Database) (w : World)
    (h : (insertInitialDataOn build ls cs db w).2 = none) :
    (insertInitialDataOn build ls cs db w).1.submitted =
      w.submitted ++
        [ { sql := (build "locale_codes" (localeRecords ls)).sql,
            args := (build "currency_codes" (currencyRecords cs)).args },
          { sql := (build "currency_codes" (currencyRecords cs)).sql,
            args := (build "currency_codes" (currencyRecords cs)).args } ] ∧
    (insertInitialDataOn build ls cs db w).1.submitted.length = w.submitted.length + 2 ∧
    (localeRecords ls).length = ls.length ∧ (currencyRecords cs).length = cs.length := by
  rw [insertInitialDataOn_result] at h
  have hs := submitAll_submitted_of_none db _ w h
  rw [insertInitialDataOn_submitted, hs]
  refine ⟨rfl, by simp [seedStmts], by simp [localeRecords], by simp [currencyRecords]⟩

/-- Witness of C12: the seeder on a database that accepts every statement. -/
theorem seeder_two_batch_statements_witness :
    (insertInitialDataOn sampleBuild AllLocaleCode AllCurrencyCode dbOk
      (freshTx "platform")).2 = none ∧
    (insertInitialDataOn sampleBuild AllLocaleCode AllCurrencyCode dbOk
      (freshTx "platform")).1.submitted.length = (freshTx "platform").submitted.length + 2 :=
  ⟨rfl,
    (seeder_two_batch_statements sampleBuild AllLocaleCode AllCurrencyCode dbOk
      (freshTx "platform") rfl).2.1⟩

/-- C13, as stated, fails: with an empty locale list the seeder still
submits an insert statement for `locale_codes` (the one the builder returns
for zero rows); two statements are submitted, as for any other list. -/
theorem empty_code_list_still_submits_insert :
    (insertInitialDataOn sampleBuild [] AllCurrencyCode dbOk (freshTx "platform")).2 = none ∧
    (insertInitialDataOn sampleBuild [] AllCurrencyCode dbOk
      (freshTx "platform")).1.submitted.length = 2 ∧
    ((insertInitialDataOn sampleBuild [] AllCurrencyCode dbOk
      (freshTx "platform")).1.submitted.map (fun s => s.sql))[0]? =
        some (sampleBuild "locale_codes" []).sql := by
  refine ⟨rfl, rfl, rfl⟩

/-- C13, amended: an empty code list is not skipped. For an empty locale
list the first statement submitted is the insert the builder returns for
`locale_codes` with zero rows; for an empty currency list a successful run
has submitted the insert the builder returns for `currency_codes` with zero
rows as its second statement; and the seeder returns no error exactly when
the database accepts both statements. -/
theorem empty_code_list_is_seeded_like_any_other (build : Builder) (db : Database)
    (w : World) :
    (∀ cs, ∃ rest, (insertInitialDataOn build [] cs db w).1.submitted =
      w.submitted ++
        { sql := (build "locale_codes" []).sql,
          args := (build "currency_codes" (currencyRecords cs)).args } :: rest) ∧
    (∀ ls, (insertInitialDataOn build ls [] db w).2 = none →
      (insertInitialDataOn build ls [] db w).1.submitted =
        w.submitted ++
          [ { sql := (build "locale_codes" (localeRecords ls)).sql,
              args := (build "currency_codes" []).args },
            { sql := (build "currency_codes" []).sql,
              args := (build "currency_codes" []).args } ]) ∧
    (∀ ls cs, (insertInitialDataOn build ls cs db w).2 = none ↔
      AllSucceed db w.submitted (seedStmts build ls cs)) := by
  refine ⟨fun cs => ?_, fun ls h => ?_, fun ls cs => ?_⟩
  · rw [insertInitialDataOn_submitted]
    exact submitAll_cons_first db _ _ w
  · rw [insertInitialDataOn_result] at h
    rw [insertInitialDataOn_submitted, submitAll_submitted_of_none db _ w h]
    rfl
  · rw [insertInitialDataOn_result]
    exact submitAll_none_iff db _ w

/-- Witness of C13 amended: both code lists empty, every statement accepted. -/
theorem empty_code_list_is_seeded_like_any_other_witness :
    (insertInitialDataOn sampleBuild [] [] dbOk (freshTx "platform")).2 = none ∧
    (insertInitialDataOn sampleBuild [] [] dbOk (freshTx "platform")).1.submitted =
      (freshTx "platform").submitted ++
        [ { sql := (sampleBuild "locale_codes" (localeRecords [])).sql,
            args := (sampleBuild "currency_codes" []).args },
          { sql := (sampleBuild "currency_codes" []).sql,
            args := (sampleBuild "currency_codes" []).args } ] :=
  ⟨rfl,
    (empty_code_list_is_seeded_like_any_other sampleBuild dbOk (freshTx "platform")).2.1
      [] rfl⟩

/-- C14: the seeder is not idempotent. The builder is called with a table
name and the rows only (no conflict clause is ever passed), and a second
run builds and submits the same statements again. So on a database that
accepts the two inserts on the first run and rejects a repeated insert
with a uniqueness violation, the first run returns nil and the second run
stops at the locale_codes insert and returns that violation. -/
theorem seeder_not_idempotent (build : Builder) (db : Database) (w : World)
    (violation : Err)
    (hfirst : AllSucceed db w.submitted (seedStmts build AllLocaleCode AllCurrencyCode))
    (hpk : ∀ hist s, s ∈ seedStmts build AllLocaleCode AllCurrencyCode → s ∈ hist →
      db.respond hist s = some violation) :
    (insertInitialData build db w).2 = none ∧
    (insertInitialData build db (insertInitialData build db w).1).2 = some violation ∧
    (insertInitialData build db (insertInitialData build db w).1).1.submitted =
      w.submitted ++ seedStmts build AllLocaleCode AllCurrencyCode ++
        (seedStmts build AllLocaleCode AllCurrencyCode).take 1 := by
  have h1 : (insertInitialData build db w).2 = none := by
    unfold insertInitialData
    rw [insertInitialDataOn_result]
    exact (submitAll_none_iff db _ w).2 hfirst
  have hsub : (insertInitialData build db w).1.submitted =
      w.submitted ++ seedStmts build AllLocaleCode AllCurrencyCode := by
    unfold insertInitialData at h1 ⊢
    rw [insertInitialDataOn_result] at h1
    rw [insertInitialDataOn_submitted]
    exact submitAll_submitted_of_none db _ w h1
  have hff : FirstFailure db (insertInitialData build db w).1.submitted
      (seedStmts build AllLocaleCode AllCurrencyCode) 0 violation := by
    refine ⟨by simp [seedStmts], fun j hj => absurd hj (Nat.not_lt_zero j), ?_⟩
    rw [hsub]
    simp only [seedStmts, answerAt_zero]
    exact hpk _ _ (by simp [seedStmts]) (by simp [seedStmts])
  have hs := submitAll_firstFailure db _ (insertInitialData build db w).1 0 violation hff
  refine ⟨h1, ?_, ?_⟩
  · rw [show insertInitialData build db (insertInitialData build db w).1 =
      insertInitialDataOn build AllLocaleCode AllCurrencyCode db
        (insertInitialData build db w).1 from rfl, insertInitialDataOn_result]
    exact hs.2
  · rw [show insertInitialData build db (insertInitialData build db w).1 =
      insertInitialDataOn build AllLocaleCode AllCurrencyCode db
        (insertInitialData build db w).1 from rfl, insertInitialDataOn_submitted, hs.1, hsub]

/-- Witness of C14: two runs on a database with unique keys. -/
theorem seeder_not_idempotent_witness :
    (insertInitialData sampleBuild dbUnique (freshTx "platform")).2 = none ∧
    (insertInitialData sampleBuild dbUnique
      (insertInitialData sampleBuild dbUnique (freshTx "platform")).1).2 =
        some "pq: duplicate key value violates unique constraint" :=
  have h := seeder_not_idempotent sampleBuild dbUnique (freshTx "platform")
    "pq: duplicate key value violates unique constraint"
    (by decide)
    (fun hist s _ hs => by simp [dbUnique, hs])
  ⟨h.1, h.2.1⟩

/-- C15, as stated, fails: when both `ToSQL` calls report an error,
`insertInitialData` still executes the two statement texts it was handed
and returns nil. -/
theorem builder_error_is_discarded :
    (failingBuild "locale_codes" (localeRecords AllLocaleCode)).err ≠ none ∧
    (insertInitialData failingBuild dbOk (freshTx "platform")).2 = none ∧
    (insertInitialData failingBuild dbOk (freshTx "platform")).1.submitted.length = 2 := by
  refine ⟨by simp [failingBuild], rfl, rfl⟩

/-- C15, amended: the error result of the statement builder plays no part in
`insertInitialData`. It executes the statement text the builder returned
whether or not the builder reported an error, and its outcome is the one it
has with a builder that returns the same texts and arguments and no error:
nil exactly when the database accepts both statements. -/
theorem seeder_ignores_builder_error (build : Builder) (ls : List LocaleCode)
    (cs : List CurrencyCode) (db : Database) (w : World) :
    insertInitialDataOn build ls cs db w =
      insertInitialDataOn (fun table rows => { build table rows with err := none })
        ls cs db w ∧
    ((insertInitialDataOn build ls cs db w).2 = none ↔
      AllSucceed db w.submitted (seedStmts build ls cs)) := by
  refine ⟨rfl, ?_⟩
  rw [insertInitialDataOn_result]
  exact submitAll_none_iff db _ w

/-- C25: with the statement builder in interpolated mode, the mode of the
chain `insertInitialData` is written with (no `Prepared(true)`, so `ToSQL`
returns no arguments), every statement `insertInitialData` executes carries
the argument list returned by the building call that produced its text: the
statements submitted are a prefix of the locale_codes text with the locale
arguments followed by the currency_codes text with the currency arguments,
and the whole of it on success. -/
theorem seed_statements_run_with_own_arguments (build : Builder) (ls : List LocaleCode)
    (cs : List CurrencyCode) (db : Database) (w : World) (hmode : Interpolated build) :
    (∃ n, n ≤ 2 ∧
      (insertInitialDataOn build ls cs db w).1.submitted =
        w.submitted ++
          ([ { sql := (build "locale_codes" (localeRecords ls)).sql,
               args := (build "locale_codes" (localeRecords ls)).args },
             { sql := (build "currency_codes" (currencyRecords cs)).sql,
               args := (build "currency_codes" (currencyRecords cs)).args } ] :
            List Stmt).take n) ∧
    (∃ rest, (insertInitialDataOn build ls cs db w).1.submitted =
      w.submitted ++
        { sql := (build "locale_codes" (localeRecords ls)).sql,
          args := (build "locale_codes" (localeRecords ls)).args } :: rest) ∧
    ((insertInitialDataOn build ls cs db w).2 = none →
      (insertInitialDataOn build ls cs db w).1.submitted =
        w.submitted ++
          [ { sql := (build "locale_codes" (localeRecords ls)).sql,
              args := (build "locale_codes" (localeRecords ls)).args },
            { sql := (build "currency_codes" (currencyRecords cs)).sql,
              args := (build "currency_codes" (currencyRecords cs)).args } ]) := by
  have hseed : seedStmts build ls cs =
      [ { sql := (build "locale_codes" (localeRecords ls)).sql,
          args := (build "locale_codes" (localeRecords ls)).args },
        { sql := (build "currency_codes" (currencyRecords cs)).sql,
          args := (build "currency_codes" (currencyRecords cs)).args } ] := by
    simp only [seedStmts, hmode "locale_codes" (localeRecords ls),
      hmode "currency_codes" (currencyRecords cs)]
  refine ⟨?_, ?_, fun h => ?_⟩
  · obtain ⟨n, hn, hsub⟩ := submitAll_prefix db (seedStmts build ls cs) w
    refine ⟨n, by simpa [seedStmts] using hn, ?_⟩
    rw [insertInitialDataOn_submitted, hsub, hseed]
  · rw [insertInitialDataOn_submitted, hseed]
    exact submitAll_cons_first db _ _ w
  · rw [insertInitialDataOn_result] at h
    rw [insertInitialDataOn_submitted, submitAll_submitted_of_none db _ w h, hseed]

/-- Witness of C25: the sample builder returns no arguments. -/
theorem seed_statements_run_with_own_arguments_witness :
    Interpolated sampleBuild ∧
    (insertInitialDataOn sampleBuild AllLocaleCode AllCurrencyCode dbOk
      (freshTx "platform")).1.submitted =
      (freshTx "platform").submitted ++
        [ { sql := (sampleBuild "locale_codes" (localeRecords AllLocaleCode)).sql,
            args := (sampleBuild "locale_codes" (localeRecords AllLocaleCode)).args },
          { sql := (sampleBuild "currency_codes" (currencyRecords AllCurrencyCode)).sql,
            args := (sampleBuild "currency_codes" (currencyRecords AllCurrencyCode)).args } ] :=
  ⟨fun _ _ => rfl,
    (seed_statements_run_with_own_arguments sampleBuild AllLocaleCode AllCurrencyCode dbOk
      (freshTx "platform") (fun _ _ => rfl)).2.2 rfl⟩


/-! ## Properties of the SQL of versions 0002 and 0004 -/

theorem created_up0002 (build : Builder) (e : Embedded) :
    createdBy (EntryPoint.written build e .up0002) =
      [.column "parent_line_item_id", .constraint "fk_cli_parent",
        .index "idx_cli_parent"] := rfl

theorem created_up0004 (build : Builder) (e : Embedded) :
    createdBy (EntryPoint.written build e .up0004) =
      [.column "price_type", .column "price_amount", .column "price_percent",
        .column "unit_original_price"] := rfl

/-- C16: each Down undoes its Up's structural additions in strictly reverse
order of creation. `Up0002` creates the column `parent_line_item_id`, the
constraint `fk_cli_parent`, the index `idx_cli_parent`; `Down0002` drops the
index, then the constraint, then the column. `Up0004` adds `price_type`,
`price_amount`, `price_percent`, `unit_original_price`; `Down0004` drops
them in the exact reverse order. -/
theorem down_drops_in_reverse_order_of_creation (build : Builder) (e : Embedded) :
    createdBy (EntryPoint.written build e .up0002) =
      [.column "parent_line_item_id", .constraint "fk_cli_parent",
        .index "idx_cli_parent"] ∧
    droppedBy (EntryPoint.written build e .down0002) =
      [.index "idx_cli_parent", .constraint "fk_cli_parent",
        .column "parent_line_item_id"] ∧
    droppedBy (EntryPoint.written build e .down0002) =
      (createdBy (EntryPoint.written build e .up0002)).reverse ∧
    createdBy (EntryPoint.written build e .up0004) =
      [.column "price_type", .column "price_amount", .column "price_percent",
        .column "unit_original_price"] ∧
    droppedBy (EntryPoint.written build e .down0004) =
      [.column "unit_original_price", .column "price_percent", .column "price_amount",
        .column "price_type"] ∧
    droppedBy (EntryPoint.written build e .down0004) =
      (createdBy (EntryPoint.written build e .up0004)).reverse := by
  refine ⟨rfl, rfl, rfl, rfl, rfl, rfl⟩

theorem ops_up0002 (build : Builder) (e : Embedded) :
    (EntryPoint.written build e .up0002).map (fun s => schemaOpOf s.sql) =
      [.noChange, .create (.column "parent_line_item_id"),
        .create (.constraint "fk_cli_parent"), .createIfNotExists (.index "idx_cli_parent"),
        .noChange] := rfl

theorem ops_down0002 (build : Builder) (e : Embedded) :
    (EntryPoint.written build e .down0002).map (fun s => schemaOpOf s.sql) =
      [.noChange, .dropIfExists (.index "idx_cli_parent"),
        .dropIfExists (.constraint "fk_cli_parent"),
        .dropIfExists (.column "parent_line_item_id"), .noChange] := rfl

theorem ops_up0004 (build : Builder) (e : Embedded) :
    (EntryPoint.written build e .up0004).map (fun s => schemaOpOf s.sql) =
      [.noChange, .create (.column "price_type"), .create (.column "price_amount"),
        .create (.column "price_percent"), .create (.column "unit_original_price"),
        .noChange, .noChange, .noChange] := rfl

theorem ops_down0004 (build : Builder) (e : Embedded) :
    (EntryPoint.written build e .down0004).map (fun s => schemaOpOf s.sql) =
      [.noChange, .dropIfExists (.column "unit_original_price"),
        .dropIfExists (.column "price_percent"), .dropIfExists (.column "price_amount"),
        .dropIfExists (.column "price_type"), .noChange] := rfl

/-- C17: structural round trip for versions 0002 and 0004. With the schema
of `checkout_line_items` as the set of its columns, constraints and indexes:
from any schema that holds none of the objects Up creates, the statements of
Up all succeed, the statements of Down all succeed after them, and the
result is exactly the starting schema. -/
theorem up_then_down_restores_schema (build : Builder) (e : Embedded) (schema : Schema) :
    ((∀ o, o ∈ createdBy (EntryPoint.written build e .up0002) → o ∉ schema) →
      ∃ mid, applyStmts schema (EntryPoint.written build e .up0002) = some mid ∧
        applyStmts mid (EntryPoint.written build e .down0002) = some schema) ∧
    ((∀ o, o ∈ createdBy (EntryPoint.written build e .up0004) → o ∉ schema) →
      ∃ mid, applyStmts schema (EntryPoint.written build e .up0004) = some mid ∧
        applyStmts mid (EntryPoint.written build e .down0004) = some schema) := by
  have hc2 := created_up0002 build e
  have hc4 := created_up0004 build e
  constructor
  · intro h
    rw [hc2] at h
    have h1 := h (.column "parent_line_item_id") (by simp)
    have h2 := h (.constraint "fk_cli_parent") (by simp)
    have h3 := h (.index "idx_cli_parent") (by simp)
    refine ⟨insert (.index "idx_cli_parent") (insert (.constraint "fk_cli_parent")
      (insert (.column "parent_line_item_id") schema)), ?_, ?_⟩
    · simp only [applyStmts, ops_up0002]
      simp [applyOps, applyOp, h1, h2]
    · simp only [applyStmts, ops_down0002]
      simp [applyOps, applyOp, Finset.erase_insert, h1, h2, h3]
  · intro h
    rw [hc4] at h
    have h1 := h (.column "price_type") (by simp)
    have h2 := h (.column "price_amount") (by simp)
    have h3 := h (.column "price_percent") (by simp)
    have h4 := h (.column "unit_original_price") (by simp)
    refine ⟨insert (.column "unit_original_price") (insert (.column "price_percent")
      (insert (.column "price_amount") (insert (.column "price_type") schema))), ?_, ?_⟩
    · simp only [applyStmts, ops_up0004]
      simp [applyOps, applyOp, h1, h2, h3, h4]
    · simp only [applyStmts, ops_down0004]
      simp [applyOps, applyOp, Finset.erase_insert, h1, h2, h3, h4]

/-- Witness of C17: both versions from a schema holding only the column `id`. -/
theorem up_then_down_restores_schema_witness :
    (∃ mid, applyStmts {SchemaObject.column "id"}
        (EntryPoint.written sampleBuild sampleFiles .up0002) = some mid ∧
      applyStmts mid (EntryPoint.written sampleBuild sampleFiles .down0002) =
        some {SchemaObject.column "id"}) ∧
    (∃ mid, applyStmts {SchemaObject.column "id"}
        (EntryPoint.written sampleBuild sampleFiles .up0004) = some mid ∧
      applyStmts mid (EntryPoint.written sampleBuild sampleFiles .down0004) =
        some {SchemaObject.column "id"}) :=
  have h := up_then_down_restores_schema sampleBuild sampleFiles {SchemaObject.column "id"}
  ⟨h.1 (by decide), h.2 (by decide)⟩

theorem up0004_submitted_on_success (build : Builder) (e : Embedded) (db : Database)
    (w : World) (h : (Up0004 db w).2 = none) :
    (Up0004 db w).1.submitted = w.submitted ++ EntryPoint.written build e .up0004 := by
  have h1 := run_submitted build e .up0004 db w
  have h2 := run_result build e .up0004 db w
  simp only [EntryPoint.run] at h1 h2
  rw [h2] at h
  rw [h1]
  exact submitAll_submitted_of_none db _ w h

theorem findUpdate_up0004 {α : Type} [Zero α] (build : Builder) (e : Embedded) :
    (findUpdate [] (EntryPoint.written build e .up0004) :
        Option (List (SqlPred α) × UpdateStmt α)) =
      some ([nonNegativeCheck "price_amount", nonNegativeCheck "price_percent",
              nonNegativeCheck "unit_original_price"],
            { column := "unit_original_price", source := .col "unit_price",
              condition := .and (.isNull (.col "unit_original_price"))
                (.isNotNull (.col "unit_price")) }) := rfl

theorem nonNegativeCheck_accepts_iff {α : Type} [LinearOrder α] [Zero α] (column : String)
    (row : Row α) :
    checkAccepts (nonNegativeCheck column) row = true ↔
      ∀ v, row column = some v → 0 ≤ v := by
  cases h : row column with
  | none => simp [checkAccepts, nonNegativeCheck, SqlPred.eval, SqlTerm.eval, h]
  | some v =>
    by_cases hv : 0 ≤ v <;>
      simp [checkAccepts, nonNegativeCheck, SqlPred.eval, SqlTerm.eval, h, hv]

theorem backfillWhere_true_iff {α : Type} [LinearOrder α] (row : Row α) :
    SqlPred.eval row (.and (.isNull (.col "unit_original_price"))
        (.isNotNull (.col "unit_price"))) = some true ↔
      (row "unit_original_price" = none ∧ row "unit_price" ≠ none) := by
  cases h1 : row "unit_original_price" <;> cases h2 : row "unit_price" <;>
    simp [SqlPred.eval, SqlTerm.eval, h1, h2]

/-- C18, as stated, fails: on a table holding a row with `unit_price = -5`
and `unit_original_price` NULL, the backfill of `Up0004` does not set
`unit_original_price` to `unit_price`: the rewritten row breaks the `CHECK`
that `Up0004` attached to `unit_original_price` one statement earlier, so
the statement is rejected. -/
theorem backfill_rejected_for_negative_unit_price :
    rowNegativePrice "unit_original_price" = none ∧
    rowNegativePrice "unit_price" = some (-5) ∧
    (backfillOf (EntryPoint.written sampleBuild sampleFiles .up0004)
      [rowUnitPrice500, rowNegativePrice]).isNone = true := by
  refine ⟨rfl, rfl, rfl⟩

/-- C18, amended: the sixth statement `Up0004` submits is the backfill
`UPDATE`, run under the `CHECK` clauses of the three `ADD COLUMN` statements
before it. On a table whose rows satisfy those clauses and in which no row
with `unit_original_price` NULL has a negative `unit_price`, it succeeds,
keeps the number and order of rows, sets `unit_original_price` to
`unit_price` in exactly the rows in which `unit_original_price` is NULL and
`unit_price` is not NULL, and leaves every other row and every other column
unchanged. If a row with `unit_original_price` NULL has a negative
`unit_price`, the statement is rejected and no row is changed. -/
theorem backfill_fills_missing_original_price {α : Type} [LinearOrder α] [Zero α]
    (build : Builder) (e : Embedded) (rows : List (Row α)) :
    (∀ db w, (Up0004 db w).2 = none →
      (Up0004 db w).1.submitted = w.submitted ++ EntryPoint.written build e .up0004) ∧
    ((∀ row, row ∈ rows →
        (∀ v, row "price_amount" = some v → 0 ≤ v) ∧
        (∀ v, row "price_percent" = some v → 0 ≤ v)) →
      (∀ row, row ∈ rows → row "unit_original_price" = none →
        ∀ v, row "unit_price" = some v → 0 ≤ v) →
      ∃ rows', backfillOf (EntryPoint.written build e .up0004) rows = some rows' ∧
        rows'.length = rows.length ∧
        ∀ (i : Nat) (row : Row α), rows[i]? = some row →
          ∃ row', rows'[i]? = some row' ∧
            (row "unit_original_price" = none ∧ row "unit_price" ≠ none →
              row' "unit_original_price" = row "unit_price") ∧
            (¬ (row "unit_original_price" = none ∧ row "unit_price" ≠ none) → row' = row) ∧
            (∀ c, c ≠ "unit_original_price" → row' c = row c)) ∧
    ((∃ row, row ∈ rows ∧ row "unit_original_price" = none ∧
        ∃ v, row "unit_price" = some v ∧ v < 0) →
      backfillOf (EntryPoint.written build e .up0004) rows = none) := by
  refine ⟨fun db w h => up0004_submitted_on_success build e db w h, fun hinv hpos => ?_,
    fun hneg => ?_⟩
  · have hall : (rows.all (fun row =>
        SqlPred.eval row (.and (.isNull (.col "unit_original_price"))
            (.isNotNull (.col "unit_price"))) != some true ||
          [nonNegativeCheck "price_amount", nonNegativeCheck "price_percent",
            nonNegativeCheck "unit_original_price"].all (fun p =>
              checkAccepts p (row.set "unit_original_price"
                (SqlTerm.eval row (.col "unit_price"))))) = true) := by
      rw [List.all_eq_true]
      intro row hrow
      by_cases hc : SqlPred.eval row (.and (.isNull (.col "unit_original_price"))
          (.isNotNull (.col "unit_price"))) = some true
      · have hw := (backfillWhere_true_iff row).1 hc
        simp only [hc, bne_self_eq_false, Bool.false_or, List.all_cons, List.all_nil,
          Bool.and_true, Bool.and_eq_true, nonNegativeCheck_accepts_iff]
        refine ⟨?_, ?_, ?_⟩
        · intro v hv
          exact (hinv row hrow).1 v (by simpa [Row.set] using hv)
        · intro v hv
          exact (hinv row hrow).2 v (by simpa [Row.set] using hv)
        · intro v hv
          exact hpos row hrow hw.1 v (by simpa [Row.set, SqlTerm.eval] using hv)
      · simp [hc]
    refine ⟨UpdateStmt.run
      { column := "unit_original_price", source := .col "unit_price",
        condition := .and (.isNull (.col "unit_original_price"))
          (.isNotNull (.col "unit_price")) } rows, ?_, ?_, ?_⟩
    · simp only [backfillOf, findUpdate_up0004, UpdateStmt.runChecked]
      rw [if_pos hall]
    · simp [UpdateStmt.run]
    · intro i row hrow
      refine ⟨_, by simp only [UpdateStmt.run]; rw [List.getElem?_map, hrow]; rfl, ?_, ?_, ?_⟩
      · intro hw
        have hc := (backfillWhere_true_iff row).2 hw
        simp only []
        rw [if_pos hc]
        simp [Row.set, SqlTerm.eval]
      · intro hw
        have hc : ¬ SqlPred.eval row (.and (.isNull (.col "unit_original_price"))
            (.isNotNull (.col "unit_price"))) = some true :=
          fun hc => hw ((backfillWhere_true_iff row).1 hc)
        simp only []
        rw [if_neg hc]
      · intro c hc
        simp only []
        split
        · simp [Row.set, hc]
        · rfl
  · obtain ⟨row, hrow, hnull, v, hv, hlt⟩ := hneg
    have hc := (backfillWhere_true_iff row).2 ⟨hnull, by simp [hv]⟩
    have hall : ¬ (rows.all (fun row =>
        SqlPred.eval row (.and (.isNull (.col "unit_original_price"))
            (.isNotNull (.col "unit_price"))) != some true ||
          [nonNegativeCheck "price_amount", nonNegativeCheck "price_percent",
            nonNegativeCheck "unit_original_price"].all (fun p =>
              checkAccepts p (row.set "unit_original_price"
                (SqlTerm.eval row (.col "unit_price"))))) = true) := by
      rw [List.all_eq_true]
      intro hcon
      have hr := hcon row hrow
      simp only [hc, bne_self_eq_false, Bool.false_or, List.all_cons, List.all_nil,
        Bool.and_true, Bool.and_eq_true, nonNegativeCheck_accepts_iff] at hr
      have := hr.2.2 v (by simp [Row.set, SqlTerm.eval, hv])
      exact absurd this (not_le.2 hlt)
    simp only [backfillOf, findUpdate_up0004, UpdateStmt.runChecked]
    rw [if_neg hall]

/-- Witness of C18 amended: a row with `unit_price = 500` and
`unit_original_price` NULL ends with `unit_original_price = 500`; a row whose
`unit_original_price` is 450 keeps it. -/
theorem backfill_fills_missing_original_price_witness :
    ∃ rows', backfillOf (EntryPoint.written sampleBuild sampleFiles .up0004)
        [rowUnitPrice500, rowAlreadyFilled] = some rows' ∧
      (∃ row', rows'[0]? = some row' ∧ row' "unit_original_price" = some 500) ∧
      (∃ row', rows'[1]? = some row' ∧ row' "unit_original_price" = some 450) :=
  have h := (backfill_fills_missing_original_price sampleBuild sampleFiles
    [rowUnitPrice500, rowAlreadyFilled]).2.1
    (by
      intro row hrow
      simp only [List.mem_cons, List.mem_singleton, List.not_mem_nil, or_false] at hrow
      rcases hrow with h | h <;> subst h <;>
        exact ⟨fun v hv => Option.noConfusion (show (none : Option Int) = some v from hv),
          fun v hv => Option.noConfusion (show (none : Option Int) = some v from hv)⟩)
    (by
      intro row hrow hnull v hv
      simp only [List.mem_cons, List.mem_singleton, List.not_mem_nil, or_false] at hrow
      rcases hrow with h | h
      · subst h
        have h5 : rowUnitPrice500 "unit_price" = some 500 := rfl
        rw [h5] at hv
        have hv5 : (500 : Int) = v := Option.some.inj hv
        omega
      · subst h
        exact absurd hnull (by decide))
  h.elim fun rows' hr =>
    ⟨rows', hr.1,
      (hr.2.2 0 rowUnitPrice500 rfl).elim fun row' hr0 =>
        ⟨row', hr0.1, (hr0.2.1 ⟨by decide, by decide⟩).trans (by decide)⟩,
      (hr.2.2 1 rowAlreadyFilled rfl).elim fun row' hr1 =>
        ⟨row', hr1.1,
          (congrFun (hr1.2.2.1 (by decide)) "unit_original_price").trans (by decide)⟩⟩

/-- C19: the `ADD COLUMN` statements of `Up0004` for `price_amount`,
`price_percent` and `unit_original_price` each carry the `CHECK` clause
`<column> IS NULL OR <column> >= 0` on the column they add (these are the
clauses read off the statements `Up0004` submits); the clause accepts a row
in which the column is NULL, accepts every value greater than or equal to
zero and rejects every negative value. -/
theorem price_checks_reject_negative {α : Type} [LinearOrder α] [Zero α]
    (build : Builder) (e : Embedded) :
    (∀ db w, (Up0004 db w).2 = none →
      (Up0004 db w).1.submitted = w.submitted ++ EntryPoint.written build e .up0004) ∧
    (columnChecksOf (EntryPoint.written build e .up0004) : List (String × SqlPred α)) =
      [("price_amount", nonNegativeCheck "price_amount"),
        ("price_percent", nonNegativeCheck "price_percent"),
        ("unit_original_price", nonNegativeCheck "unit_original_price")] ∧
    ∀ (p : String × SqlPred α),
      p ∈ (columnChecksOf (EntryPoint.written build e .up0004) :
        List (String × SqlPred α)) →
      ∀ row : Row α,
        (row p.1 = none → checkAccepts p.2 row = true) ∧
        (∀ v, row p.1 = some v → 0 ≤ v → checkAccepts p.2 row = true) ∧
        (∀ v, row p.1 = some v → v < 0 → checkAccepts p.2 row = false) := by
  have hcc : (columnChecksOf (EntryPoint.written build e .up0004) :
      List (String × SqlPred α)) =
      [("price_amount", nonNegativeCheck "price_amount"),
        ("price_percent", nonNegativeCheck "price_percent"),
        ("unit_original_price", nonNegativeCheck "unit_original_price")] := rfl
  refine ⟨fun db w h => up0004_submitted_on_success build e db w h, hcc, fun p hp row => ?_⟩
  rw [hcc] at hp
  have hp2 : p.2 = nonNegativeCheck p.1 := by
    simp only [List.mem_cons, List.mem_singleton, List.not_mem_nil, or_false] at hp
    rcases hp with h | h | h <;> subst h <;> rfl
  rw [hp2]
  refine ⟨fun h => ?_, fun v h hv => ?_, fun v h hv => ?_⟩
  · simp [checkAccepts, nonNegativeCheck, SqlPred.eval, SqlTerm.eval, h]
  · simp [checkAccepts, nonNegativeCheck, SqlPred.eval, SqlTerm.eval, h, hv]
  · simp [checkAccepts, nonNegativeCheck, SqlPred.eval, SqlTerm.eval, h, not_le.2 hv]

/-- Witness of C19: for the clause `Up0004` attaches to `price_amount`,
`price_amount = -1` is rejected and `price_amount = 0` is accepted. -/
theorem price_checks_reject_negative_witness :
    checkAccepts (nonNegativeCheck "price_amount")
      (fun c => if c = "price_amount" then some (-1 : Int) else none) = false ∧
    checkAccepts (nonNegativeCheck "price_amount")
      (fun c => if c = "price_amount" then some (0 : Int) else none) = true :=
  have h := (price_checks_reject_negative sampleBuild sampleFiles).2.2
    ("price_amount", nonNegativeCheck "price_amount")
    (List.mem_cons_self _ _ :
      (("price_amount", nonNegativeCheck "price_amount") : String × SqlPred Int) ∈
        [("price_amount", nonNegativeCheck "price_amount"),
          ("price_percent", nonNegativeCheck "price_percent"),
          ("unit_original_price", nonNegativeCheck "unit_original_price")])
  ⟨(h (fun c => if c = "price_amount" then some (-1 : Int) else none)).2.2 (-1)
      (by decide) (by decide),
    (h (fun c => if c = "price_amount" then some (0 : Int) else none)).2.1 0
      (by decide) (by decide)⟩

/-! ## Properties of the connection string -/

theorem append_ne_self (a b : String) (hb : b ≠ "") : a ++ b ≠ a := by
  intro h
  have hl := congrArg String.length h
  rw [String.length_append] at hl
  have hb0 : b.length = 0 := by omega
  have hd : b.data = [] := List.length_eq_zero.1 hb0
  exact hb (String.ext hd)

/-- C20: `main` builds the connection string as
`host=H dbname=N user=U password=P sslmode=S` from the five environment
values in that order, and appends ` port=PORT` exactly when
`PLATFORM_DB_PORT` is non-empty; with an empty port variable the string is
the five fields and nothing more. -/
theorem dsn_fields_and_optional_port (getenv : String → String) :
    (getenv "PLATFORM_DB_PORT" = "" →
      mainDSN getenv =
        "host=" ++ getenv "PLATFORM_DB_HOST" ++ " dbname=" ++ getenv "PLATFORM_DB_NAME" ++
          " user=" ++ getenv "PLATFORM_DB_USER" ++ " password=" ++
          getenv "PLATFORM_DB_PASSWORD" ++ " sslmode=" ++ getenv "PLATFORM_DB_SSL") ∧
    (getenv "PLATFORM_DB_PORT" ≠ "" →
      mainDSN getenv =
        "host=" ++ getenv "PLATFORM_DB_HOST" ++ " dbname=" ++ getenv "PLATFORM_DB_NAME" ++
          " user=" ++ getenv "PLATFORM_DB_USER" ++ " password=" ++
          getenv "PLATFORM_DB_PASSWORD" ++ " sslmode=" ++ getenv "PLATFORM_DB_SSL" ++
          " port=" ++ getenv "PLATFORM_DB_PORT") ∧
    (mainDSN getenv =
        "host=" ++ getenv "PLATFORM_DB_HOST" ++ " dbname=" ++ getenv "PLATFORM_DB_NAME" ++
          " user=" ++ getenv "PLATFORM_DB_USER" ++ " password=" ++
          getenv "PLATFORM_DB_PASSWORD" ++ " sslmode=" ++ getenv "PLATFORM_DB_SSL" ↔
      getenv "PLATFORM_DB_PORT" = "") := by
  refine ⟨fun h => by simp [mainDSN, h], fun h => by simp [mainDSN, h], ?_⟩
  constructor
  · intro h
    by_contra hp
    simp only [mainDSN, hp, ne_eq, not_false_eq_true, if_true] at h
    rw [String.append_assoc] at h
    refine append_ne_self _ (" port=" ++ getenv "PLATFORM_DB_PORT") ?_ h
    intro h0
    have := congrArg String.length h0
    simp only [String.length_append] at this
    have h6 : " port=".length = 6 := by decide
    have h00 : "".length = 0 := by decide
    omega
  · intro h
    simp [mainDSN, h]

/-- Witness of C20: the sample environment with and without a port. -/
theorem dsn_fields_and_optional_port_witness :
    mainDSN sampleEnv =
      "host=db.internal dbname=shop user=migrator password=secret sslmode=disable port=5433" ∧
    mainDSN sampleEnvNoPort =
      "host=db.internal dbname=shop user=migrator password=secret sslmode=disable" :=
  ⟨((dsn_fields_and_optional_port sampleEnv).2.1 (by decide)).trans (by decide),
    ((dsn_fields_and_optional_port sampleEnvNoPort).1 (by decide)).trans (by decide)⟩


/-! ## Properties of `main` -/

/-- C21: connectivity errors are fatal before any migration runs. The
migration run (`goose.UpContext`) is invoked exactly when both the
connection attempt and the ping have succeeded, and then after both of
them; the ping is bounded by a 30-second timeout; if the connection or the
ping fails, `main` panics and no migration run is among its actions. -/
theorem migrations_run_only_after_connect_and_ping (env : MainEnv) :
    (MainEvent.gooseUp "/app/sql" ∈ (main env).1 ↔
      env.connect "postgres" (mainDSN env.getenv) = none ∧ env.ping 30 = none) ∧
    (MainEvent.gooseUp "/app/sql" ∈ (main env).1 →
      ∃ rest, (main env).1 =
        [.connect "postgres" (mainDSN env.getenv), .ping 30, .gooseUp "/app/sql"] ++ rest) ∧
    (∀ err, env.connect "postgres" (mainDSN env.getenv) = some err →
      (∃ msg, (main env).2 = .panic msg) ∧ (∀ dir, MainEvent.gooseUp dir ∉ (main env).1)) ∧
    (∀ err, env.connect "postgres" (mainDSN env.getenv) = none → env.ping 30 = some err →
      (main env).2 = .panic err ∧ (∀ dir, MainEvent.gooseUp dir ∉ (main env).1) ∧
      MainEvent.ping 30 ∈ (main env).1) := by
  cases hc : env.connect "postgres" (mainDSN env.getenv) with
  | some e1 => simp [main, hc]
  | none =>
    cases hp : env.ping 30 with
    | some e2 => simp [main, hc, hp]
    | none =>
      cases hu : env.up "/app/sql" with
      | some e3 => simp [main, hc, hp, hu]
      | none => simp [main, hc, hp, hu]

/-- Witness of C21: the ping fails after a successful connection. -/
theorem migrations_run_only_after_connect_and_ping_witness :
    (main (sampleMain none (some "context deadline exceeded") none)).2 =
      .panic "context deadline exceeded" ∧
    (∀ dir, MainEvent.gooseUp dir ∉
      (main (sampleMain none (some "context deadline exceeded") none)).1) ∧
    MainEvent.ping 30 ∈ (main (sampleMain none (some "context deadline exceeded") none)).1 :=
  (migrations_run_only_after_connect_and_ping
    (sampleMain none (some "context deadline exceeded") none)).2.2.2
    "context deadline exceeded" rfl rfl

/-- C22: `main` terminates with exit status zero exactly when the
connection, the ping and the migration run all succeed; if the migration
run returns an error, `main` prints `Migration failed: ` with the error and
terminates by a panic carrying it, with a non-zero status. -/
theorem exit_zero_iff_all_succeed (env : MainEnv) :
    (exitStatus (main env).2 = 0 ↔
      env.connect "postgres" (mainDSN env.getenv) = none ∧ env.ping 30 = none ∧
        env.up "/app/sql" = none) ∧
    (∀ err, env.connect "postgres" (mainDSN env.getenv) = none → env.ping 30 = none →
      env.up "/app/sql" = some err →
      MainEvent.println ("Migration failed: " ++ " " ++ err) ∈ (main env).1 ∧
      (main env).2 = .panic err ∧ exitStatus (main env).2 ≠ 0) := by
  cases hc : env.connect "postgres" (mainDSN env.getenv) with
  | some e1 => simp [main, hc, exitStatus]
  | none =>
    cases hp : env.ping 30 with
    | some e2 => simp [main, hc, hp, exitStatus]
    | none =>
      cases hu : env.up "/app/sql" with
      | some e3 => simp [main, hc, hp, hu, exitStatus]
      | none => simp [main, hc, hp, hu, exitStatus]

/-- Witness of C22: the migration run fails. -/
theorem exit_zero_iff_all_succeed_witness :
    MainEvent.println ("Migration failed: " ++ " " ++ "ERROR: relation exists") ∈
      (main (sampleMain none none (some "ERROR: relation exists"))).1 ∧
    (main (sampleMain none none (some "ERROR: relation exists"))).2 =
      .panic "ERROR: relation exists" ∧
    exitStatus (main (sampleMain none none (some "ERROR: relation exists"))).2 ≠ 0 :=
  (exit_zero_iff_all_succeed (sampleMain none none (some "ERROR: relation exists"))).2
    "ERROR: relation exists" rfl rfl rfl

/-- C26, as stated, fails: two runs that differ only in
`PLATFORM_DB_PASSWORD` and fail to connect with the same driver error panic
with different messages. -/
theorem connection_panic_message_depends_on_password :
    (∀ name, name ≠ "PLATFORM_DB_PASSWORD" → sampleEnvOtherPassword name = sampleEnv name) ∧
    (main { getenv := sampleEnv, connect := fun _ _ => some "dial tcp: refused",
            ping := fun _ => none, up := fun _ => none }).2 ≠
      (main { getenv := sampleEnvOtherPassword,
              connect := fun _ _ => some "dial tcp: refused",
              ping := fun _ => none, up := fun _ => none }).2 := by
  refine ⟨fun name h => by simp [sampleEnvOtherPassword, h], by decide⟩

/-- C26, amended: when the connection attempt fails, `main` panics with
`connection error: ` followed by the connection string, an empty line and
the driver error. The connection string holds the password, so the message
depends on it; two runs with the same connection string that fail with the
same driver error produce the same message. -/
theorem connection_panic_message_is_dsn_and_error (env env2 : MainEnv) (err : Err)
    (h1 : env.connect "postgres" (mainDSN env.getenv) = some err)
    (h2 : env2.connect "postgres" (mainDSN env2.getenv) = some err)
    (hdsn : mainDSN env.getenv = mainDSN env2.getenv) :
    (main env).2 = .panic ("connection error: " ++ mainDSN env.getenv ++ "\n\n" ++ err) ∧
    (main env).2 = (main env2).2 := by
  have e1 : (main env).2 =
      .panic ("connection error: " ++ mainDSN env.getenv ++ "\n\n" ++ err) := by
    simp [main, h1]
  have e2 : (main env2).2 =
      .panic ("connection error: " ++ mainDSN env2.getenv ++ "\n\n" ++ err) := by
    simp [main, h2]
  exact ⟨e1, by rw [e1, e2, hdsn]⟩

/-- Witness of C26 amended: two sample runs with the same environment. -/
theorem connection_panic_message_is_dsn_and_error_witness :
    (main (sampleMain (some "dial tcp: refused") none none)).2 =
      .panic ("connection error: " ++ mainDSN sampleEnv ++ "\n\n" ++ "dial tcp: refused") ∧
    (main (sampleMain (some "dial tcp: refused") none none)).2 =
      (main (sampleMain (some "dial tcp: refused") (some "unused") none)).2 :=
  connection_panic_message_is_dsn_and_error
    (sampleMain (some "dial tcp: refused") none none)
    (sampleMain (some "dial tcp: refused") (some "unused") none) "dial tcp: refused"
    rfl rfl rfl


/-! ## The key list and the map of `Up0001`, the builder arguments, the code tables -/

theorem migrations_keys (e : Embedded) :
    (migrations e).map (fun p => p.1) =
      ["platform", "settings", "customers", "files", "products", "categories",
        "catalogFilters", "listingFilters", "content", "groups", "services", "apps",
        "productSnapshots", "addresses", "emails", "orderBoards", "fileLinks",
        "translations", "discovery", "reviews", "security", "triggers", "searchLangConfig",
        "searchV1", "searchKeyword", "suggestions", "searchSynonyms", "searchLevenshtein",
        "searchStopwords", "searchMetrics", "searchAll", "featureFlags", "tagsAndLabels",
        "features", "slots", "checkoutV2", "checkoutV2Idempotency", "checkoutV2Orders",
        "checkoutV2OrdersPii"] := rfl

theorem lookup_of_mem_nodup (l : List (String × String))
    (h : (l.map (fun p => p.1)).Nodup) (p : String × String) (hp : p ∈ l) :
    l.lookup p.1 = some p.2 := by
  induction l with
  | nil => simp at hp
  | cons q rest ih =>
    obtain ⟨qk, qv⟩ := q
    simp only [List.map_cons, List.nodup_cons] at h
    rcases List.mem_cons.1 hp with heq | hmem
    · subst heq
      simp [List.lookup]
    · have hne : p.1 ≠ qk := by
        intro hk
        exact h.1 (hk ▸ List.mem_map_of_mem (fun p => p.1) hmem)
      have hb : (p.1 == qk) = false := by simpa using hne
      simp only [List.lookup, hb]
      exact ih h.2 hmem

/-- C23, evaluated on the code: the key `search`, at position 20 of the key
list, has no entry in the map, so the loop looks it up as the empty string
and executes that; on an all-success run the statement at position 23
(three statements precede the loop) is the empty statement. -/
theorem up0001_key_search_has_no_map_entry (e : Embedded) :
    keys[20]? = some "search" ∧
    (migrations e).lookup "search" = none ∧
    mapIndex (migrations e) "search" = "" ∧
    fragmentOf e "search" = plain "" ∧
    (Up0001 sampleBuild sampleFiles dbOk (freshTx "public")).2 = none ∧
    (Up0001 sampleBuild sampleFiles dbOk (freshTx "public")).1.submitted[23]? =
      some (plain "") := by
  refine ⟨rfl, rfl, rfl, rfl, by decide, by decide⟩

/-- C24: every entry of the map of `Up0001` is executed exactly once on an
all-success run. The key list has no duplicate key, the map has no
duplicate key, every key of the map occurs exactly once in the key list,
and an all-success run submits one statement per key of the list, in list
order, between the search-path switch and the seed inserts. -/
theorem every_map_entry_runs_once (build : Builder) (e : Embedded) (db : Database)
    (w : World) :
    keys.Nodup ∧
    ((migrations e).map (fun p => p.1)).Nodup ∧
    (∀ p, p ∈ migrations e → keys.count p.1 = 1) ∧
    (∀ p, p ∈ migrations e → mapIndex (migrations e) p.1 = p.2) ∧
    (AllSucceed db w.submitted (EntryPoint.written build e .up0001) →
      (Up0001 build e db w).1.submitted =
        w.submitted ++
          ([plain "CREATE SCHEMA IF NOT EXISTS platform;", plain "CREATE SCHEMA fn;",
            plain setPlatformSQL] ++
          (keys.map (fun key => plain (mapIndex (migrations e) key)) ++
            (seedStmts build AllLocaleCode AllCurrencyCode ++ [plain setPublicSQL])))) := by
  have hk : keys.Nodup := by decide
  have hm : ((migrations e).map (fun p => p.1)).Nodup := by
    rw [migrations_keys]
    decide
  refine ⟨hk, hm, fun p hp => ?_, fun p hp => ?_, fun h => ?_⟩
  · have hmem : p.1 ∈ (migrations e).map (fun p => p.1) := List.mem_map_of_mem _ hp
    rw [migrations_keys] at hmem
    have hall : ∀ k, k ∈ ["platform", "settings", "customers", "files", "products",
        "categories", "catalogFilters", "listingFilters", "content", "groups", "services",
        "apps", "productSnapshots", "addresses", "emails", "orderBoards", "fileLinks",
        "translations", "discovery", "reviews", "security", "triggers", "searchLangConfig",
        "searchV1", "searchKeyword", "suggestions", "searchSynonyms", "searchLevenshtein",
        "searchStopwords", "searchMetrics", "searchAll", "featureFlags", "tagsAndLabels",
        "features", "slots", "checkoutV2", "checkoutV2Idempotency", "checkoutV2Orders",
        "checkoutV2OrdersPii"] → keys.count k = 1 := by decide
    exact hall _ hmem
  · simp only [mapIndex, lookup_of_mem_nodup (migrations e) hm p hp, Option.getD_some]
  · have hn := (submitAll_none_iff db _ w).2 h
    have h1 := run_submitted build e .up0001 db w
    simp only [EntryPoint.run] at h1
    rw [h1, submitAll_submitted_of_none db _ w hn, written_up0001]
    rfl

/-- Witness of C24: the map entry of key `settings`, and an all-success run. -/
theorem every_map_entry_runs_once_witness :
    keys.count "settings" = 1 ∧
    mapIndex (migrations sampleFiles) "settings" = "-- settings" ∧
    (Up0001 sampleBuild sampleFiles dbOk (freshTx "public")).1.submitted =
      (freshTx "public").submitted ++
        ([plain "CREATE SCHEMA IF NOT EXISTS platform;", plain "CREATE SCHEMA fn;",
          plain setPlatformSQL] ++
        (keys.map (fun key => plain (mapIndex (migrations sampleFiles) key)) ++
          (seedStmts sampleBuild AllLocaleCode AllCurrencyCode ++ [plain setPublicSQL]))) :=
  have h := every_map_entry_runs_once sampleBuild sampleFiles dbOk (freshTx "public")
  ⟨h.2.2.1 ("settings", "-- settings") (by decide),
    h.2.2.2.1 ("settings", "-- settings") (by decide),
    h.2.2.2.2 (by decide)⟩

theorem allLocaleCode_declared : AllLocaleCode = declaredLocaleCode.map (fun p => p.2) := by
  decide!

theorem allCurrencyCode_declared :
    AllCurrencyCode = declaredCurrencyCode.map (fun p => p.2) := by
  decide!

theorem allCountryCode_declared :
    AllCountryCode = declaredCountryCode.map (fun p => p.2) := by
  decide!

theorem allLocaleCode_nodup : AllLocaleCode.Nodup := by decide!

theorem allCurrencyCode_nodup : AllCurrencyCode.Nodup := by decide!

theorem allCountryCode_nodup : AllCountryCode.Nodup := by decide!

theorem all_lengths :
    AllLocaleCode.length = 85 ∧ AllCurrencyCode.length = 160 ∧
      AllCountryCode.length = 203 := by
  refine ⟨?_, ?_, ?_⟩ <;> decide!

/-- C27: each `All*` list is complete. `AllLocaleCode`, `AllCurrencyCode`
and `AllCountryCode` list the constants of their type in declaration
order: the values of the list are the values of the declared constants,
position by position; no declared constant is listed twice and each value
occurs exactly once; the lengths are 85, 160 and 203. -/
theorem all_lists_are_the_declared_constants :
    AllLocaleCode = declaredLocaleCode.map (fun p => p.2) ∧
    AllCurrencyCode = declaredCurrencyCode.map (fun p => p.2) ∧
    AllCountryCode = declaredCountryCode.map (fun p => p.2) ∧
    declaredLocaleCode.Nodup ∧ declaredCurrencyCode.Nodup ∧ declaredCountryCode.Nodup ∧
    (∀ c, c ∈ declaredLocaleCode.map (fun p => p.2) → AllLocaleCode.count c = 1) ∧
    (∀ c, c ∈ declaredCurrencyCode.map (fun p => p.2) → AllCurrencyCode.count c = 1) ∧
    (∀ c, c ∈ declaredCountryCode.map (fun p => p.2) → AllCountryCode.count c = 1) ∧
    AllLocaleCode.length = 85 ∧ AllCurrencyCode.length = 160 ∧
    AllCountryCode.length = 203 := by
  refine ⟨allLocaleCode_declared, allCurrencyCode_declared, allCountryCode_declared,
    List.Nodup.of_map _ (allLocaleCode_declared ▸ allLocaleCode_nodup),
    List.Nodup.of_map _ (allCurrencyCode_declared ▸ allCurrencyCode_nodup),
    List.Nodup.of_map _ (allCountryCode_declared ▸ allCountryCode_nodup),
    fun c hc => ?_, fun c hc => ?_, fun c hc => ?_, all_lengths⟩
  · exact List.count_eq_one_of_mem allLocaleCode_nodup (allLocaleCode_declared ▸ hc)
  · exact List.count_eq_one_of_mem allCurrencyCode_nodup (allCurrencyCode_declared ▸ hc)
  · exact List.count_eq_one_of_mem allCountryCode_nodup (allCountryCode_declared ▸ hc)

/-- Witness of C27: the constant `CountryCodeUa` occurs once in `AllCountryCode`. -/
theorem all_lists_are_the_declared_constants_witness :
    AllCountryCode.count CountryCodeUa = 1 :=
  all_lists_are_the_declared_constants.2.2.2.2.2.2.2.2.1 CountryCodeUa (by decide!)


/-! ## The enumeration code tables -/

/-- C6: each enumeration code list is duplicate-free within its domain: no
two positions of `AllLocaleCode` hold the same string, and likewise for
`AllCurrencyCode` and for `AllCountryCode`. -/
theorem all_code_lists_nodup :
    AllLocaleCode.Nodup ∧ AllCurrencyCode.Nodup ∧ AllCountryCode.Nodup := by
  exact ⟨allLocaleCode_nodup, allCurrencyCode_nodup, allCountryCode_nodup⟩

end Migrations
